import Mathlib

set_option linter.unusedVariables false

/-!
# PciUtilityPkg: write policy, probe engine, write engine and enumeration

A shallow embedding of the two `PciUtility.c` applications of the package:

* `Applications/PciUtility.c` (the policy-table variant, namespace `PciUtility`),
* `Applications/PciUtility/PciUtility.c` (the raw-write variant, namespace `PciUtility.Raw`).

Machine integers are natural numbers with explicit truncation. Console output
(`Print`, `ClearScreen`) is not modelled. The configuration fabric
(`mRbIo->Pci.Read` / `mRbIo->Pci.Write`) is an arbitrary state machine; every call issued
to it is appended to a trace. Keyboard input is the finite list of the keys still to come;
a `WaitKey` on the empty list never returns, which is `none`.
-/

namespace PciUtility

/-! ## Types -/

/-- Display mode / access width selector (`DISP_MODE`). -/
inductive DISP_MODE where
  | DISP_BYTE
  | DISP_WORD
  | DISP_DWORD
  deriving DecidableEq, Repr, Fintype

/-- Classification of a write (`WRITE_POLICY`). -/
inductive WRITE_POLICY where
  | WP_BLOCK_RO
  | WP_RW_DIRECT
  | WP_RW1C
  | WP_DANGEROUS_BAR
  | WP_DANGEROUS_CAP
  deriving DecidableEq, Repr, Fintype

/-- Modelled from the spec: the type `EFI_STATUS` and the macro `EFI_ERROR` come from the UEFI
headers, which are not part of the repository. Following the external-interface section
("Status is a success/failure indicator only"), a status is `EFI_SUCCESS` or a failure; the two
failures the applications name themselves are kept apart, any other failure carries its code. -/
inductive EFI_STATUS where
  | EFI_SUCCESS
  | EFI_ACCESS_DENIED
  | EFI_ABORTED
  | EFI_FAILURE (code : Nat)
  deriving DecidableEq, Repr

/-- The macro `EFI_ERROR`: the status is a failure. -/
def EFI_ERROR : EFI_STATUS → Bool
  | EFI_STATUS.EFI_SUCCESS => false
  | _ => true

/-- Width argument of the root-bridge protocol (`EfiPciWidthUint8/16/32`). -/
inductive EFI_PCI_WIDTH where
  | EfiPciWidthUint8
  | EfiPciWidthUint16
  | EfiPciWidthUint32
  deriving DecidableEq, Repr, Fintype

/-- Number of bits moved by an access of the given protocol width. -/
def EFI_PCI_WIDTH.bits : EFI_PCI_WIDTH → Nat
  | EfiPciWidthUint8 => 8
  | EfiPciWidthUint16 => 16
  | EfiPciWidthUint32 => 32

/-- The configuration fabric behind `mRbIo->Pci`: a state machine over `σ`.
`Read st w addr` gives the next state, the status and the content of the caller's buffer after
the call; `Write st w addr v` gives the next state and the status. -/
structure PCI_ROOT_BRIDGE (σ : Type) where
  Read : σ → EFI_PCI_WIDTH → Nat → σ × EFI_STATUS × Nat
  Write : σ → EFI_PCI_WIDTH → Nat → Nat → σ × EFI_STATUS

/-- One call issued to the fabric. -/
inductive BusOp where
  | read (w : EFI_PCI_WIDTH) (addr : Nat)
  | write (w : EFI_PCI_WIDTH) (addr : Nat) (val : Nat)
  deriving DecidableEq, Repr

/-- Whether the call is a write. -/
def BusOp.isWrite : BusOp → Bool
  | BusOp.write _ _ _ => true
  | BusOp.read _ _ => false

/-- The fabric state together with the calls issued so far, oldest first. -/
structure Fabric (σ : Type) where
  bus : σ
  trace : List BusOp

/-- A key stroke (`EFI_INPUT_KEY`). -/
structure EFI_INPUT_KEY where
  ScanCode : Nat
  UnicodeChar : Nat
  deriving DecidableEq, Repr

/-- Modelled from the spec: the codes of the input source's named keys (up, down, left, right,
escape, enter, tab, function keys) are declared in the UEFI console headers, which are not part
of the repository; this and the nine constants after it carry the values of the UEFI
specification. -/
def SCAN_UP : Nat := 0x01
def SCAN_DOWN : Nat := 0x02
def SCAN_RIGHT : Nat := 0x03
def SCAN_LEFT : Nat := 0x04
def SCAN_F1 : Nat := 0x0B
def SCAN_F2 : Nat := 0x0C
def SCAN_F9 : Nat := 0x13
def SCAN_ESC : Nat := 0x17
def CHAR_TAB : Nat := 0x09
def CHAR_CARRIAGE_RETURN : Nat := 0x0D

def MAX_PCI_DEVS : Nat := 4096

/-- A discovered function (`PCI_DEV_INFO`). -/
structure PCI_DEV_INFO where
  Bus : Nat
  Dev : Nat
  Func : Nat
  Vid : Nat
  Did : Nat
  BaseClass : Nat
  SubClass : Nat
  ProgIf : Nat
  deriving DecidableEq, Repr

open DISP_MODE WRITE_POLICY EFI_STATUS EFI_PCI_WIDTH

/-! ## Keys -/

/-- The source's `WaitKey`: blocks until a key arrives. -/
def WaitKey : List EFI_INPUT_KEY → Option (EFI_INPUT_KEY × List EFI_INPUT_KEY)
  | [] => none
  | k :: ks => some (k, ks)

def IsEsc (Key : EFI_INPUT_KEY) : Bool :=
  Key.UnicodeChar == 0 && Key.ScanCode == SCAN_ESC

def IsEnter (Key : EFI_INPUT_KEY) : Bool :=
  Key.UnicodeChar == CHAR_CARRIAGE_RETURN

def IsTab (Key : EFI_INPUT_KEY) : Bool :=
  Key.UnicodeChar == CHAR_TAB

/-! ## Fabric access -/

/-- The source's `PciCfgAddr`: `Address[7:0]=Reg, [15:8]=Func, [23:16]=Dev, [31:24]=Bus`. -/
def PciCfgAddr (Bus Dev Func Reg : Nat) : Nat :=
  (Reg &&& 0xFF) ||| (Func <<< 8) ||| (Dev <<< 16) ||| (Bus <<< 24)

/-- The source's `mRbIo->Pci.Read` into a buffer of the width's size, recorded in the trace. -/
def PciRead {σ : Type} (rb : PCI_ROOT_BRIDGE σ) (w : EFI_PCI_WIDTH) (B D F R : Nat)
    (fab : Fabric σ) : Fabric σ × EFI_STATUS × Nat :=
  let r := rb.Read fab.bus w (PciCfgAddr B D F R)
  ({ bus := r.1, trace := fab.trace ++ [BusOp.read w (PciCfgAddr B D F R)] },
    r.2.1, r.2.2 % 2 ^ w.bits)

/-- The source's `mRbIo->Pci.Write` of a value of the width's size, recorded in the trace. -/
def PciWrite {σ : Type} (rb : PCI_ROOT_BRIDGE σ) (w : EFI_PCI_WIDTH) (B D F R V : Nat)
    (fab : Fabric σ) : Fabric σ × EFI_STATUS :=
  let r := rb.Write fab.bus w (PciCfgAddr B D F R) V
  ({ bus := r.1, trace := fab.trace ++ [BusOp.write w (PciCfgAddr B D F R) V] }, r.2)

def PciRead8 {σ : Type} (rb : PCI_ROOT_BRIDGE σ) (B D F R : Nat) (fab : Fabric σ) :
    Fabric σ × EFI_STATUS × Nat :=
  PciRead rb EfiPciWidthUint8 B D F R fab

def PciRead16 {σ : Type} (rb : PCI_ROOT_BRIDGE σ) (B D F R : Nat) (fab : Fabric σ) :
    Fabric σ × EFI_STATUS × Nat :=
  PciRead rb EfiPciWidthUint16 B D F R fab

def PciRead32 {σ : Type} (rb : PCI_ROOT_BRIDGE σ) (B D F R : Nat) (fab : Fabric σ) :
    Fabric σ × EFI_STATUS × Nat :=
  PciRead rb EfiPciWidthUint32 B D F R fab

def PciWrite8 {σ : Type} (rb : PCI_ROOT_BRIDGE σ) (B D F R V : Nat) (fab : Fabric σ) :
    Fabric σ × EFI_STATUS :=
  PciWrite rb EfiPciWidthUint8 B D F R V fab

def PciWrite16 {σ : Type} (rb : PCI_ROOT_BRIDGE σ) (B D F R V : Nat) (fab : Fabric σ) :
    Fabric σ × EFI_STATUS :=
  PciWrite rb EfiPciWidthUint16 B D F R V fab

def PciWrite32 {σ : Type} (rb : PCI_ROOT_BRIDGE σ) (B D F R V : Nat) (fab : Fabric σ) :
    Fabric σ × EFI_STATUS :=
  PciWrite rb EfiPciWidthUint32 B D F R V fab

/-! ## Cursor helpers -/

/-- The source's `AlignCursor`: `(UINT16)(Cursor & ~1U)` for words, `(UINT16)(Cursor & ~3U)` for dwords. -/
def AlignCursor (Cursor : Nat) (Mode : DISP_MODE) : Nat :=
  if Mode = DISP_WORD then (Cursor &&& 0xFFFFFFFE) % 65536
  else if Mode = DISP_DWORD then (Cursor &&& 0xFFFFFFFC) % 65536
  else Cursor

def StepByMode (Mode : DISP_MODE) : Nat :=
  if Mode = DISP_WORD then 2
  else if Mode = DISP_DWORD then 4
  else 1

/-! ## Safety / policy -/

/-- The source's `GetWritePolicy`: classification of the aligned offset. -/
def GetWritePolicy (Bus Dev Func Off : Nat) (Mode : DISP_MODE) : WRITE_POLICY :=
  let Off := AlignCursor Off Mode
  if Off < 0x04 then WP_BLOCK_RO
  else if Off = 0x08 then WP_BLOCK_RO
  else if Off = 0x09 ∨ Off = 0x0A ∨ Off = 0x0B then WP_BLOCK_RO
  else if Off = 0x0E then WP_BLOCK_RO
  else if Off = 0x06 ∧ Mode = DISP_WORD then WP_RW1C
  else if Off ≥ 0x10 ∧ Off ≤ 0x24 then WP_DANGEROUS_BAR
  else if Off ≥ 0x34 then WP_DANGEROUS_CAP
  else WP_RW_DIRECT

/-- The source's `IsProbeSafe`: only `0x40..0xFF` may be probed. -/
def IsProbeSafe (Off : Nat) (Mode : DISP_MODE) : Bool :=
  decide (Off ≥ 0x40 ∧ Off < 0x100)

/-! ## Probe -/

/-- The outputs of a probe: the returned status and the four `OUT` values. -/
structure ProbeOut where
  Status : EFI_STATUS
  OutOld : Nat
  OutTest : Nat
  OutReadBack : Nat
  OutMask : Nat
  deriving DecidableEq, Repr

/-- The protocol width used for a display mode. -/
def WidthOfMode : DISP_MODE → EFI_PCI_WIDTH
  | DISP_BYTE => EfiPciWidthUint8
  | DISP_WORD => EfiPciWidthUint16
  | DISP_DWORD => EfiPciWidthUint32

/-- The body shared by the three width branches of `ProbeWritableMaskAtCursor`, which differ
only in the integer type: read `Old`, write `Test = ~Old`, read back `Rb`, restore `Old`
anyway, then report. `Cursor` is already aligned and inside the probe window. -/
def ProbeAtWidth {σ : Type} (rb : PCI_ROOT_BRIDGE σ) (w : EFI_PCI_WIDTH)
    (Bus Dev Func Cursor : Nat) (fab : Fabric σ) : Fabric σ × ProbeOut :=
  let r1 := PciRead rb w Bus Dev Func Cursor fab
  if EFI_ERROR r1.2.1 then (r1.1, ⟨r1.2.1, 0, 0, 0, 0⟩)
  else
    let Old := r1.2.2
    let Test := (Old ^^^ 0xFFFFFFFF) % 2 ^ w.bits
    let r2 := PciWrite rb w Bus Dev Func Cursor Test r1.1
    if EFI_ERROR r2.2 then (r2.1, ⟨r2.2, 0, 0, 0, 0⟩)
    else
      let r3 := PciRead rb w Bus Dev Func Cursor r2.1
      let r4 := PciWrite rb w Bus Dev Func Cursor Old r3.1
      if EFI_ERROR r3.2.1 then (r4.1, ⟨r3.2.1, 0, 0, 0, 0⟩)
      else
        let Rb := r3.2.2
        (r4.1, ⟨EFI_SUCCESS, Old, Test, Rb, (Old ^^^ Rb) % 2 ^ w.bits⟩)

/-- The source's `ProbeWritableMaskAtCursor`. -/
def ProbeWritableMaskAtCursor {σ : Type} (rb : PCI_ROOT_BRIDGE σ)
    (Bus Dev Func : Nat) (Mode : DISP_MODE) (Cursor : Nat) (fab : Fabric σ) :
    Fabric σ × ProbeOut :=
  let Cursor := AlignCursor Cursor Mode
  if !IsProbeSafe Cursor Mode then (fab, ⟨EFI_ACCESS_DENIED, 0, 0, 0, 0⟩)
  else if Mode = DISP_BYTE then ProbeAtWidth rb EfiPciWidthUint8 Bus Dev Func Cursor fab
  else if Mode = DISP_WORD then ProbeAtWidth rb EfiPciWidthUint16 Bus Dev Func Cursor fab
  else ProbeAtWidth rb EfiPciWidthUint32 Bus Dev Func Cursor fab

/-! ## PCI scan -/

/-- The source's `ReadPciFuncInfo`: `none` is the `FALSE` return. -/
def ReadPciFuncInfo {σ : Type} (rb : PCI_ROOT_BRIDGE σ) (Bus Dev Func : Nat)
    (fab : Fabric σ) : Fabric σ × Option PCI_DEV_INFO :=
  let r0 := PciRead16 rb Bus Dev Func 0x00 fab
  if EFI_ERROR r0.2.1 || r0.2.2 == 0xFFFF then (r0.1, none)
  else
    let r1 := PciRead16 rb Bus Dev Func 0x02 r0.1
    let r2 := PciRead8 rb Bus Dev Func 0x09 r1.1
    let r3 := PciRead8 rb Bus Dev Func 0x0A r2.1
    let r4 := PciRead8 rb Bus Dev Func 0x0B r3.1
    (r4.1, some { Bus := Bus, Dev := Dev, Func := Func, Vid := r0.2.2, Did := r1.2.2,
                  ProgIf := r2.2.2, SubClass := r3.2.2, BaseClass := r4.2.2 })

/-- The source's `if (Count < MAX_PCI_DEVS) List[Count++] = Info;` with `Count` the length of the list. -/
def PushDev (List0 : List PCI_DEV_INFO) (Info : PCI_DEV_INFO) : List PCI_DEV_INFO :=
  if List0.length < MAX_PCI_DEVS then List0 ++ [Info] else List0

/-- One iteration of the loop over functions 1..7 of `ScanAllPci`. -/
def ScanFunc {σ : Type} (rb : PCI_ROOT_BRIDGE σ) (Bus Dev : Nat)
    (st : Fabric σ × List PCI_DEV_INFO) (Func : Nat) : Fabric σ × List PCI_DEV_INFO :=
  let r := ReadPciFuncInfo rb Bus Dev Func st.1
  match r.2 with
  | some Info => (r.1, PushDev st.2 Info)
  | none => (r.1, st.2)

/-- One iteration of the loop over devices of `ScanAllPci`. -/
def ScanDev {σ : Type} (rb : PCI_ROOT_BRIDGE σ) (Bus : Nat)
    (st : Fabric σ × List PCI_DEV_INFO) (Dev : Nat) : Fabric σ × List PCI_DEV_INFO :=
  let r := ReadPciFuncInfo rb Bus Dev 0 st.1
  match r.2 with
  | none => (r.1, st.2)
  | some Info0 =>
    let h := PciRead8 rb Bus Dev 0 0x0E r.1
    if h.2.2 &&& 0x80 = 0 then (h.1, PushDev st.2 Info0)
    else (List.range' 1 7).foldl (ScanFunc rb Bus Dev) (h.1, PushDev st.2 Info0)

/-- One iteration of the loop over buses of `ScanAllPci`. -/
def ScanBus {σ : Type} (rb : PCI_ROOT_BRIDGE σ)
    (st : Fabric σ × List PCI_DEV_INFO) (Bus : Nat) : Fabric σ × List PCI_DEV_INFO :=
  (List.range 32).foldl (ScanDev rb Bus) st

/-- The source's `ScanAllPci`. `Allocated` is the outcome of `AllocateZeroPool`: `false` when it
returned `NULL`, and then the function returns 0 at once (`if (List == NULL) return 0;`), with
no record and no fabric call. Otherwise the three loops run and the list holds `Count`
records. -/
def ScanAllPci {σ : Type} (rb : PCI_ROOT_BRIDGE σ) (Allocated : Bool) (fab : Fabric σ) :
    Fabric σ × List PCI_DEV_INFO :=
  if Allocated = false then (fab, [])
  else (List.range 256).foldl (ScanBus rb) (fab, [])

/-! ## Config view helpers -/

/-- The source's `ReadConfig256`: 256 byte reads, in order. -/
def ReadConfig256 {σ : Type} (rb : PCI_ROOT_BRIDGE σ) (Bus Dev Func : Nat)
    (fab : Fabric σ) : Fabric σ × List Nat :=
  (List.range 0x100).foldl
    (fun st off =>
      let r := PciRead8 rb Bus Dev Func off st.1
      (r.1, st.2 ++ [r.2.2]))
    (fab, [])

/-! ## Hex input -/

def IsHexChar (c : Nat) : Bool :=
  (decide (c ≥ 0x30) && decide (c ≤ 0x39)) || (decide (c ≥ 0x61) && decide (c ≤ 0x66)) ||
    (decide (c ≥ 0x41) && decide (c ≤ 0x46))

/-- The source's `HexVal`, with `UINTN` of 64 bits. -/
def HexVal (c : Nat) : Nat :=
  if c ≥ 0x30 ∧ c ≤ 0x39 then c - 0x30
  else if c ≥ 0x61 ∧ c ≤ 0x66 then 10 + (c - 0x61)
  else (10 + (c + 2 ^ 64 - 0x41)) % 2 ^ 64

/-- The loop of `ReadFixedHex`, for the `IsEsc` of either application: `got` digits read so far,
`val` the value so far. `none`: the keys ran out while a digit was still awaited. -/
def ReadFixedHexLoop (esc : EFI_INPUT_KEY → Bool) (Digits : Nat) :
    List EFI_INPUT_KEY → Nat → Nat → Option (EFI_STATUS × Nat × List EFI_INPUT_KEY)
  | [], got, val => if got < Digits then none else some (EFI_SUCCESS, val, [])
  | Key :: ks, got, val =>
    if got < Digits then
      if esc Key then some (EFI_ABORTED, val, ks)
      else if IsHexChar Key.UnicodeChar then
        ReadFixedHexLoop esc Digits ks (got + 1)
          (((val <<< 4) % 2 ^ 64) ||| HexVal Key.UnicodeChar)
      else ReadFixedHexLoop esc Digits ks got val
    else some (EFI_SUCCESS, val, Key :: ks)

/-- The source's `ReadFixedHex`: status, `*OutVal` and the keys left. -/
def ReadFixedHex (Digits : Nat) (keys : List EFI_INPUT_KEY) :
    Option (EFI_STATUS × Nat × List EFI_INPUT_KEY) :=
  ReadFixedHexLoop IsEsc Digits keys 0 0

/-- The source's `(Mode==DISP_BYTE)?2U:(Mode==DISP_WORD)?4U:8U`. -/
def HexDigits (Mode : DISP_MODE) : Nat :=
  if Mode = DISP_BYTE then 2 else if Mode = DISP_WORD then 4 else 8

/-! ## Write at cursor -/

/-- What a call that waits for keys leaves behind: `Status = none` when it never returns
(it waits for a key that does not come), the keys left and the fabric as it then is. -/
structure WriteResult (σ : Type) where
  Status : Option EFI_STATUS
  keys : List EFI_INPUT_KEY
  fab : Fabric σ

/-- The closing `WaitKey(&K); return Status;` of a screen. -/
def AckReturn {σ : Type} (Status : EFI_STATUS) (keys : List EFI_INPUT_KEY) (fab : Fabric σ) :
    WriteResult σ :=
  match WaitKey keys with
  | none => { Status := none, keys := [], fab := fab }
  | some (_, ks) => { Status := some Status, keys := ks, fab := fab }

/-- The "Special handling / direct write" part of `DoWriteAtCursor` (policy-table variant):
the fabric calls issued for the value `Val`, and the write's status. -/
def WriteTransform {σ : Type} (rb : PCI_ROOT_BRIDGE σ) (Bus Dev Func : Nat) (Mode : DISP_MODE)
    (Cursor : Nat) (Pol : WRITE_POLICY) (Val : Nat) (fab : Fabric σ) : Fabric σ × EFI_STATUS :=
  if Mode = DISP_WORD ∧ Cursor = 0x04 then
    let New := Val % 65536
    let r1 := PciRead16 rb Bus Dev Func 0x04 fab
    let Old := r1.2.2
    let Mask := ((1 <<< 0) ||| (1 <<< 1) ||| (1 <<< 2) ||| (1 <<< 10)) % 65536
    let Final := ((Old &&& (Mask ^^^ 0xFFFFFFFF)) ||| (New &&& Mask)) % 65536
    let r2 := PciWrite16 rb Bus Dev Func 0x04 Final r1.1
    if !EFI_ERROR r2.2 then ((PciRead16 rb Bus Dev Func 0x04 r2.1).1, r2.2) else r2
  else if Pol = WP_RW1C ∧ Mode = DISP_WORD ∧ Cursor = 0x06 then
    let ClearMask := Val % 65536
    let r1 := PciRead16 rb Bus Dev Func 0x06 fab
    let r2 := PciWrite16 rb Bus Dev Func 0x06 ClearMask r1.1
    if !EFI_ERROR r2.2 then ((PciRead16 rb Bus Dev Func 0x06 r2.1).1, r2.2) else r2
  else if Mode = DISP_BYTE then
    let r := PciWrite8 rb Bus Dev Func Cursor (Val % 256) fab
    if !EFI_ERROR r.2 then ((PciRead8 rb Bus Dev Func Cursor r.1).1, r.2) else r
  else if Mode = DISP_WORD then
    let r := PciWrite16 rb Bus Dev Func Cursor (Val % 65536) fab
    if !EFI_ERROR r.2 then ((PciRead16 rb Bus Dev Func Cursor r.1).1, r.2) else r
  else
    let r := PciWrite32 rb Bus Dev Func Cursor (Val % 4294967296) fab
    if !EFI_ERROR r.2 then ((PciRead32 rb Bus Dev Func Cursor r.1).1, r.2) else r

/-- The source's `DoWriteAtCursor` of the policy-table variant; `gDangerousUnlocked` is the global flag. -/
def DoWriteAtCursor {σ : Type} (rb : PCI_ROOT_BRIDGE σ) (gDangerousUnlocked : Bool)
    (Bus Dev Func : Nat) (Mode : DISP_MODE) (Cursor : Nat)
    (keys : List EFI_INPUT_KEY) (fab : Fabric σ) : WriteResult σ :=
  let Cursor := AlignCursor Cursor Mode
  let Pol := GetWritePolicy Bus Dev Func Cursor Mode
  if Pol = WP_BLOCK_RO then AckReturn EFI_ACCESS_DENIED keys fab
  else if (Pol = WP_DANGEROUS_BAR ∨ Pol = WP_DANGEROUS_CAP) ∧ gDangerousUnlocked = false then
    AckReturn EFI_ACCESS_DENIED keys fab
  else
    match ReadFixedHex (HexDigits Mode) keys with
    | none => { Status := none, keys := [], fab := fab }
    | some (Status, Val, ks) =>
      if EFI_ERROR Status then { Status := some Status, keys := ks, fab := fab }
      else
        let r := WriteTransform rb Bus Dev Func Mode Cursor Pol Val fab
        AckReturn r.2 ks r.1

/-! ## Config view loop -/

/-- The source's `(DISP_MODE)((Mode + 1) % 3)`. -/
def NextMode : DISP_MODE → DISP_MODE
  | DISP_BYTE => DISP_WORD
  | DISP_WORD => DISP_DWORD
  | DISP_DWORD => DISP_BYTE

/-- The variables of `ConfigViewLoop`, the global flag, the keys to come and the fabric. -/
structure ViewState (σ : Type) where
  Mode : DISP_MODE
  Cursor : Nat
  Buf : List Nat
  gDangerousUnlocked : Bool
  keys : List EFI_INPUT_KEY
  fab : Fabric σ

/-- Where the loop stands after an iteration: it goes on, it has returned, or it waits for
a key that does not come. -/
inductive LoopCtl where
  | running
  | returned
  | waiting
  deriving DecidableEq, Repr

/-- The arrow-key `switch` of `ConfigViewLoop` followed by the re-alignment. -/
def MoveCursor (Mode : DISP_MODE) (Cursor : Nat) (ScanCode : Nat) : Nat :=
  let Step := StepByMode Mode
  let Cursor :=
    if ScanCode = SCAN_UP then (if Cursor ≥ 0x10 then (Cursor - 0x10) % 65536 else Cursor)
    else if ScanCode = SCAN_DOWN then
      (if Cursor + 0x10 < 0x100 then (Cursor + 0x10) % 65536 else Cursor)
    else if ScanCode = SCAN_LEFT then (if Cursor ≥ Step then (Cursor - Step) % 65536 else Cursor)
    else if ScanCode = SCAN_RIGHT then
      (if Cursor + Step < 0x100 then (Cursor + Step) % 65536 else Cursor)
    else Cursor
  AlignCursor Cursor Mode

/-- One iteration of the `while (TRUE)` of `ConfigViewLoop` (policy-table variant). -/
def ConfigViewStep {σ : Type} (rb : PCI_ROOT_BRIDGE σ) (Bus Dev Func : Nat)
    (s : ViewState σ) : LoopCtl × ViewState σ :=
  match WaitKey s.keys with
  | none => (LoopCtl.waiting, s)
  | some (Key, ks) =>
    if IsEsc Key then (LoopCtl.returned, { s with keys := ks })
    else if Key.ScanCode = SCAN_F9 then
      (LoopCtl.running, { s with keys := ks, gDangerousUnlocked := !s.gDangerousUnlocked })
    else if Key.UnicodeChar = 0x70 ∨ Key.UnicodeChar = 0x50 then
      let Cur := AlignCursor s.Cursor s.Mode
      if !IsProbeSafe Cur s.Mode then
        match WaitKey ks with
        | none => (LoopCtl.waiting, { s with keys := [] })
        | some (_, ks1) => (LoopCtl.running, { s with keys := ks1 })
      else
        let r := ProbeWritableMaskAtCursor rb Bus Dev Func s.Mode Cur s.fab
        match WaitKey ks with
        | none => (LoopCtl.waiting, { s with keys := [], fab := r.1 })
        | some (_, ks1) => (LoopCtl.running, { s with keys := ks1, fab := r.1 })
    else if IsTab Key then
      (LoopCtl.running,
        { s with keys := ks, Mode := NextMode s.Mode,
                 Cursor := AlignCursor s.Cursor (NextMode s.Mode) })
    else if IsEnter Key then
      let r := DoWriteAtCursor rb s.gDangerousUnlocked Bus Dev Func s.Mode s.Cursor ks s.fab
      match r.Status with
      | none => (LoopCtl.waiting, { s with keys := r.keys, fab := r.fab })
      | some _ =>
        let c := ReadConfig256 rb Bus Dev Func r.fab
        (LoopCtl.running, { s with keys := r.keys, fab := c.1, Buf := c.2 })
    else
      (LoopCtl.running, { s with keys := ks, Cursor := MoveCursor s.Mode s.Cursor Key.ScanCode })

/-- At most `n` iterations of the loop. -/
def ConfigViewRun {σ : Type} (rb : PCI_ROOT_BRIDGE σ) (Bus Dev Func : Nat) :
    Nat → ViewState σ → LoopCtl × ViewState σ
  | 0, s => (LoopCtl.running, s)
  | n + 1, s =>
    match ConfigViewStep rb Bus Dev Func s with
    | (LoopCtl.running, s1) => ConfigViewRun rb Bus Dev Func n s1
    | r => r

/-- The state in which `ConfigViewLoop` enters its loop: dword mode, cursor 0, the snapshot
of the 256 bytes taken. -/
def ConfigViewInit {σ : Type} (rb : PCI_ROOT_BRIDGE σ) (Bus Dev Func : Nat)
    (gDangerousUnlocked : Bool) (keys : List EFI_INPUT_KEY) (fab : Fabric σ) : ViewState σ :=
  { Mode := DISP_DWORD, Cursor := 0, Buf := (ReadConfig256 rb Bus Dev Func fab).2,
    gDangerousUnlocked := gDangerousUnlocked, keys := keys,
    fab := (ReadConfig256 rb Bus Dev Func fab).1 }

/-- The source's `ConfigViewLoop`: dword mode, cursor 0, one snapshot, then the loop; every iteration that
goes on takes a key, so one iteration more than there are keys is enough. -/
def ConfigViewLoop {σ : Type} (rb : PCI_ROOT_BRIDGE σ) (Bus Dev Func : Nat)
    (gDangerousUnlocked : Bool) (keys : List EFI_INPUT_KEY) (fab : Fabric σ) :
    LoopCtl × ViewState σ :=
  ConfigViewRun rb Bus Dev Func (keys.length + 1)
    (ConfigViewInit rb Bus Dev Func gDangerousUnlocked keys fab)

/-! ## The raw-write variant (`Applications/PciUtility/PciUtility.c`) -/

namespace Raw

def IsEsc (Key : EFI_INPUT_KEY) : Bool :=
  Key.ScanCode == SCAN_ESC

def IsBarOffset (Off : Nat) : Bool :=
  decide (Off ≥ 0x10 ∧ Off ≤ 0x24)

def IsCapArea (Off : Nat) : Bool :=
  decide (Off ≥ 0x34)

/-- The source's `ReadFixedHex` of the raw-write variant. -/
def ReadFixedHex (Digits : Nat) (keys : List EFI_INPUT_KEY) :
    Option (EFI_STATUS × Nat × List EFI_INPUT_KEY) :=
  ReadFixedHexLoop IsEsc Digits keys 0 0

/-- The "RAW WRITE EXECUTION" and read-back of the raw-write `DoWriteAtCursor`. -/
def RawWrite {σ : Type} (rb : PCI_ROOT_BRIDGE σ) (Bus Dev Func : Nat) (Mode : DISP_MODE)
    (Cursor : Nat) (Val : Nat) (fab : Fabric σ) : Fabric σ × EFI_STATUS :=
  let r :=
    if Mode = DISP_BYTE then PciWrite8 rb Bus Dev Func Cursor (Val % 256) fab
    else if Mode = DISP_WORD then PciWrite16 rb Bus Dev Func Cursor (Val % 65536) fab
    else PciWrite32 rb Bus Dev Func Cursor (Val % 4294967296) fab
  if EFI_ERROR r.2 then r
  else if Mode = DISP_BYTE then ((PciRead8 rb Bus Dev Func Cursor r.1).1, r.2)
  else if Mode = DISP_WORD then ((PciRead16 rb Bus Dev Func Cursor r.1).1, r.2)
  else ((PciRead32 rb Bus Dev Func Cursor r.1).1, r.2)

/-- The source's `DoWriteAtCursor` of the raw-write variant. -/
def DoWriteAtCursor {σ : Type} (rb : PCI_ROOT_BRIDGE σ) (gDangerousUnlocked : Bool)
    (Bus Dev Func : Nat) (Mode : DISP_MODE) (Cursor : Nat)
    (keys : List EFI_INPUT_KEY) (fab : Fabric σ) : WriteResult σ :=
  let Cursor := AlignCursor Cursor Mode
  if (IsBarOffset Cursor || IsCapArea Cursor) && !gDangerousUnlocked then
    AckReturn EFI_ACCESS_DENIED keys fab
  else
    match ReadFixedHex (HexDigits Mode) keys with
    | none => { Status := none, keys := [], fab := fab }
    | some (Status, Val, ks) =>
      if EFI_ERROR Status then { Status := some Status, keys := ks, fab := fab }
      else
        let r := RawWrite rb Bus Dev Func Mode Cursor Val fab
        AckReturn r.2 ks r.1

end Raw

end PciUtility

/-! ## A byte-addressed fabric that echoes writes -/

namespace PciUtility

open DISP_MODE WRITE_POLICY EFI_STATUS EFI_PCI_WIDTH

/-- Little-endian read of a byte memory. -/
def MemRead (mem : Nat → Nat) (w : EFI_PCI_WIDTH) (addr : Nat) : Nat :=
  match w with
  | EfiPciWidthUint8 => mem addr
  | EfiPciWidthUint16 => mem addr + 256 * mem (addr + 1)
  | EfiPciWidthUint32 =>
    mem addr + 256 * mem (addr + 1) + 65536 * mem (addr + 2) + 16777216 * mem (addr + 3)

/-- Little-endian write into a byte memory. -/
def MemWrite (mem : Nat → Nat) (w : EFI_PCI_WIDTH) (addr v : Nat) : Nat → Nat :=
  fun x => if addr ≤ x ∧ x < addr + w.bits / 8 then (v / 256 ^ (x - addr)) % 256 else mem x

/-- A fabric that is a plain byte memory: a write stores the value, a read returns what is
stored, every call succeeds. -/
def MemBus : PCI_ROOT_BRIDGE (Nat → Nat) where
  Read := fun st w addr => (st, EFI_SUCCESS, MemRead st w addr)
  Write := fun st w addr v => (MemWrite st w addr v, EFI_SUCCESS)

/-- The laws of a fabric that echoes writes back on read: reads succeed and change nothing,
writes succeed, a read after a write at the same place returns the value written (as far
as the width goes), and a write leaves the bytes outside its range as they were. -/
structure EchoBus {σ : Type} (rb : PCI_ROOT_BRIDGE σ) : Prop where
  read_state : ∀ st w addr, (rb.Read st w addr).1 = st
  read_ok : ∀ st w addr, (rb.Read st w addr).2.1 = EFI_SUCCESS
  write_ok : ∀ st w addr v, (rb.Write st w addr v).2 = EFI_SUCCESS
  read_write : ∀ st w addr v,
    (rb.Read (rb.Write st w addr v).1 w addr).2.2 % 2 ^ w.bits = v % 2 ^ w.bits
  frame : ∀ st w addr v x, (x < addr ∨ addr + w.bits / 8 ≤ x) →
    (rb.Read (rb.Write st w addr v).1 EfiPciWidthUint8 x).2.2 =
      (rb.Read st EfiPciWidthUint8 x).2.2

/-- The key strokes used in examples. -/
def KeyChar (c : Nat) : EFI_INPUT_KEY := { ScanCode := 0, UnicodeChar := c }

def KeyScan (sc : Nat) : EFI_INPUT_KEY := { ScanCode := sc, UnicodeChar := 0 }

/-- What the spec calls a raw write, for the hex reader `readHex` of either application: the
value is entered, written once as typed (truncated to the width) at `Cursor`, read back once
if the write succeeded, and the write's status is returned after the acknowledgement. -/
def SpecRawWrite {σ : Type} (rb : PCI_ROOT_BRIDGE σ)
    (readHex : Nat → List EFI_INPUT_KEY → Option (EFI_STATUS × Nat × List EFI_INPUT_KEY))
    (Bus Dev Func : Nat) (Mode : DISP_MODE) (Cursor : Nat)
    (keys : List EFI_INPUT_KEY) (fab : Fabric σ) : WriteResult σ :=
  match readHex (HexDigits Mode) keys with
  | none => { Status := none, keys := [], fab := fab }
  | some (Status, Val, ks) =>
    if EFI_ERROR Status then { Status := some Status, keys := ks, fab := fab }
    else
      let wr := PciWrite rb (WidthOfMode Mode) Bus Dev Func Cursor
        (Val % 2 ^ (WidthOfMode Mode).bits) fab
      if EFI_ERROR wr.2 then AckReturn wr.2 ks wr.1
      else AckReturn wr.2 ks (PciRead rb (WidthOfMode Mode) Bus Dev Func Cursor wr.1).1

/-! ## The four fabric calls of a probe, named one by one

These name the calls the spec lists for the probe ("read old value; write test value; read
back; write the original old value back"), each made on the fabric the previous one left. -/

/-- First call: the read of the old value. -/
def ProbeReadOld {σ : Type} (rb : PCI_ROOT_BRIDGE σ) (w : EFI_PCI_WIDTH) (B D F c : Nat)
    (fab : Fabric σ) : Fabric σ × EFI_STATUS × Nat :=
  PciRead rb w B D F c fab

/-- Second call: the write of the complement of the old value. -/
def ProbeWriteTest {σ : Type} (rb : PCI_ROOT_BRIDGE σ) (w : EFI_PCI_WIDTH) (B D F c : Nat)
    (fab : Fabric σ) : Fabric σ × EFI_STATUS :=
  PciWrite rb w B D F c (2 ^ w.bits - 1 - (ProbeReadOld rb w B D F c fab).2.2)
    (ProbeReadOld rb w B D F c fab).1

/-- Third call: the read-back. -/
def ProbeReadBack {σ : Type} (rb : PCI_ROOT_BRIDGE σ) (w : EFI_PCI_WIDTH) (B D F c : Nat)
    (fab : Fabric σ) : Fabric σ × EFI_STATUS × Nat :=
  PciRead rb w B D F c (ProbeWriteTest rb w B D F c fab).1

/-- Fourth call: the write that restores the old value. -/
def ProbeRestore {σ : Type} (rb : PCI_ROOT_BRIDGE σ) (w : EFI_PCI_WIDTH) (B D F c : Nat)
    (fab : Fabric σ) : Fabric σ × EFI_STATUS :=
  PciWrite rb w B D F c (ProbeReadOld rb w B D F c fab).2.2 (ProbeReadBack rb w B D F c fab).1

/-! ## The enumeration as the spec words it -/

/-- The address of a record. -/
def PCI_DEV_INFO.addr (Info : PCI_DEV_INFO) : Nat × Nat × Nat :=
  (Info.Bus, Info.Dev, Info.Func)

/-- Ascending (bus, device, function) order. -/
def AddrLt (a b : Nat × Nat × Nat) : Prop :=
  a.1 < b.1 ∨ (a.1 = b.1 ∧ (a.2.1 < b.2.1 ∨ (a.2.1 = b.2.1 ∧ a.2.2 < b.2.2)))

instance (a b : Nat × Nat × Nat) : Decidable (AddrLt a b) := by
  unfold AddrLt
  infer_instance

/-- A function is present: its vendor-id read succeeds and is not 0xFFFF. -/
def FuncPresent {σ : Type} (rb : PCI_ROOT_BRIDGE σ) (st : σ) (B D F : Nat) : Bool :=
  !EFI_ERROR (rb.Read st EfiPciWidthUint16 (PciCfgAddr B D F 0x00)).2.1 &&
    (rb.Read st EfiPciWidthUint16 (PciCfgAddr B D F 0x00)).2.2 % 2 ^ 16 != 0xFFFF

/-- Function 0's header-type byte at 0x0E has bit 7 set. -/
def DevMulti {σ : Type} (rb : PCI_ROOT_BRIDGE σ) (st : σ) (B D : Nat) : Bool :=
  ((rb.Read st EfiPciWidthUint8 (PciCfgAddr B D 0 0x0E)).2.2 % 2 ^ 8) &&& 0x80 != 0

/-- The functions the enumeration lists: function 0 of the device is present, and the function
is function 0, or the device is multi-function and the function itself is present. -/
def SpecListed {σ : Type} (rb : PCI_ROOT_BRIDGE σ) (st : σ) (t : Nat × Nat × Nat) : Bool :=
  FuncPresent rb st t.1 t.2.1 0 &&
    (t.2.2 == 0 || (DevMulti rb st t.1 t.2.1 && FuncPresent rb st t.1 t.2.1 t.2.2))

/-- Every (bus 0-255, device 0-31, function 0-7), ascending. -/
def AllFunctions : List (Nat × Nat × Nat) :=
  (List.range 256).flatMap fun B =>
    (List.range 32).flatMap fun D => (List.range 8).map fun F => (B, D, F)

/-- The spec's enumeration: the first 4096 listed functions, in ascending order. -/
def SpecEnumerate {σ : Type} (rb : PCI_ROOT_BRIDGE σ) (st : σ) : List (Nat × Nat × Nat) :=
  (AllFunctions.filter (SpecListed rb st)).take MAX_PCI_DEVS

/-- The mock of the spec's enumeration scenario: only (0,0,0) and (0,1,0) respond, (0,1) is
multi-function with functions 0 and 3 present; every other read returns all ones. -/
def MockScanBus : PCI_ROOT_BRIDGE Unit where
  Read := fun st w addr =>
    (st, EFI_SUCCESS,
      if addr = PciCfgAddr 0 0 0 0x00 ∨ addr = PciCfgAddr 0 1 0 0x00 ∨ addr = PciCfgAddr 0 1 3 0x00
      then 0x8086
      else if addr = PciCfgAddr 0 1 0 0x0E then 0x80
      else if addr = PciCfgAddr 0 0 0 0x0E then 0x00
      else 0xFFFFFFFF)
  Write := fun st w addr v => (st, EFI_SUCCESS)

/-- The listed functions of one device, ascending. -/
def SpecDevice {σ : Type} (rb : PCI_ROOT_BRIDGE σ) (st : σ) (B D : Nat) :
    List (Nat × Nat × Nat) :=
  ((List.range 8).map fun F => (B, D, F)).filter (SpecListed rb st)

/-- What a scanning step does to the fabric state, the record count and the addresses
recorded: the state stays `st0`, the count stays within the cap, and the addresses `new` are
appended up to the cap. -/
def ScanStepOk {σ : Type} (st0 : σ) (before after : Fabric σ × List PCI_DEV_INFO)
    (new : List (Nat × Nat × Nat)) : Prop :=
  after.1.bus = st0 ∧ after.2.length ≤ MAX_PCI_DEVS ∧
    after.2.map PCI_DEV_INFO.addr =
      (before.2.map PCI_DEV_INFO.addr ++ new).take MAX_PCI_DEVS

/-- The policy lets the write through under the flag: it is not `WP_BLOCK_RO`, and not one
of the dangerous classes while the flag is locked. -/
def WritePermitted (Pol : WRITE_POLICY) (gDangerousUnlocked : Bool) : Prop :=
  Pol ≠ WP_BLOCK_RO ∧
    ¬ ((Pol = WP_DANGEROUS_BAR ∨ Pol = WP_DANGEROUS_CAP) ∧ gDangerousUnlocked = false)

instance (Pol : WRITE_POLICY) (gDangerousUnlocked : Bool) :
    Decidable (WritePermitted Pol gDangerousUnlocked) := by
  unfold WritePermitted
  infer_instance

/-! ## The reads of the enumeration, as the spec words them -/

/-- The address a call goes to. -/
def BusOp.addr : BusOp → Nat
  | BusOp.read _ a => a
  | BusOp.write _ a _ => a

/-- The bus a call is addressed to, `Address[31:24]`. -/
def BusOp.bus (op : BusOp) : Nat := op.addr / 16777216

/-- The device a call is addressed to, `Address[23:16]`. -/
def BusOp.dev (op : BusOp) : Nat := (op.addr / 65536) % 256

/-- The function a call is addressed to, `Address[15:8]`. -/
def BusOp.func (op : BusOp) : Nat := (op.addr / 256) % 256

/-- The register a call is addressed to, `Address[7:0]`. -/
def BusOp.reg (op : BusOp) : Nat := op.addr % 256

/-- The vendor-id read of a function. -/
def VendorRead (B D F : Nat) : BusOp :=
  BusOp.read EfiPciWidthUint16 (PciCfgAddr B D F 0x00)

/-- The header-type read of function 0 of a device. -/
def HeaderRead (B D : Nat) : BusOp :=
  BusOp.read EfiPciWidthUint8 (PciCfgAddr B D 0 0x0E)

/-- The reads made for a function that is found present: vendor id, device id, programming
interface, subclass, base class. -/
def FuncInfoReads (B D F : Nat) : List BusOp :=
  [VendorRead B D F,
   BusOp.read EfiPciWidthUint16 (PciCfgAddr B D F 0x02),
   BusOp.read EfiPciWidthUint8 (PciCfgAddr B D F 0x09),
   BusOp.read EfiPciWidthUint8 (PciCfgAddr B D F 0x0A),
   BusOp.read EfiPciWidthUint8 (PciCfgAddr B D F 0x0B)]

/-- The reads of one function probe on a fabric in state `st` whose reads change nothing:
the vendor-id read alone when the function is absent. -/
def SpecFuncTrace {σ : Type} (rb : PCI_ROOT_BRIDGE σ) (st : σ) (B D F : Nat) : List BusOp :=
  if FuncPresent rb st B D F = true then FuncInfoReads B D F else [VendorRead B D F]

/-- The reads of one device as the spec prescribes them, on a fabric in state `st` whose reads
change nothing: function 0 first; if it is absent nothing more; if it is present its
header type is read, and functions 1..7 are probed only when the high bit is set. -/
def SpecDevTrace {σ : Type} (rb : PCI_ROOT_BRIDGE σ) (st : σ) (B D : Nat) : List BusOp :=
  if FuncPresent rb st B D 0 = true then
    FuncInfoReads B D 0 ++ HeaderRead B D ::
      (if DevMulti rb st B D = true then (List.range' 1 7).flatMap (SpecFuncTrace rb st B D)
       else [])
  else [VendorRead B D 0]

/-- The reads of the whole enumeration, device after device in ascending order. -/
def SpecScanTrace {σ : Type} (rb : PCI_ROOT_BRIDGE σ) (st : σ) : List BusOp :=
  (List.range 256).flatMap fun B => (List.range 32).flatMap fun D => SpecDevTrace rb st B D

/-! ## Mock fabrics for the write and probe engines -/

/-- A fabric holding one register of which only the bits of `W` respond to writes: a write of
`v` stores `(stored & ~W) | (v & W)` (on the bits of the width), a read returns what is
stored, every call succeeds. -/
def MaskedBus (W : Nat) : PCI_ROOT_BRIDGE Nat where
  Read := fun st _ _ => (st, EFI_SUCCESS, st)
  Write := fun st w _ v =>
    (((st % 2 ^ w.bits) &&& (2 ^ w.bits - 1 - W)) ||| ((v % 2 ^ w.bits) &&& W), EFI_SUCCESS)

/-- The laws of a register at `addr`, accessed at width `w`, of which only the bits of `W`
respond to writes: reads succeed and change nothing, writes succeed, and after a write of `v`
the register reads `(old & ~W) | (v & W)`, `old` being what it read before. -/
structure MaskedReg {σ : Type} (rb : PCI_ROOT_BRIDGE σ) (w : EFI_PCI_WIDTH) (addr W : Nat) :
    Prop where
  mask_lt : W < 2 ^ w.bits
  read_state : ∀ st, (rb.Read st w addr).1 = st
  read_ok : ∀ st, (rb.Read st w addr).2.1 = EFI_SUCCESS
  write_ok : ∀ st v, (rb.Write st w addr v).2 = EFI_SUCCESS
  read_write : ∀ st v,
    (rb.Read (rb.Write st w addr v).1 w addr).2.2 % 2 ^ w.bits =
      (((rb.Read st w addr).2.2 % 2 ^ w.bits) &&& (2 ^ w.bits - 1 - W)) |||
        ((v % 2 ^ w.bits) &&& W)

/-- A fabric on which every write succeeds and every read fails (with the code of
`EFI_DEVICE_ERROR`), leaving 0 in the buffer. -/
def ReadFailBus : PCI_ROOT_BRIDGE Unit where
  Read := fun st _ _ => (st, EFI_FAILURE 7, 0)
  Write := fun st _ _ _ => (st, EFI_SUCCESS)

/-- The value the source computes for the command word (`Mask`, `Final`): the bits of `Mask`
from the input `New`, the others from `Old`. -/
def CommandFinal (Old New : Nat) : Nat :=
  let Mask := ((1 <<< 0) ||| (1 <<< 1) ||| (1 <<< 2) ||| (1 <<< 10)) % 65536
  ((Old &&& (Mask ^^^ 0xFFFFFFFF)) ||| (New &&& Mask)) % 65536

/-- What the spec asks of a write that goes out, stated of the result `res` of the write
engine started on `fab` with the keys `ks` left after the acknowledgement: after at most one
read of the current value, exactly one write is issued; if it succeeds exactly one verification
read at the same address and width follows, nothing else, and `EFI_SUCCESS` is returned
whatever that read returns; if it fails nothing follows and its status is returned. -/
def OneWriteOneVerify {σ : Type} (rb : PCI_ROOT_BRIDGE σ) (w : EFI_PCI_WIDTH)
    (B D F a : Nat) (fab : Fabric σ) (ks : List EFI_INPUT_KEY) (res : WriteResult σ) : Prop :=
  ∃ pre fabpre v,
    ((pre = [] ∧ fabpre = fab) ∨
      (pre = [BusOp.read w (PciCfgAddr B D F a)] ∧ fabpre = (PciRead rb w B D F a fab).1)) ∧
    (EFI_ERROR (PciWrite rb w B D F a v fabpre).2 = false →
      res = { Status := some EFI_SUCCESS, keys := ks,
              fab := (PciRead rb w B D F a (PciWrite rb w B D F a v fabpre).1).1 } ∧
      res.fab.trace = fab.trace ++ pre ++
        [BusOp.write w (PciCfgAddr B D F a) v, BusOp.read w (PciCfgAddr B D F a)]) ∧
    (EFI_ERROR (PciWrite rb w B D F a v fabpre).2 = true →
      res = { Status := some (PciWrite rb w B D F a v fabpre).2, keys := ks,
              fab := (PciWrite rb w B D F a v fabpre).1 } ∧
      res.fab.trace = fab.trace ++ pre ++ [BusOp.write w (PciCfgAddr B D F a) v])

/-- A root bridge whose every write fails and whose reads succeed. -/
def WriteFailBus : PCI_ROOT_BRIDGE Unit where
  Read := fun st _ _ => (st, EFI_SUCCESS, 0)
  Write := fun st _ _ _ => (st, EFI_FAILURE 7)

/-- How the write engine treats the status of its fabric write, stated of the result `res`:
the status returned is the status of the one write issued; when that write failed it is the
last fabric call; when it succeeded the verification read is the last fabric call and
`EFI_SUCCESS` is returned, whatever the status of that read. -/
def WriteStatusSurfaced {σ : Type} (rb : PCI_ROOT_BRIDGE σ) (w : EFI_PCI_WIDTH)
    (B D F a : Nat) (fab : Fabric σ) (res : WriteResult σ) : Prop :=
  ∃ fabpre v,
    (fabpre = fab ∨ fabpre = (PciRead rb w B D F a fab).1) ∧
    res.Status = some (PciWrite rb w B D F a v fabpre).2 ∧
    (EFI_ERROR (PciWrite rb w B D F a v fabpre).2 = true →
      res.Status ≠ some EFI_SUCCESS ∧ res.fab = (PciWrite rb w B D F a v fabpre).1) ∧
    (EFI_ERROR (PciWrite rb w B D F a v fabpre).2 = false →
      res.Status = some EFI_SUCCESS ∧
      res.fab = (PciRead rb w B D F a (PciWrite rb w B D F a v fabpre).1).1)

/-- Width of a fabric call. -/
def BusOp.width : BusOp → EFI_PCI_WIDTH
  | BusOp.read w _ => w
  | BusOp.write w _ _ => w

/-- The fabric `fab2` is `fab` after some further calls, every one of them, read or write,
at width `w` and address `a`. -/
def TraceExtendsAt {σ : Type} (w : EFI_PCI_WIDTH) (a : Nat) (fab fab2 : Fabric σ) : Prop :=
  ∃ ops, fab2.trace = fab.trace ++ ops ∧ ∀ op ∈ ops, op.width = w ∧ op.addr = a

/-- The initialiser of the global flag: `STATIC BOOLEAN gDangerousUnlocked = FALSE;`. -/
def gDangerousUnlockedInit : Bool := false

/-- The invariant of the editing cursor: inside the 256 bytes and a multiple of the size of
the current display width. -/
def CursorInv {σ : Type} (s : ViewState σ) : Prop :=
  s.Cursor < 0x100 ∧ s.Cursor % StepByMode s.Mode = 0

/-- The protected fields as the byte-level protection property lists them: the read-only
bytes 0x00 to 0x03, 0x08 to 0x0B and 0x0E, the six base-address registers 0x10 to 0x27, and
the capability area 0x34 to 0xFF. -/
def SpecProtectedByte (x : Nat) : Bool :=
  decide (x ≤ 0x03 ∨ (0x08 ≤ x ∧ x ≤ 0x0B) ∨ x = 0x0E ∨ (0x10 ≤ x ∧ x ≤ 0x27) ∨
    (0x34 ≤ x ∧ x ≤ 0xFF))

/-- The bytes a write with the cursor at `o` in mode `m` covers: as many as the size of the
width, from the aligned offset on. -/
def WrittenBytes (o : Nat) (m : DISP_MODE) : List Nat :=
  List.range' (AlignCursor o m) (StepByMode m)

/-- A state of the editing loop on the byte memory: dword mode, cursor at 0x10, the flag
unlocked, the snapshot taken, and the keys Enter, 1 to 8 and a space still to come. -/
def ViewAtBar0Unlocked : ViewState (Nat → Nat) :=
  { Mode := DISP_DWORD, Cursor := 0x10,
    Buf := (ReadConfig256 MemBus 0 0 0 { bus := fun _ => 0, trace := [] }).2,
    gDangerousUnlocked := true,
    keys := [KeyChar CHAR_CARRIAGE_RETURN, KeyChar 0x31, KeyChar 0x32, KeyChar 0x33,
      KeyChar 0x34, KeyChar 0x35, KeyChar 0x36, KeyChar 0x37, KeyChar 0x38, KeyChar 0x20],
    fab := (ReadConfig256 MemBus 0 0 0 { bus := fun _ => 0, trace := [] }).1 }

end PciUtility

/-! # Theorems -/

namespace PciUtility

open DISP_MODE WRITE_POLICY EFI_STATUS EFI_PCI_WIDTH

/-! ## Alignment arithmetic -/

/-- Masking a 32-bit value with `2^32 - 2^k` clears its low `k` bits. -/
theorem land_clear_low (c k : Nat) (hk : k ≤ 32) (hc : c < 2 ^ 32) :
    c &&& (2 ^ 32 - 2 ^ k) = c - c % 2 ^ k := by
  apply Nat.eq_of_testBit_eq
  intro i
  have h1 : 2 ^ 32 - 2 ^ k = 2 ^ k * (2 ^ (32 - k) - 1) := by
    rw [Nat.mul_sub, ← pow_add, Nat.add_sub_cancel' hk, mul_one]
  have h2 : c - c % 2 ^ k = 2 ^ k * (c / 2 ^ k) := by
    have := Nat.div_add_mod c (2 ^ k)
    omega
  rw [Nat.testBit_and, h1, h2, Nat.testBit_mul_pow_two, Nat.testBit_mul_pow_two,
    Nat.testBit_two_pow_sub_one, ← Nat.shiftRight_eq_div_pow, Nat.testBit_shiftRight]
  by_cases hik : k ≤ i
  · simp only [ge_iff_le, hik, decide_True, Bool.true_and, Nat.add_sub_cancel' hik]
    by_cases hi : i < 32
    · have : i - k < 32 - k := by omega
      simp [this]
    · have hlt : c < 2 ^ i := lt_of_lt_of_le hc (Nat.pow_le_pow_right (by norm_num) (by omega))
      rw [Nat.testBit_lt_two_pow hlt]
      simp
  · simp [hik]

/-- Alignment of a 16-bit cursor rounds down to a multiple of the step. -/
theorem AlignCursor_eq (c : Nat) (m : DISP_MODE) (hc : c < 65536) :
    AlignCursor c m = c - c % StepByMode m := by
  have h32 : c < 2 ^ 32 := by omega
  have e1 := land_clear_low c 1 (by norm_num) h32
  have e2 := land_clear_low c 2 (by norm_num) h32
  norm_num at e1 e2
  cases m
  · simp [AlignCursor, StepByMode, Nat.mod_one]
  · have : AlignCursor c DISP_WORD = (c &&& 4294967294) % 65536 := rfl
    have hs : StepByMode DISP_WORD = 2 := rfl
    rw [this, hs, e1]; omega
  · have : AlignCursor c DISP_DWORD = (c &&& 4294967292) % 65536 := rfl
    have hs : StepByMode DISP_DWORD = 4 := rfl
    rw [this, hs, e2]; omega

/-- The policy does not look at the device address. -/
theorem GetWritePolicy_addr (B D F o : Nat) (m : DISP_MODE) :
    GetWritePolicy B D F o m = GetWritePolicy 0 0 0 o m := rfl

/-- The policy is `WP_RW1C` only at aligned offset 6 in word mode. -/
theorem GetWritePolicy_rw1c_iff (B D F o : Nat) (m : DISP_MODE) :
    GetWritePolicy B D F o m = WP_RW1C ↔ (AlignCursor o m = 0x06 ∧ m = DISP_WORD) := by
  unfold GetWritePolicy
  generalize AlignCursor o m = a
  dsimp only
  constructor
  · intro h
    split_ifs at h with h1 h2 h3 h4 h5
    exact h5
  · rintro ⟨ha, hm⟩
    subst ha; subst hm
    decide

/-! ## C1 -/

/-- C1, evaluated on the code: at offset 0x0E in dword mode the policy is `WP_RW_DIRECT`, not
`WP_BLOCK_RO` (the cursor is aligned down to 0x0C before the table is consulted), and with the
flag locked `DoWriteAtCursor` there writes the typed dword at 0x0C, which on the byte memory
changes the header-type byte 0x0E; for every other offset of the list 0,1,2,3,8,9,10,11,14
and every width the policy is `WP_BLOCK_RO`. -/
theorem C1_header_type_dword_not_blocked :
    (∀ B D F : Nat, GetWritePolicy B D F 0x0E DISP_DWORD = WP_RW_DIRECT) ∧
    ((DoWriteAtCursor MemBus false 0 0 0 DISP_DWORD 0x0E
        [KeyChar 0x31, KeyChar 0x32, KeyChar 0x33, KeyChar 0x34, KeyChar 0x35, KeyChar 0x36,
          KeyChar 0x37, KeyChar 0x38, KeyChar 0x20]
        { bus := fun _ => 0, trace := [] }).Status,
      (DoWriteAtCursor MemBus false 0 0 0 DISP_DWORD 0x0E
        [KeyChar 0x31, KeyChar 0x32, KeyChar 0x33, KeyChar 0x34, KeyChar 0x35, KeyChar 0x36,
          KeyChar 0x37, KeyChar 0x38, KeyChar 0x20]
        { bus := fun _ => 0, trace := [] }).fab.trace,
      (DoWriteAtCursor MemBus false 0 0 0 DISP_DWORD 0x0E
        [KeyChar 0x31, KeyChar 0x32, KeyChar 0x33, KeyChar 0x34, KeyChar 0x35, KeyChar 0x36,
          KeyChar 0x37, KeyChar 0x38, KeyChar 0x20]
        { bus := fun _ => 0, trace := [] }).fab.bus 0x0E) =
      (some EFI_SUCCESS,
        [BusOp.write EfiPciWidthUint32 0x0C 0x12345678, BusOp.read EfiPciWidthUint32 0x0C],
        0x34) ∧
    (∀ B D F : Nat, ∀ o ∈ [0, 1, 2, 3, 8, 9, 10, 11, 14], ∀ m : DISP_MODE,
      ¬ (o = 14 ∧ m = DISP_DWORD) → GetWritePolicy B D F o m = WP_BLOCK_RO) := by
  have h1 : GetWritePolicy 0 0 0 0x0E DISP_DWORD = WP_RW_DIRECT := by decide
  have h2 : ∀ o ∈ [0, 1, 2, 3, 8, 9, 10, 11, 14], ∀ m : DISP_MODE,
      ¬ (o = 14 ∧ m = DISP_DWORD) → GetWritePolicy 0 0 0 o m = WP_BLOCK_RO := by decide
  exact ⟨fun B D F => (GetWritePolicy_addr B D F _ _).trans h1, by decide,
    fun B D F o ho m hm => (GetWritePolicy_addr B D F o m).trans (h2 o ho m hm)⟩

/-! ## C3 -/

/-- C3: the policy of a 16-bit offset is `WP_RW1C` exactly when the width is Word and the
offset rounded down to a multiple of 2 is 0x06; in particular it is `WP_RW1C` at (6, Word) and
not at (6, Byte) or (6, Dword). -/
theorem C3_rw1c_iff_word_at_status (B D F o : Nat) (m : DISP_MODE) (ho : o < 65536) :
    (GetWritePolicy B D F o m = WP_RW1C ↔ (m = DISP_WORD ∧ o - o % 2 = 0x06)) ∧
    GetWritePolicy B D F 6 DISP_WORD = WP_RW1C ∧
    GetWritePolicy B D F 6 DISP_BYTE ≠ WP_RW1C ∧
    GetWritePolicy B D F 6 DISP_DWORD ≠ WP_RW1C := by
  have k1 : GetWritePolicy 0 0 0 6 DISP_WORD = WP_RW1C := by decide
  have k2 : GetWritePolicy 0 0 0 6 DISP_BYTE ≠ WP_RW1C := by decide
  have k3 : GetWritePolicy 0 0 0 6 DISP_DWORD ≠ WP_RW1C := by decide
  refine ⟨?_, k1, k2, k3⟩
  rw [GetWritePolicy_rw1c_iff]
  constructor
  · rintro ⟨ha, hm⟩
    subst hm
    rw [AlignCursor_eq o _ ho] at ha
    exact ⟨rfl, ha⟩
  · rintro ⟨hm, ha⟩
    subst hm
    rw [AlignCursor_eq o _ ho]
    exact ⟨ha, rfl⟩

/-- Witness for C3 at offset 7 in word mode. -/
theorem C3_rw1c_iff_word_at_status_witness :
    (7 < 65536) ∧
    ((GetWritePolicy 0 0 0 7 DISP_WORD = WP_RW1C ↔ (DISP_WORD = DISP_WORD ∧ 7 - 7 % 2 = 0x06)) ∧
    GetWritePolicy 0 0 0 6 DISP_WORD = WP_RW1C ∧
    GetWritePolicy 0 0 0 6 DISP_BYTE ≠ WP_RW1C ∧
    GetWritePolicy 0 0 0 6 DISP_DWORD ≠ WP_RW1C) :=
  ⟨by decide, C3_rw1c_iff_word_at_status 0 0 0 7 DISP_WORD (by decide)⟩

/-! ## The write engine -/

theorem AlignCursor_lt (c : Nat) (m : DISP_MODE) (hc : c < 65536) :
    AlignCursor c m < 65536 := by
  rw [AlignCursor_eq c m hc]; omega

theorem AlignCursor_idem (c : Nat) (m : DISP_MODE) (hc : c < 65536) :
    AlignCursor (AlignCursor c m) m = AlignCursor c m := by
  rw [AlignCursor_eq _ m (AlignCursor_lt c m hc), AlignCursor_eq c m hc]
  cases m <;> simp only [StepByMode, if_true, if_false, reduceCtorEq] <;> omega

/-- The policy consulted by `DoWriteAtCursor` is the policy of the cursor. -/
theorem GetWritePolicy_align (B D F c : Nat) (m : DISP_MODE) (hc : c < 65536) :
    GetWritePolicy B D F (AlignCursor c m) m = GetWritePolicy B D F c m := by
  unfold GetWritePolicy
  rw [AlignCursor_idem c m hc]

/-- Offsets of the base-address and capability ranges are classified as dangerous. -/
theorem GetWritePolicy_dangerous (B D F o : Nat) (m : DISP_MODE)
    (ho : (0x10 ≤ o ∧ o ≤ 0x24) ∨ (0x34 ≤ o ∧ o < 0x100)) :
    (GetWritePolicy B D F o m = WP_DANGEROUS_BAR ∨ GetWritePolicy B D F o m = WP_DANGEROUS_CAP) ∧
      0x10 ≤ AlignCursor o m := by
  have hlt : o < 65536 := by omega
  have ha := AlignCursor_eq o m hlt
  unfold GetWritePolicy
  dsimp only
  generalize AlignCursor o m = a at ha ⊢
  have hs : StepByMode m = 1 ∨ StepByMode m = 2 ∨ StepByMode m = 4 := by
    cases m <;> simp [StepByMode]
  have hge : 0x10 ≤ a := by
    rcases hs with h | h | h <;> rw [h] at ha <;> omega
  have hcase : (a ≤ 0x24) ∨ (0x34 ≤ a) := by
    rcases hs with h | h | h <;> rw [h] at ha <;> omega
  refine ⟨?_, hge⟩
  rw [if_neg (by omega), if_neg (by omega), if_neg (by omega), if_neg (by omega),
    if_neg (by omega)]
  rcases hcase with h | h
  · left; rw [if_pos ⟨hge, h⟩]
  · by_cases h2 : a ≤ 0x24
    · left; rw [if_pos ⟨hge, h2⟩]
    · right; rw [if_neg (by omega), if_pos h]

/-- The hex reader returns `EFI_SUCCESS` or `EFI_ABORTED` only. -/
theorem ReadFixedHexLoop_status (esc : EFI_INPUT_KEY → Bool) (Digits : Nat)
    (keys : List EFI_INPUT_KEY) (got val : Nat) (st : EFI_STATUS) (v : Nat)
    (ks : List EFI_INPUT_KEY) (h : ReadFixedHexLoop esc Digits keys got val = some (st, v, ks)) :
    st = EFI_SUCCESS ∨ st = EFI_ABORTED := by
  induction keys generalizing got val with
  | nil =>
    unfold ReadFixedHexLoop at h
    split_ifs at h
    simp only [Option.some.injEq, Prod.mk.injEq] at h
    exact Or.inl h.1.symm
  | cons k rest ih =>
    unfold ReadFixedHexLoop at h
    split_ifs at h
    · simp only [Option.some.injEq, Prod.mk.injEq] at h
      exact Or.inr h.1.symm
    · exact ih _ _ h
    · exact ih _ _ h
    · simp only [Option.some.injEq, Prod.mk.injEq] at h
      exact Or.inl h.1.symm

/-- Away from the command and status words the value is written as typed, truncated to the
width, and read back once if the write succeeded. -/
theorem WriteTransform_direct {σ : Type} (rb : PCI_ROOT_BRIDGE σ) (B D F : Nat) (m : DISP_MODE)
    (c : Nat) (Pol : WRITE_POLICY) (Val : Nat) (fab : Fabric σ)
    (h4 : ¬ (m = DISP_WORD ∧ c = 0x04)) (h6 : ¬ (Pol = WP_RW1C ∧ m = DISP_WORD ∧ c = 0x06)) :
    WriteTransform rb B D F m c Pol Val fab =
      (if EFI_ERROR (PciWrite rb (WidthOfMode m) B D F c (Val % 2 ^ (WidthOfMode m).bits) fab).2
       then PciWrite rb (WidthOfMode m) B D F c (Val % 2 ^ (WidthOfMode m).bits) fab
       else ((PciRead rb (WidthOfMode m) B D F c
          (PciWrite rb (WidthOfMode m) B D F c (Val % 2 ^ (WidthOfMode m).bits) fab).1).1,
          (PciWrite rb (WidthOfMode m) B D F c (Val % 2 ^ (WidthOfMode m).bits) fab).2)) := by
  unfold WriteTransform
  rw [if_neg h4, if_neg h6]
  cases m <;>
    simp only [WidthOfMode, EFI_PCI_WIDTH.bits, PciWrite8, PciWrite16, PciWrite32, PciRead8,
      PciRead16, PciRead32, if_true, if_false, reduceCtorEq] <;>
    cases EFI_ERROR (PciWrite rb _ B D F c _ fab).2 <;> simp

theorem AckReturn_fab {σ : Type} (st : EFI_STATUS) (ks : List EFI_INPUT_KEY) (fab : Fabric σ) :
    (AckReturn st ks fab).fab = fab := by
  cases ks <;> rfl

theorem AckReturn_cons {σ : Type} (st : EFI_STATUS) (k : EFI_INPUT_KEY)
    (ks : List EFI_INPUT_KEY) (fab : Fabric σ) :
    AckReturn st (k :: ks) fab = { Status := some st, keys := ks, fab := fab } := rfl

theorem PciWrite_trace {σ : Type} (rb : PCI_ROOT_BRIDGE σ) (w : EFI_PCI_WIDTH)
    (B D F R V : Nat) (fab : Fabric σ) :
    (PciWrite rb w B D F R V fab).1.trace = fab.trace ++ [BusOp.write w (PciCfgAddr B D F R) V] :=
  rfl

theorem PciRead_trace {σ : Type} (rb : PCI_ROOT_BRIDGE σ) (w : EFI_PCI_WIDTH)
    (B D F R : Nat) (fab : Fabric σ) :
    (PciRead rb w B D F R fab).1.trace = fab.trace ++ [BusOp.read w (PciCfgAddr B D F R)] :=
  rfl

/-- A raw write never ends as a refusal that left the fabric untouched. -/
theorem SpecRawWrite_ne_denied {σ : Type} (rb : PCI_ROOT_BRIDGE σ)
    (readHex : Nat → List EFI_INPUT_KEY → Option (EFI_STATUS × Nat × List EFI_INPUT_KEY))
    (hhex : ∀ n keys st v ks, readHex n keys = some (st, v, ks) →
      st = EFI_SUCCESS ∨ st = EFI_ABORTED)
    (B D F : Nat) (m : DISP_MODE) (c : Nat) (keys ks1 : List EFI_INPUT_KEY) (fab : Fabric σ) :
    SpecRawWrite rb readHex B D F m c keys fab ≠
      { Status := some EFI_ACCESS_DENIED, keys := ks1, fab := fab } := by
  intro h
  unfold SpecRawWrite at h
  cases hr : readHex (HexDigits m) keys with
  | none =>
    rw [hr] at h
    simp at h
  | some r =>
    obtain ⟨st, v, ks⟩ := r
    rw [hr] at h
    dsimp only at h
    rcases hhex _ _ _ _ _ hr with hs | hs
    · subst hs
      simp only [EFI_ERROR, Bool.false_eq_true, if_false] at h
      have hf := congrArg (fun r => r.fab.trace.length) h
      split_ifs at hf <;>
        simp [AckReturn_fab, PciWrite_trace, PciRead_trace] at hf
    · subst hs
      simp [EFI_ERROR] at h

/-- With a policy that permits the write, the policy-table `DoWriteAtCursor` away from the
command and status words is a raw write. -/
theorem DoWriteAtCursor_permitted_direct {σ : Type} (rb : PCI_ROOT_BRIDGE σ) (flag : Bool)
    (B D F : Nat) (m : DISP_MODE) (o : Nat) (keys : List EFI_INPUT_KEY) (fab : Fabric σ)
    (hro : GetWritePolicy B D F (AlignCursor o m) m ≠ WP_BLOCK_RO)
    (hd : ¬ ((GetWritePolicy B D F (AlignCursor o m) m = WP_DANGEROUS_BAR ∨
      GetWritePolicy B D F (AlignCursor o m) m = WP_DANGEROUS_CAP) ∧ flag = false))
    (h4 : ¬ (m = DISP_WORD ∧ AlignCursor o m = 0x04))
    (h6 : ¬ (m = DISP_WORD ∧ AlignCursor o m = 0x06)) :
    DoWriteAtCursor rb flag B D F m o keys fab =
      SpecRawWrite rb ReadFixedHex B D F m (AlignCursor o m) keys fab := by
  unfold DoWriteAtCursor SpecRawWrite
  dsimp only
  rw [if_neg hro, if_neg hd]
  cases hr : ReadFixedHex (HexDigits m) keys with
  | none => rfl
  | some r =>
    obtain ⟨st, v, ks⟩ := r
    dsimp only
    by_cases he : EFI_ERROR st = true
    · rw [if_pos he, if_pos he]
    · rw [if_neg he, if_neg he, WriteTransform_direct rb B D F m _ _ v fab h4 (fun h => h6 h.2)]
      split_ifs <;> rfl

/-- The raw-write `DoWriteAtCursor`, once past its gate, is a raw write. -/
theorem Raw_DoWriteAtCursor_direct {σ : Type} (rb : PCI_ROOT_BRIDGE σ) (flag : Bool)
    (B D F : Nat) (m : DISP_MODE) (o : Nat) (keys : List EFI_INPUT_KEY) (fab : Fabric σ)
    (hd : ((Raw.IsBarOffset (AlignCursor o m) || Raw.IsCapArea (AlignCursor o m)) && !flag)
      = false) :
    Raw.DoWriteAtCursor rb flag B D F m o keys fab =
      SpecRawWrite rb Raw.ReadFixedHex B D F m (AlignCursor o m) keys fab := by
  unfold Raw.DoWriteAtCursor SpecRawWrite
  dsimp only
  rw [hd]
  simp only [Bool.false_eq_true, if_false]
  cases hr : Raw.ReadFixedHex (HexDigits m) keys with
  | none => rfl
  | some r =>
    obtain ⟨st, v, ks⟩ := r
    dsimp only
    by_cases he : EFI_ERROR st = true
    · rw [if_pos he, if_pos he]
    · rw [if_neg he, if_neg he]
      unfold Raw.RawWrite
      cases m <;>
        simp only [WidthOfMode, EFI_PCI_WIDTH.bits, PciWrite8, PciWrite16, PciWrite32, PciRead8,
          PciRead16, PciRead32, if_true, if_false, reduceCtorEq, Nat.reducePow] <;>
        split_ifs <;> rfl

/-- Aligning an offset of the base-address or capability range stays in the range. -/
theorem AlignCursor_dangerous (o : Nat) (m : DISP_MODE)
    (ho : (0x10 ≤ o ∧ o ≤ 0x24) ∨ (0x34 ≤ o ∧ o < 0x100)) :
    0x10 ≤ AlignCursor o m ∧ (AlignCursor o m ≤ 0x24 ∨ 0x34 ≤ AlignCursor o m) ∧
      AlignCursor o m < 0x100 := by
  have ha := AlignCursor_eq o m (by omega)
  have hs : StepByMode m = 1 ∨ StepByMode m = 2 ∨ StepByMode m = 4 := by
    cases m <;> simp [StepByMode]
  rcases hs with h | h | h <;> rw [h] at ha <;> omega

/-- A refused write: the acknowledgement key is taken, nothing else happens. -/
theorem DoWriteAtCursor_blocked {σ : Type} (rb : PCI_ROOT_BRIDGE σ) (flag : Bool)
    (B D F : Nat) (m : DISP_MODE) (o : Nat) (keys : List EFI_INPUT_KEY) (fab : Fabric σ)
    (hb : GetWritePolicy B D F (AlignCursor o m) m = WP_BLOCK_RO ∨
      ((GetWritePolicy B D F (AlignCursor o m) m = WP_DANGEROUS_BAR ∨
        GetWritePolicy B D F (AlignCursor o m) m = WP_DANGEROUS_CAP) ∧ flag = false)) :
    DoWriteAtCursor rb flag B D F m o keys fab = AckReturn EFI_ACCESS_DENIED keys fab := by
  unfold DoWriteAtCursor
  dsimp only
  rcases hb with h | h
  · rw [if_pos h]
  · by_cases h1 : GetWritePolicy B D F (AlignCursor o m) m = WP_BLOCK_RO
    · rw [if_pos h1]
    · rw [if_neg h1, if_pos h]

/-- A refused write of the raw-write variant. -/
theorem Raw_DoWriteAtCursor_blocked {σ : Type} (rb : PCI_ROOT_BRIDGE σ) (flag : Bool)
    (B D F : Nat) (m : DISP_MODE) (o : Nat) (keys : List EFI_INPUT_KEY) (fab : Fabric σ)
    (hd : ((Raw.IsBarOffset (AlignCursor o m) || Raw.IsCapArea (AlignCursor o m)) && !flag)
      = true) :
    Raw.DoWriteAtCursor rb flag B D F m o keys fab = AckReturn EFI_ACCESS_DENIED keys fab := by
  unfold Raw.DoWriteAtCursor
  dsimp only
  rw [hd]
  rfl

/-- A raw write whose value entry is cancelled returns `EFI_ABORTED`, the fabric untouched. -/
theorem SpecRawWrite_aborted {σ : Type} (rb : PCI_ROOT_BRIDGE σ)
    (readHex : Nat → List EFI_INPUT_KEY → Option (EFI_STATUS × Nat × List EFI_INPUT_KEY))
    (B D F : Nat) (m : DISP_MODE) (c : Nat) (keys ks : List EFI_INPUT_KEY) (v : Nat)
    (fab : Fabric σ) (h : readHex (HexDigits m) keys = some (EFI_ABORTED, v, ks)) :
    SpecRawWrite rb readHex B D F m c keys fab =
      { Status := some EFI_ABORTED, keys := ks, fab := fab } := by
  unfold SpecRawWrite
  rw [h]
  rfl

/-- Esc pressed before the last digit has been typed cancels the entry: the keys before it are
not Esc and hold fewer hex digits than are still awaited. -/
theorem ReadFixedHexLoop_cancel (esc : EFI_INPUT_KEY → Bool) (Digits : Nat)
    (pre : List EFI_INPUT_KEY) (e : EFI_INPUT_KEY) (ks : List EFI_INPUT_KEY) (got val : Nat)
    (hpre : ∀ k ∈ pre, esc k = false) (he : esc e = true)
    (hcount : got + (pre.filter (fun k => IsHexChar k.UnicodeChar)).length < Digits) :
    ∃ v, ReadFixedHexLoop esc Digits (pre ++ e :: ks) got val = some (EFI_ABORTED, v, ks) := by
  induction pre generalizing got val with
  | nil =>
    simp only [List.filter_nil, List.length_nil, Nat.add_zero] at hcount
    simp only [List.nil_append]
    unfold ReadFixedHexLoop
    rw [if_pos hcount, if_pos he]
    exact ⟨val, rfl⟩
  | cons k rest ih =>
    have hk : esc k = false := hpre k (List.mem_cons_self _ _)
    have hrest : ∀ x ∈ rest, esc x = false := fun x hx => hpre x (List.mem_cons_of_mem _ hx)
    simp only [List.cons_append]
    unfold ReadFixedHexLoop
    rw [List.filter_cons] at hcount
    by_cases hh : IsHexChar k.UnicodeChar = true
    · rw [if_pos hh, List.length_cons] at hcount
      rw [if_pos (by omega), hk, if_neg (by decide), if_pos hh]
      exact ih _ _ hrest (by omega)
    · rw [if_neg hh] at hcount
      rw [if_pos (by omega), hk, if_neg (by decide), if_neg hh]
      exact ih _ _ hrest hcount

/-! ## C2 -/

/-- C2: every offset of [0x10,0x24] ∪ [0x34,0x100) is classified `WP_DANGEROUS_BAR` or
`WP_DANGEROUS_CAP` at every width; `DoWriteAtCursor` there is refused (`EFI_ACCESS_DENIED`
after the acknowledgement key, the fabric untouched) if and only if the danger-unlock flag is
not set; with the flag set it is a raw write of the typed value at the aligned offset. The
raw-write variant, gated by `IsBarOffset` / `IsCapArea` of the aligned cursor, does the same. -/
theorem C2_dangerous_write_gated {σ : Type} (rb : PCI_ROOT_BRIDGE σ) (B D F o : Nat)
    (m : DISP_MODE) (ho : (0x10 ≤ o ∧ o ≤ 0x24) ∨ (0x34 ≤ o ∧ o < 0x100)) :
    (GetWritePolicy B D F o m = WP_DANGEROUS_BAR ∨ GetWritePolicy B D F o m = WP_DANGEROUS_CAP) ∧
    (∀ (flag : Bool) (k : EFI_INPUT_KEY) (ks : List EFI_INPUT_KEY) (fab : Fabric σ),
      DoWriteAtCursor rb flag B D F m o (k :: ks) fab =
        { Status := some EFI_ACCESS_DENIED, keys := ks, fab := fab } ↔ flag = false) ∧
    (∀ (keys : List EFI_INPUT_KEY) (fab : Fabric σ),
      DoWriteAtCursor rb true B D F m o keys fab =
        SpecRawWrite rb ReadFixedHex B D F m (AlignCursor o m) keys fab) ∧
    (Raw.IsBarOffset (AlignCursor o m) || Raw.IsCapArea (AlignCursor o m)) = true ∧
    (∀ (flag : Bool) (k : EFI_INPUT_KEY) (ks : List EFI_INPUT_KEY) (fab : Fabric σ),
      Raw.DoWriteAtCursor rb flag B D F m o (k :: ks) fab =
        { Status := some EFI_ACCESS_DENIED, keys := ks, fab := fab } ↔ flag = false) ∧
    (∀ (keys : List EFI_INPUT_KEY) (fab : Fabric σ),
      Raw.DoWriteAtCursor rb true B D F m o keys fab =
        SpecRawWrite rb Raw.ReadFixedHex B D F m (AlignCursor o m) keys fab) := by
  have hlt : o < 65536 := by omega
  have hpol := (GetWritePolicy_dangerous B D F o m ho).1
  obtain ⟨hge, hrange, _⟩ := AlignCursor_dangerous o m ho
  have hpa := GetWritePolicy_align B D F o m hlt
  have hro : GetWritePolicy B D F (AlignCursor o m) m ≠ WP_BLOCK_RO := by
    rw [hpa]; rcases hpol with h | h <;> rw [h] <;> decide
  have h4 : ¬ (m = DISP_WORD ∧ AlignCursor o m = 0x04) := by omega
  have h6 : ¬ (m = DISP_WORD ∧ AlignCursor o m = 0x06) := by omega
  have hgate : (Raw.IsBarOffset (AlignCursor o m) || Raw.IsCapArea (AlignCursor o m)) = true := by
    simp only [Raw.IsBarOffset, Raw.IsCapArea, Bool.or_eq_true, decide_eq_true_eq]
    omega
  have hopen : ∀ (keys : List EFI_INPUT_KEY) (fab : Fabric σ),
      DoWriteAtCursor rb true B D F m o keys fab =
        SpecRawWrite rb ReadFixedHex B D F m (AlignCursor o m) keys fab := fun keys fab =>
    DoWriteAtCursor_permitted_direct rb true B D F m o keys fab hro (by simp) h4 h6
  have hropen : ∀ (keys : List EFI_INPUT_KEY) (fab : Fabric σ),
      Raw.DoWriteAtCursor rb true B D F m o keys fab =
        SpecRawWrite rb Raw.ReadFixedHex B D F m (AlignCursor o m) keys fab := fun keys fab =>
    Raw_DoWriteAtCursor_direct rb true B D F m o keys fab (by simp)
  refine ⟨hpol, ?_, hopen, hgate, ?_, hropen⟩
  · intro flag k ks fab
    cases flag
    · simp only [iff_true]
      rw [DoWriteAtCursor_blocked rb false B D F m o _ fab (Or.inr ⟨by rw [hpa]; exact hpol, rfl⟩)]
      rfl
    · simp only [Bool.true_eq_false, iff_false]
      rw [hopen]
      exact SpecRawWrite_ne_denied rb ReadFixedHex
        (fun n keys st v ks h => ReadFixedHexLoop_status _ _ _ _ _ _ _ _ h) B D F m _ _ _ fab
  · intro flag k ks fab
    cases flag
    · simp only [iff_true]
      rw [Raw_DoWriteAtCursor_blocked rb false B D F m o _ fab (by rw [hgate]; rfl)]
      rfl
    · simp only [Bool.true_eq_false, iff_false]
      rw [hropen]
      exact SpecRawWrite_ne_denied rb Raw.ReadFixedHex
        (fun n keys st v ks h => ReadFixedHexLoop_status _ _ _ _ _ _ _ _ h) B D F m _ _ _ fab

/-- Witness for C2: a dword write at 0x10 on the byte-memory fabric. -/
theorem C2_dangerous_write_gated_witness :
    ((0x10 ≤ 0x10 ∧ 0x10 ≤ 0x24) ∨ (0x34 ≤ 0x10 ∧ 0x10 < 0x100)) ∧
    (GetWritePolicy 0 0 0 0x10 DISP_DWORD = WP_DANGEROUS_BAR ∨
      GetWritePolicy 0 0 0 0x10 DISP_DWORD = WP_DANGEROUS_CAP) ∧
    (DoWriteAtCursor MemBus false 0 0 0 DISP_DWORD 0x10 [KeyChar 0x20]
        { bus := fun _ => 0, trace := [] } =
      { Status := some EFI_ACCESS_DENIED, keys := [], fab := { bus := fun _ => 0, trace := [] } }
      ↔ false = false) :=
  ⟨by decide,
    (C2_dangerous_write_gated MemBus 0 0 0 0x10 DISP_DWORD (by decide)).1,
    (C2_dangerous_write_gated MemBus 0 0 0 0x10 DISP_DWORD (by decide)).2.1 false _ _ _⟩

/-! ## C4 -/

/-- C4: a refused or cancelled `DoWriteAtCursor` touches the fabric not at all. When the policy
of the cursor is `WP_BLOCK_RO`, or dangerous while the flag is locked, the fabric is left as it
was and, once the acknowledgement key has come, `EFI_ACCESS_DENIED` is returned; when the write
is permitted and the value entry is cancelled, `EFI_ABORTED` is returned and the fabric is as it
was. The same holds for the raw-write variant with its gate. The entry is cancelled whenever Esc
is pressed before the last digit has been typed. -/
theorem C4_refusal_issues_no_fabric_call {σ : Type} (rb : PCI_ROOT_BRIDGE σ) (flag : Bool)
    (B D F o : Nat) (m : DISP_MODE) (fab : Fabric σ) (ho : o < 65536) :
    ((GetWritePolicy B D F o m = WP_BLOCK_RO ∨
        ((GetWritePolicy B D F o m = WP_DANGEROUS_BAR ∨
          GetWritePolicy B D F o m = WP_DANGEROUS_CAP) ∧ flag = false)) →
      (∀ keys : List EFI_INPUT_KEY, (DoWriteAtCursor rb flag B D F m o keys fab).fab = fab) ∧
      (∀ (k : EFI_INPUT_KEY) (ks : List EFI_INPUT_KEY),
        DoWriteAtCursor rb flag B D F m o (k :: ks) fab =
          { Status := some EFI_ACCESS_DENIED, keys := ks, fab := fab })) ∧
    (¬ (GetWritePolicy B D F o m = WP_BLOCK_RO ∨
        ((GetWritePolicy B D F o m = WP_DANGEROUS_BAR ∨
          GetWritePolicy B D F o m = WP_DANGEROUS_CAP) ∧ flag = false)) →
      ∀ (keys ks : List EFI_INPUT_KEY) (v : Nat),
        ReadFixedHex (HexDigits m) keys = some (EFI_ABORTED, v, ks) →
        DoWriteAtCursor rb flag B D F m o keys fab =
          { Status := some EFI_ABORTED, keys := ks, fab := fab }) ∧
    (((Raw.IsBarOffset (AlignCursor o m) || Raw.IsCapArea (AlignCursor o m)) && !flag) = true →
      (∀ keys : List EFI_INPUT_KEY, (Raw.DoWriteAtCursor rb flag B D F m o keys fab).fab = fab) ∧
      (∀ (k : EFI_INPUT_KEY) (ks : List EFI_INPUT_KEY),
        Raw.DoWriteAtCursor rb flag B D F m o (k :: ks) fab =
          { Status := some EFI_ACCESS_DENIED, keys := ks, fab := fab })) ∧
    (((Raw.IsBarOffset (AlignCursor o m) || Raw.IsCapArea (AlignCursor o m)) && !flag) = false →
      ∀ (keys ks : List EFI_INPUT_KEY) (v : Nat),
        Raw.ReadFixedHex (HexDigits m) keys = some (EFI_ABORTED, v, ks) →
        Raw.DoWriteAtCursor rb flag B D F m o keys fab =
          { Status := some EFI_ABORTED, keys := ks, fab := fab }) ∧
    (∀ (pre : List EFI_INPUT_KEY) (e : EFI_INPUT_KEY) (ks : List EFI_INPUT_KEY),
      (∀ k ∈ pre, IsEsc k = false) → IsEsc e = true →
      (pre.filter (fun k => IsHexChar k.UnicodeChar)).length < HexDigits m →
      ∃ v, ReadFixedHex (HexDigits m) (pre ++ e :: ks) = some (EFI_ABORTED, v, ks)) ∧
    (∀ (pre : List EFI_INPUT_KEY) (e : EFI_INPUT_KEY) (ks : List EFI_INPUT_KEY),
      (∀ k ∈ pre, Raw.IsEsc k = false) → Raw.IsEsc e = true →
      (pre.filter (fun k => IsHexChar k.UnicodeChar)).length < HexDigits m →
      ∃ v, Raw.ReadFixedHex (HexDigits m) (pre ++ e :: ks) = some (EFI_ABORTED, v, ks)) := by
  have hpa := GetWritePolicy_align B D F o m ho
  refine ⟨?_, ?_, ?_, ?_, ?_, ?_⟩
  · intro hb
    have hb1 : GetWritePolicy B D F (AlignCursor o m) m = WP_BLOCK_RO ∨
        ((GetWritePolicy B D F (AlignCursor o m) m = WP_DANGEROUS_BAR ∨
          GetWritePolicy B D F (AlignCursor o m) m = WP_DANGEROUS_CAP) ∧ flag = false) := by
      rw [hpa]; exact hb
    refine ⟨fun keys => ?_, fun k ks => ?_⟩
    · rw [DoWriteAtCursor_blocked rb flag B D F m o keys fab hb1, AckReturn_fab]
    · rw [DoWriteAtCursor_blocked rb flag B D F m o _ fab hb1]; rfl
  · intro hnb keys ks v hhex
    rw [← hpa] at hnb
    unfold DoWriteAtCursor
    dsimp only
    rw [if_neg (fun h => hnb (Or.inl h)), if_neg (fun h => hnb (Or.inr h)), hhex]
    rfl
  · intro hd
    refine ⟨fun keys => ?_, fun k ks => ?_⟩
    · rw [Raw_DoWriteAtCursor_blocked rb flag B D F m o keys fab hd, AckReturn_fab]
    · rw [Raw_DoWriteAtCursor_blocked rb flag B D F m o _ fab hd]; rfl
  · intro hd keys ks v hhex
    rw [Raw_DoWriteAtCursor_direct rb flag B D F m o keys fab hd]
    exact SpecRawWrite_aborted rb Raw.ReadFixedHex B D F m _ keys ks v fab hhex
  · intro pre e ks hpre he hcount
    exact ReadFixedHexLoop_cancel IsEsc (HexDigits m) pre e ks 0 0 hpre he (by omega)
  · intro pre e ks hpre he hcount
    exact ReadFixedHexLoop_cancel Raw.IsEsc (HexDigits m) pre e ks 0 0 hpre he (by omega)

/-- Witness for C4: a byte write at the revision byte is refused, and a word write at 0x0C
cancelled by Esc after one digit is aborted, on the byte-memory fabric. -/
theorem C4_refusal_issues_no_fabric_call_witness :
    (0x08 < 65536 ∧ 0x0C < 65536) ∧
    DoWriteAtCursor MemBus false 0 0 0 DISP_BYTE 0x08 [KeyChar 0x20]
        { bus := fun _ => 0, trace := [] } =
      { Status := some EFI_ACCESS_DENIED, keys := [],
        fab := { bus := fun _ => 0, trace := [] } } ∧
    DoWriteAtCursor MemBus false 0 0 0 DISP_WORD 0x0C [KeyChar 0x31, KeyScan SCAN_ESC]
        { bus := fun _ => 0, trace := [] } =
      { Status := some EFI_ABORTED, keys := [], fab := { bus := fun _ => 0, trace := [] } } :=
  ⟨by decide,
    ((C4_refusal_issues_no_fabric_call MemBus false 0 0 0 0x08 DISP_BYTE
      { bus := fun _ => 0, trace := [] } (by decide)).1 (Or.inl (by decide))).2 _ _,
    (C4_refusal_issues_no_fabric_call MemBus false 0 0 0 0x0C DISP_WORD
      { bus := fun _ => 0, trace := [] } (by decide)).2.1 (by decide) _ [] 1 (by decide)⟩

/-! ## The probe engine -/

/-- The test value `~Old`, cut to the width, is the ones' complement of `Old`. -/
theorem complement_eq (x n : Nat) (hn : n ≤ 32) (hx : x < 2 ^ n) :
    (x ^^^ 0xFFFFFFFF) % 2 ^ n = 2 ^ n - 1 - x := by
  apply Nat.eq_of_testBit_eq
  intro i
  have e : (0xFFFFFFFF : Nat) = 2 ^ 32 - 1 := by norm_num
  have e2 : 2 ^ n - 1 - x = 2 ^ n - (x + 1) := by omega
  rw [e2, Nat.testBit_two_pow_sub_succ hx, Nat.testBit_mod_two_pow, Nat.testBit_xor, e,
    Nat.testBit_two_pow_sub_one]
  by_cases hi : i < n
  · have : i < 32 := by omega
    simp [hi, this]
  · simp [hi]

theorem bits_le (w : EFI_PCI_WIDTH) : w.bits ≤ 32 := by
  cases w <;> simp [EFI_PCI_WIDTH.bits]

theorem PciRead_value_lt {σ : Type} (rb : PCI_ROOT_BRIDGE σ) (w : EFI_PCI_WIDTH)
    (B D F R : Nat) (fab : Fabric σ) : (PciRead rb w B D F R fab).2.2 < 2 ^ w.bits :=
  Nat.mod_lt _ (Nat.two_pow_pos _)

/-- Inside the probe window the probe is the common body at the width of the mode. -/
theorem Probe_eq_ProbeAtWidth {σ : Type} (rb : PCI_ROOT_BRIDGE σ) (B D F : Nat) (m : DISP_MODE)
    (o : Nat) (fab : Fabric σ) (hs : IsProbeSafe (AlignCursor o m) m = true) :
    ProbeWritableMaskAtCursor rb B D F m o fab =
      ProbeAtWidth rb (WidthOfMode m) B D F (AlignCursor o m) fab := by
  unfold ProbeWritableMaskAtCursor
  dsimp only
  rw [hs]
  cases m <;> rfl

/-- Outside the probe window the probe is refused without touching the fabric. -/
theorem Probe_rejected {σ : Type} (rb : PCI_ROOT_BRIDGE σ) (B D F : Nat) (m : DISP_MODE)
    (o : Nat) (fab : Fabric σ) (hs : IsProbeSafe (AlignCursor o m) m = false) :
    ProbeWritableMaskAtCursor rb B D F m o fab = (fab, ⟨EFI_ACCESS_DENIED, 0, 0, 0, 0⟩) := by
  unfold ProbeWritableMaskAtCursor
  dsimp only
  rw [hs]
  rfl

/-- The probe window is closed under alignment, and so is its complement. -/
theorem IsProbeSafe_align (o : Nat) (m : DISP_MODE) (ho : o < 65536) :
    IsProbeSafe (AlignCursor o m) m = decide (0x40 ≤ o ∧ o < 0x100) := by
  have ha := AlignCursor_eq o m ho
  have hs : StepByMode m = 1 ∨ StepByMode m = 2 ∨ StepByMode m = 4 := by
    cases m <;> simp [StepByMode]
  unfold IsProbeSafe
  rw [decide_eq_decide]
  rcases hs with h | h | h <;> rw [h] at ha <;> omega

/-! ## C6 -/

/-- C6: for a 16-bit offset below 0x40 or at least 0x100, at every width, the probe returns
`EFI_ACCESS_DENIED` with all four outputs 0 and leaves the fabric (state and call trace) as it
was; for an offset in [0x40,0x100) it is not refused: it runs the read/write sequence, whose
first call, a read at the aligned offset, is issued. -/
theorem C6_probe_rejection {σ : Type} (rb : PCI_ROOT_BRIDGE σ) (B D F : Nat) (m : DISP_MODE)
    (o : Nat) (fab : Fabric σ) (ho : o < 65536) :
    ((o < 0x40 ∨ 0x100 ≤ o) →
      ProbeWritableMaskAtCursor rb B D F m o fab = (fab, ⟨EFI_ACCESS_DENIED, 0, 0, 0, 0⟩)) ∧
    ((0x40 ≤ o ∧ o < 0x100) →
      ProbeWritableMaskAtCursor rb B D F m o fab =
        ProbeAtWidth rb (WidthOfMode m) B D F (AlignCursor o m) fab ∧
      ∃ rest, (ProbeWritableMaskAtCursor rb B D F m o fab).1.trace =
        fab.trace ++
          BusOp.read (WidthOfMode m) (PciCfgAddr B D F (AlignCursor o m)) :: rest) := by
  have hw := IsProbeSafe_align o m ho
  constructor
  · intro h
    apply Probe_rejected
    rw [hw, decide_eq_false_iff_not]
    omega
  · intro h
    have hs : IsProbeSafe (AlignCursor o m) m = true := by
      rw [hw, decide_eq_true_eq]; exact h
    refine ⟨Probe_eq_ProbeAtWidth rb B D F m o fab hs, ?_⟩
    rw [Probe_eq_ProbeAtWidth rb B D F m o fab hs]
    unfold ProbeAtWidth
    dsimp only
    split_ifs
    · exact ⟨[], rfl⟩
    · exact ⟨_, by simp [PciWrite_trace, PciRead_trace]; rfl⟩
    · exact ⟨_, by simp [PciWrite_trace, PciRead_trace]; rfl⟩
    · exact ⟨_, by simp [PciWrite_trace, PciRead_trace]; rfl⟩

/-- Witness for C6: a word probe at 0x3F on the byte-memory fabric is refused. -/
theorem C6_probe_rejection_witness :
    (0x3F < 65536) ∧ (0x3F < 0x40 ∨ 0x100 ≤ 0x3F) ∧
    ProbeWritableMaskAtCursor MemBus 0 0 0 DISP_WORD 0x3F { bus := fun _ => 0, trace := [] } =
      ({ bus := fun _ => 0, trace := [] }, ⟨EFI_ACCESS_DENIED, 0, 0, 0, 0⟩) :=
  ⟨by decide, by decide,
    (C6_probe_rejection MemBus 0 0 0 DISP_WORD 0x3F { bus := fun _ => 0, trace := [] }
      (by decide)).1 (by decide)⟩

/-- The three ways the common body of the probe can go, told apart by the statuses of its first
three calls; the restoring write is issued in the last two cases alike and its status is not
looked at. -/
theorem ProbeAtWidth_cases {σ : Type} (rb : PCI_ROOT_BRIDGE σ) (w : EFI_PCI_WIDTH)
    (B D F c : Nat) (fab : Fabric σ) :
    (EFI_ERROR (PciRead rb w B D F c fab).2.1 = true ∧
      ProbeAtWidth rb w B D F c fab =
        ((PciRead rb w B D F c fab).1, ⟨(PciRead rb w B D F c fab).2.1, 0, 0, 0, 0⟩)) ∨
    (EFI_ERROR (PciRead rb w B D F c fab).2.1 = false ∧
      EFI_ERROR (PciWrite rb w B D F c (((PciRead rb w B D F c fab).2.2 ^^^ 0xFFFFFFFF) % 2 ^ w.bits)
        (PciRead rb w B D F c fab).1).2 = true ∧
      ProbeAtWidth rb w B D F c fab =
        ((PciWrite rb w B D F c (((PciRead rb w B D F c fab).2.2 ^^^ 0xFFFFFFFF) % 2 ^ w.bits)
            (PciRead rb w B D F c fab).1).1,
          ⟨(PciWrite rb w B D F c (((PciRead rb w B D F c fab).2.2 ^^^ 0xFFFFFFFF) % 2 ^ w.bits)
            (PciRead rb w B D F c fab).1).2, 0, 0, 0, 0⟩)) ∨
    (EFI_ERROR (PciRead rb w B D F c fab).2.1 = false ∧
      EFI_ERROR (PciWrite rb w B D F c (((PciRead rb w B D F c fab).2.2 ^^^ 0xFFFFFFFF) % 2 ^ w.bits)
        (PciRead rb w B D F c fab).1).2 = false ∧
      (ProbeAtWidth rb w B D F c fab).1 =
        (PciWrite rb w B D F c (PciRead rb w B D F c fab).2.2
          (PciRead rb w B D F c
            (PciWrite rb w B D F c
              (((PciRead rb w B D F c fab).2.2 ^^^ 0xFFFFFFFF) % 2 ^ w.bits)
              (PciRead rb w B D F c fab).1).1).1).1 ∧
      (ProbeAtWidth rb w B D F c fab).2 =
        (if EFI_ERROR (PciRead rb w B D F c
            (PciWrite rb w B D F c
              (((PciRead rb w B D F c fab).2.2 ^^^ 0xFFFFFFFF) % 2 ^ w.bits)
              (PciRead rb w B D F c fab).1).1).2.1 = true
         then ⟨(PciRead rb w B D F c
            (PciWrite rb w B D F c
              (((PciRead rb w B D F c fab).2.2 ^^^ 0xFFFFFFFF) % 2 ^ w.bits)
              (PciRead rb w B D F c fab).1).1).2.1, 0, 0, 0, 0⟩
         else ⟨EFI_SUCCESS, (PciRead rb w B D F c fab).2.2,
            ((PciRead rb w B D F c fab).2.2 ^^^ 0xFFFFFFFF) % 2 ^ w.bits,
            (PciRead rb w B D F c
              (PciWrite rb w B D F c
                (((PciRead rb w B D F c fab).2.2 ^^^ 0xFFFFFFFF) % 2 ^ w.bits)
                (PciRead rb w B D F c fab).1).1).2.2,
            ((PciRead rb w B D F c fab).2.2 ^^^
              (PciRead rb w B D F c
                (PciWrite rb w B D F c
                  (((PciRead rb w B D F c fab).2.2 ^^^ 0xFFFFFFFF) % 2 ^ w.bits)
                  (PciRead rb w B D F c fab).1).1).2.2) % 2 ^ w.bits⟩)) := by
  unfold ProbeAtWidth
  dsimp only
  by_cases h1 : EFI_ERROR (PciRead rb w B D F c fab).2.1 = true
  · left
    rw [if_pos h1]
    exact ⟨h1, rfl⟩
  · right
    rw [if_neg h1]
    have h1f : EFI_ERROR (PciRead rb w B D F c fab).2.1 = false := by simpa using h1
    by_cases h2 : EFI_ERROR (PciWrite rb w B D F c
        (((PciRead rb w B D F c fab).2.2 ^^^ 0xFFFFFFFF) % 2 ^ w.bits)
        (PciRead rb w B D F c fab).1).2 = true
    · left
      rw [if_pos h2]
      exact ⟨h1f, h2, rfl⟩
    · right
      rw [if_neg h2]
      have h2f : EFI_ERROR (PciWrite rb w B D F c
        (((PciRead rb w B D F c fab).2.2 ^^^ 0xFFFFFFFF) % 2 ^ w.bits)
        (PciRead rb w B D F c fab).1).2 = false := by simpa using h2
      refine ⟨h1f, h2f, ?_, ?_⟩ <;> split_ifs <;> rfl

theorem EFI_ERROR_ne_success (st : EFI_STATUS) (h : EFI_ERROR st = true) : st ≠ EFI_SUCCESS := by
  intro e; subst e; simp [EFI_ERROR] at h

theorem EFI_ERROR_false_iff (st : EFI_STATUS) : EFI_ERROR st = false ↔ st = EFI_SUCCESS := by
  cases st <;> simp [EFI_ERROR]

/-- The three ways of the common body, in terms of the four named calls. -/
theorem ProbeAtWidth_calls {σ : Type} (rb : PCI_ROOT_BRIDGE σ) (w : EFI_PCI_WIDTH)
    (B D F c : Nat) (fab : Fabric σ) :
    (EFI_ERROR (ProbeReadOld rb w B D F c fab).2.1 = true ∧
      ProbeAtWidth rb w B D F c fab =
        ((ProbeReadOld rb w B D F c fab).1, ⟨(ProbeReadOld rb w B D F c fab).2.1, 0, 0, 0, 0⟩)) ∨
    (EFI_ERROR (ProbeReadOld rb w B D F c fab).2.1 = false ∧
      EFI_ERROR (ProbeWriteTest rb w B D F c fab).2 = true ∧
      ProbeAtWidth rb w B D F c fab =
        ((ProbeWriteTest rb w B D F c fab).1,
          ⟨(ProbeWriteTest rb w B D F c fab).2, 0, 0, 0, 0⟩)) ∨
    (EFI_ERROR (ProbeReadOld rb w B D F c fab).2.1 = false ∧
      EFI_ERROR (ProbeWriteTest rb w B D F c fab).2 = false ∧
      (ProbeAtWidth rb w B D F c fab).1 = (ProbeRestore rb w B D F c fab).1 ∧
      (ProbeAtWidth rb w B D F c fab).2 =
        (if EFI_ERROR (ProbeReadBack rb w B D F c fab).2.1 = true
         then ⟨(ProbeReadBack rb w B D F c fab).2.1, 0, 0, 0, 0⟩
         else ⟨EFI_SUCCESS, (ProbeReadOld rb w B D F c fab).2.2,
            2 ^ w.bits - 1 - (ProbeReadOld rb w B D F c fab).2.2,
            (ProbeReadBack rb w B D F c fab).2.2,
            ((ProbeReadOld rb w B D F c fab).2.2 ^^^ (ProbeReadBack rb w B D F c fab).2.2)
              % 2 ^ w.bits⟩)) := by
  have hc := complement_eq (PciRead rb w B D F c fab).2.2 w.bits (bits_le w)
    (PciRead_value_lt rb w B D F c fab)
  have h := ProbeAtWidth_cases rb w B D F c fab
  rw [hc] at h
  exact h

/-! ## C8 -/

/-- C8: whenever the probe returns `EFI_SUCCESS` at width w, `OutOld` is the value of the first
read, `OutTest` is the bitwise complement of `OutOld` on w bits, `OutReadBack` is the value of
the second read (made after the test write), `OutMask` is `OutOld` xor `OutReadBack`, and all
four are below 2^w. -/
theorem C8_probe_outputs {σ : Type} (rb : PCI_ROOT_BRIDGE σ) (B D F : Nat) (m : DISP_MODE)
    (o : Nat) (fab : Fabric σ)
    (hs : (ProbeWritableMaskAtCursor rb B D F m o fab).2.Status = EFI_SUCCESS) :
    (ProbeWritableMaskAtCursor rb B D F m o fab).2.OutOld =
      (ProbeReadOld rb (WidthOfMode m) B D F (AlignCursor o m) fab).2.2 ∧
    (ProbeWritableMaskAtCursor rb B D F m o fab).2.OutTest =
      2 ^ (WidthOfMode m).bits - 1 - (ProbeWritableMaskAtCursor rb B D F m o fab).2.OutOld ∧
    (∀ i : Nat, (ProbeWritableMaskAtCursor rb B D F m o fab).2.OutTest.testBit i =
      (decide (i < (WidthOfMode m).bits) &&
        !(ProbeWritableMaskAtCursor rb B D F m o fab).2.OutOld.testBit i)) ∧
    (ProbeWritableMaskAtCursor rb B D F m o fab).2.OutReadBack =
      (ProbeReadBack rb (WidthOfMode m) B D F (AlignCursor o m) fab).2.2 ∧
    (ProbeWritableMaskAtCursor rb B D F m o fab).2.OutMask =
      (ProbeWritableMaskAtCursor rb B D F m o fab).2.OutOld ^^^
        (ProbeWritableMaskAtCursor rb B D F m o fab).2.OutReadBack ∧
    (ProbeWritableMaskAtCursor rb B D F m o fab).2.OutOld < 2 ^ (WidthOfMode m).bits ∧
    (ProbeWritableMaskAtCursor rb B D F m o fab).2.OutTest < 2 ^ (WidthOfMode m).bits ∧
    (ProbeWritableMaskAtCursor rb B D F m o fab).2.OutReadBack < 2 ^ (WidthOfMode m).bits ∧
    (ProbeWritableMaskAtCursor rb B D F m o fab).2.OutMask < 2 ^ (WidthOfMode m).bits := by
  by_cases hsafe : IsProbeSafe (AlignCursor o m) m = true
  · rw [Probe_eq_ProbeAtWidth rb B D F m o fab hsafe] at hs ⊢
    generalize WidthOfMode m = w at hs ⊢
    generalize AlignCursor o m = c at hs ⊢
    have hold : (ProbeReadOld rb w B D F c fab).2.2 < 2 ^ w.bits := PciRead_value_lt _ _ _ _ _ _ _
    have hrb : (ProbeReadBack rb w B D F c fab).2.2 < 2 ^ w.bits := PciRead_value_lt _ _ _ _ _ _ _
    have hpos : 0 < 2 ^ w.bits := Nat.two_pow_pos _
    rcases ProbeAtWidth_calls rb w B D F c fab with ⟨he, hr⟩ | ⟨_, he, hr⟩ | ⟨_, _, _, hr⟩
    · rw [hr] at hs
      exact absurd hs (EFI_ERROR_ne_success _ he)
    · rw [hr] at hs
      exact absurd hs (EFI_ERROR_ne_success _ he)
    · rw [hr] at hs ⊢
      by_cases he : EFI_ERROR (ProbeReadBack rb w B D F c fab).2.1 = true
      · rw [if_pos he] at hs
        exact absurd hs (EFI_ERROR_ne_success _ he)
      · rw [if_neg he]
        dsimp only
        have hx := Nat.xor_lt_two_pow hold hrb
        refine ⟨rfl, rfl, ?_, rfl, Nat.mod_eq_of_lt hx, hold, by omega, hrb,
          Nat.mod_lt _ hpos⟩
        intro i
        have e2 : 2 ^ w.bits - 1 - (ProbeReadOld rb w B D F c fab).2.2 =
            2 ^ w.bits - ((ProbeReadOld rb w B D F c fab).2.2 + 1) := by omega
        rw [e2, Nat.testBit_two_pow_sub_succ hold]
  · have hf : IsProbeSafe (AlignCursor o m) m = false := by simpa using hsafe
    rw [Probe_rejected rb B D F m o fab hf] at hs
    exact absurd hs (fun h => EFI_STATUS.noConfusion h)

/-- Witness for C8: a byte probe at 0x40 of a byte memory holding 0x5A there. -/
theorem C8_probe_outputs_witness :
    (ProbeWritableMaskAtCursor MemBus 0 0 0 DISP_BYTE 0x40
      { bus := fun x => if x = 0x40 then 0x5A else 0, trace := [] }).2.Status = EFI_SUCCESS ∧
    (ProbeWritableMaskAtCursor MemBus 0 0 0 DISP_BYTE 0x40
      { bus := fun x => if x = 0x40 then 0x5A else 0, trace := [] }).2.OutTest =
      2 ^ (WidthOfMode DISP_BYTE).bits - 1 -
        (ProbeWritableMaskAtCursor MemBus 0 0 0 DISP_BYTE 0x40
          { bus := fun x => if x = 0x40 then 0x5A else 0, trace := [] }).2.OutOld :=
  ⟨by decide,
    (C8_probe_outputs MemBus 0 0 0 DISP_BYTE 0x40
      { bus := fun x => if x = 0x40 then 0x5A else 0, trace := [] } (by decide)).2.1⟩

/-! ## C9 -/

/-- C9: for an offset in the probe window, with the four calls of the sequence named in order
(read, write of the complement, read-back, restoring write of the old value): if the first read
fails its status is returned and it is the only call issued; if the test write fails its
status is returned and no further call is issued; otherwise exactly the four calls are issued
in that order, the restoring write whether or not the read-back succeeded, and the status
returned is that of the read-back, the status of the restoring write not being looked at. -/
theorem C9_probe_status_and_sequence {σ : Type} (rb : PCI_ROOT_BRIDGE σ) (B D F : Nat)
    (m : DISP_MODE) (o : Nat) (fab : Fabric σ) (ho : 0x40 ≤ o ∧ o < 0x100) :
    (EFI_ERROR (ProbeReadOld rb (WidthOfMode m) B D F (AlignCursor o m) fab).2.1 = true →
      (ProbeWritableMaskAtCursor rb B D F m o fab).2.Status =
        (ProbeReadOld rb (WidthOfMode m) B D F (AlignCursor o m) fab).2.1 ∧
      (ProbeWritableMaskAtCursor rb B D F m o fab).1 =
        (ProbeReadOld rb (WidthOfMode m) B D F (AlignCursor o m) fab).1 ∧
      (ProbeWritableMaskAtCursor rb B D F m o fab).1.trace = fab.trace ++
        [BusOp.read (WidthOfMode m) (PciCfgAddr B D F (AlignCursor o m))]) ∧
    (EFI_ERROR (ProbeReadOld rb (WidthOfMode m) B D F (AlignCursor o m) fab).2.1 = false →
      EFI_ERROR (ProbeWriteTest rb (WidthOfMode m) B D F (AlignCursor o m) fab).2 = true →
      (ProbeWritableMaskAtCursor rb B D F m o fab).2.Status =
        (ProbeWriteTest rb (WidthOfMode m) B D F (AlignCursor o m) fab).2 ∧
      (ProbeWritableMaskAtCursor rb B D F m o fab).1 =
        (ProbeWriteTest rb (WidthOfMode m) B D F (AlignCursor o m) fab).1 ∧
      (ProbeWritableMaskAtCursor rb B D F m o fab).1.trace = fab.trace ++
        [BusOp.read (WidthOfMode m) (PciCfgAddr B D F (AlignCursor o m)),
         BusOp.write (WidthOfMode m) (PciCfgAddr B D F (AlignCursor o m))
          (2 ^ (WidthOfMode m).bits - 1 -
            (ProbeReadOld rb (WidthOfMode m) B D F (AlignCursor o m) fab).2.2)]) ∧
    (EFI_ERROR (ProbeReadOld rb (WidthOfMode m) B D F (AlignCursor o m) fab).2.1 = false →
      EFI_ERROR (ProbeWriteTest rb (WidthOfMode m) B D F (AlignCursor o m) fab).2 = false →
      (ProbeWritableMaskAtCursor rb B D F m o fab).2.Status =
        (ProbeReadBack rb (WidthOfMode m) B D F (AlignCursor o m) fab).2.1 ∧
      (ProbeWritableMaskAtCursor rb B D F m o fab).1 =
        (ProbeRestore rb (WidthOfMode m) B D F (AlignCursor o m) fab).1 ∧
      (ProbeWritableMaskAtCursor rb B D F m o fab).1.trace = fab.trace ++
        [BusOp.read (WidthOfMode m) (PciCfgAddr B D F (AlignCursor o m)),
         BusOp.write (WidthOfMode m) (PciCfgAddr B D F (AlignCursor o m))
          (2 ^ (WidthOfMode m).bits - 1 -
            (ProbeReadOld rb (WidthOfMode m) B D F (AlignCursor o m) fab).2.2),
         BusOp.read (WidthOfMode m) (PciCfgAddr B D F (AlignCursor o m)),
         BusOp.write (WidthOfMode m) (PciCfgAddr B D F (AlignCursor o m))
          (ProbeReadOld rb (WidthOfMode m) B D F (AlignCursor o m) fab).2.2]) := by
  have hsafe : IsProbeSafe (AlignCursor o m) m = true := by
    rw [IsProbeSafe_align o m (by omega), decide_eq_true_eq]; exact ho
  rw [Probe_eq_ProbeAtWidth rb B D F m o fab hsafe]
  generalize WidthOfMode m = w
  generalize AlignCursor o m = c
  have hcases := ProbeAtWidth_calls rb w B D F c fab
  refine ⟨?_, ?_, ?_⟩
  · intro h1
    rcases hcases with ⟨_, hr⟩ | ⟨hn, _⟩ | ⟨hn, _⟩
    · rw [hr]; exact ⟨rfl, rfl, rfl⟩
    · rw [h1] at hn; exact absurd hn (by decide)
    · rw [h1] at hn; exact absurd hn (by decide)
  · intro h1 h2
    rcases hcases with ⟨hn, _⟩ | ⟨_, _, hr⟩ | ⟨_, hn, _⟩
    · rw [h1] at hn; exact absurd hn (by decide)
    · rw [hr]
      refine ⟨rfl, rfl, ?_⟩
      simp [ProbeWriteTest, ProbeReadOld, PciWrite_trace, PciRead_trace]
    · rw [h2] at hn; exact absurd hn (by decide)
  · intro h1 h2
    rcases hcases with ⟨hn, _⟩ | ⟨_, hn, _⟩ | ⟨_, _, hf, hr⟩
    · rw [h1] at hn; exact absurd hn (by decide)
    · rw [h2] at hn; exact absurd hn (by decide)
    · rw [hr, hf]
      refine ⟨?_, rfl, ?_⟩
      · by_cases he : EFI_ERROR (ProbeReadBack rb w B D F c fab).2.1 = true
        · rw [if_pos he]
        · rw [if_neg he]
          have : EFI_ERROR (ProbeReadBack rb w B D F c fab).2.1 = false := by simpa using he
          exact ((EFI_ERROR_false_iff _).1 this).symm
      · simp [ProbeRestore, ProbeReadBack, ProbeWriteTest, ProbeReadOld, PciWrite_trace,
          PciRead_trace]

/-- Witness for C9: a dword probe at 0x40 on the byte-memory fabric issues the four calls. -/
theorem C9_probe_status_and_sequence_witness :
    (0x40 ≤ 0x40 ∧ 0x40 < 0x100) ∧
    EFI_ERROR (ProbeReadOld MemBus (WidthOfMode DISP_DWORD) 0 0 0 (AlignCursor 0x40 DISP_DWORD)
      { bus := fun _ => 0, trace := [] }).2.1 = false ∧
    EFI_ERROR (ProbeWriteTest MemBus (WidthOfMode DISP_DWORD) 0 0 0 (AlignCursor 0x40 DISP_DWORD)
      { bus := fun _ => 0, trace := [] }).2 = false ∧
    (ProbeWritableMaskAtCursor MemBus 0 0 0 DISP_DWORD 0x40
      { bus := fun _ => 0, trace := [] }).2.Status =
      (ProbeReadBack MemBus (WidthOfMode DISP_DWORD) 0 0 0 (AlignCursor 0x40 DISP_DWORD)
        { bus := fun _ => 0, trace := [] }).2.1 :=
  ⟨by decide, by decide, by decide,
    ((C9_probe_status_and_sequence MemBus 0 0 0 DISP_DWORD 0x40
      { bus := fun _ => 0, trace := [] } (by decide)).2.2 (by decide) (by decide)).1⟩

/-! ## C7 -/

/-- The byte memory echoes writes back on read. -/
theorem MemBus_echo : EchoBus MemBus where
  read_state := fun _ _ _ => rfl
  read_ok := fun _ _ _ => rfl
  write_ok := fun _ _ _ _ => rfl
  read_write := by
    intro st w addr v
    cases w
    · simp [MemBus, MemRead, MemWrite, EFI_PCI_WIDTH.bits]
    · simp only [MemBus, MemRead, MemWrite, EFI_PCI_WIDTH.bits]
      have h0 : addr ≤ addr ∧ addr < addr + 16 / 8 := by omega
      have h1 : addr ≤ addr + 1 ∧ addr + 1 < addr + 16 / 8 := by omega
      rw [if_pos h0, if_pos h1, Nat.sub_self, Nat.add_sub_cancel_left]
      norm_num
      omega
    · simp only [MemBus, MemRead, MemWrite, EFI_PCI_WIDTH.bits]
      have h0 : addr ≤ addr ∧ addr < addr + 32 / 8 := by omega
      have h1 : addr ≤ addr + 1 ∧ addr + 1 < addr + 32 / 8 := by omega
      have h2 : addr ≤ addr + 2 ∧ addr + 2 < addr + 32 / 8 := by omega
      have h3 : addr ≤ addr + 3 ∧ addr + 3 < addr + 32 / 8 := by omega
      rw [if_pos h0, if_pos h1, if_pos h2, if_pos h3, Nat.sub_self, Nat.add_sub_cancel_left,
        Nat.add_sub_cancel_left, Nat.add_sub_cancel_left]
      norm_num
      omega
  frame := by
    intro st w addr v x hx
    simp only [MemBus, MemRead, MemWrite]
    rw [if_neg (by omega)]

/-- C7: on any fabric that echoes writes back on read, for any address, any offset in the probe
window and any width, after the probe the register reads the value it read before the call,
and every byte outside the register reads as it did before. -/
theorem C7_probe_round_trip {σ : Type} (rb : PCI_ROOT_BRIDGE σ) (hecho : EchoBus rb)
    (B D F : Nat) (m : DISP_MODE) (o : Nat) (fab : Fabric σ) (ho : 0x40 ≤ o ∧ o < 0x100) :
    (PciRead rb (WidthOfMode m) B D F (AlignCursor o m)
        (ProbeWritableMaskAtCursor rb B D F m o fab).1).2.2 =
      (PciRead rb (WidthOfMode m) B D F (AlignCursor o m) fab).2.2 ∧
    (∀ x : Nat, (x < PciCfgAddr B D F (AlignCursor o m) ∨
        PciCfgAddr B D F (AlignCursor o m) + (WidthOfMode m).bits / 8 ≤ x) →
      (rb.Read (ProbeWritableMaskAtCursor rb B D F m o fab).1.bus EfiPciWidthUint8 x).2.2 =
        (rb.Read fab.bus EfiPciWidthUint8 x).2.2) := by
  have hsafe : IsProbeSafe (AlignCursor o m) m = true := by
    rw [IsProbeSafe_align o m (by omega), decide_eq_true_eq]; exact ho
  rw [Probe_eq_ProbeAtWidth rb B D F m o fab hsafe]
  generalize WidthOfMode m = w
  generalize AlignCursor o m = c
  have h1 : EFI_ERROR (ProbeReadOld rb w B D F c fab).2.1 = false := by
    rw [EFI_ERROR_false_iff]; exact hecho.read_ok _ _ _
  have h2 : EFI_ERROR (ProbeWriteTest rb w B D F c fab).2 = false := by
    rw [EFI_ERROR_false_iff]; exact hecho.write_ok _ _ _ _
  rcases ProbeAtWidth_calls rb w B D F c fab with ⟨hn, _⟩ | ⟨_, hn, _⟩ | ⟨_, _, hf, _⟩
  · rw [h1] at hn; exact absurd hn (by decide)
  · rw [h2] at hn; exact absurd hn (by decide)
  · rw [hf]
    have hbus : (ProbeRestore rb w B D F c fab).1.bus =
        (rb.Write (rb.Write fab.bus w (PciCfgAddr B D F c)
            (2 ^ w.bits - 1 - (rb.Read fab.bus w (PciCfgAddr B D F c)).2.2 % 2 ^ w.bits)).1
          w (PciCfgAddr B D F c)
          ((rb.Read fab.bus w (PciCfgAddr B D F c)).2.2 % 2 ^ w.bits)).1 := by
      simp only [ProbeRestore, ProbeReadBack, ProbeWriteTest, ProbeReadOld, PciWrite, PciRead,
        hecho.read_state]
    constructor
    · simp only [PciRead]
      rw [hbus, hecho.read_write, Nat.mod_mod]
    · intro x hx
      rw [hbus, hecho.frame _ _ _ _ _ hx, hecho.frame _ _ _ _ _ hx]

/-- Witness for C7: a word probe at 0x41 (aligned to 0x40) of a byte memory. -/
theorem C7_probe_round_trip_witness :
    EchoBus MemBus ∧ (0x40 ≤ 0x41 ∧ 0x41 < 0x100) ∧
    (PciRead MemBus (WidthOfMode DISP_WORD) 0 0 0 (AlignCursor 0x41 DISP_WORD)
        (ProbeWritableMaskAtCursor MemBus 0 0 0 DISP_WORD 0x41
          { bus := fun x => x % 7, trace := [] }).1).2.2 =
      (PciRead MemBus (WidthOfMode DISP_WORD) 0 0 0 (AlignCursor 0x41 DISP_WORD)
        { bus := fun x => x % 7, trace := [] }).2.2 :=
  ⟨MemBus_echo, by decide,
    (C7_probe_round_trip MemBus MemBus_echo 0 0 0 DISP_WORD 0x41
      { bus := fun x => x % 7, trace := [] } (by decide)).1⟩

/-! ## The enumeration -/

theorem take_take_append {α : Type} (n : Nat) (X Y : List α) :
    ((X.take n) ++ Y).take n = (X ++ Y).take n := by
  rw [List.take_append_eq_append_take, List.take_append_eq_append_take, List.take_take,
    List.length_take, Nat.min_self]
  congr 2
  omega

/-- A fold of scanning steps appends what the steps append, up to the cap. -/
theorem scan_foldl {σ : Type} (st0 : σ)
    (f : Fabric σ × List PCI_DEV_INFO → Nat → Fabric σ × List PCI_DEV_INFO)
    (g : Nat → List (Nat × Nat × Nat)) (l : List Nat)
    (hf : ∀ st x, x ∈ l → st.1.bus = st0 → st.2.length ≤ MAX_PCI_DEVS →
      ScanStepOk st0 st (f st x) (g x))
    (st : Fabric σ × List PCI_DEV_INFO) (hb : st.1.bus = st0)
    (hl : st.2.length ≤ MAX_PCI_DEVS) :
    ScanStepOk st0 st (l.foldl f st) (l.flatMap g) := by
  induction l generalizing st with
  | nil =>
    refine ⟨hb, hl, ?_⟩
    simp only [List.foldl_nil, List.flatMap_nil, List.append_nil]
    rw [List.take_of_length_le]
    simpa using hl
  | cons x xs ih =>
    obtain ⟨h1, h2, h3⟩ := hf st x (List.mem_cons_self _ _) hb hl
    obtain ⟨k1, k2, k3⟩ := ih (fun st y hy => hf st y (List.mem_cons_of_mem _ hy)) (f st x) h1 h2
    refine ⟨k1, k2, ?_⟩
    rw [List.foldl_cons, k3, h3, take_take_append, List.flatMap_cons, List.append_assoc]

/-- On a fabric whose reads change nothing, `ReadPciFuncInfo` leaves the state as it is and
finds the function exactly when it is present. -/
theorem ReadPciFuncInfo_pure {σ : Type} (rb : PCI_ROOT_BRIDGE σ)
    (hpure : ∀ st w addr, (rb.Read st w addr).1 = st) (B D F : Nat) (fab : Fabric σ) :
    (ReadPciFuncInfo rb B D F fab).1.bus = fab.bus ∧
    (FuncPresent rb fab.bus B D F = false → (ReadPciFuncInfo rb B D F fab).2 = none) ∧
    (FuncPresent rb fab.bus B D F = true →
      ∃ Info, (ReadPciFuncInfo rb B D F fab).2 = some Info ∧ Info.addr = (B, D, F)) := by
  unfold ReadPciFuncInfo FuncPresent
  simp only [PciRead16, PciRead8, PciRead, hpure, EFI_PCI_WIDTH.bits, Nat.reducePow]
  cases hE : EFI_ERROR (rb.Read fab.bus EfiPciWidthUint16 (PciCfgAddr B D F 0)).2.1 <;>
    by_cases hV : (rb.Read fab.bus EfiPciWidthUint16 (PciCfgAddr B D F 0)).2.2 % 65536 = 0xFFFF <;>
    simp [hV, PCI_DEV_INFO.addr]

theorem PushDev_ok {σ : Type} (st0 : σ) (st : Fabric σ × List PCI_DEV_INFO) (fab : Fabric σ)
    (Info : PCI_DEV_INFO) (hb : fab.bus = st0) (hl : st.2.length ≤ MAX_PCI_DEVS) :
    ScanStepOk st0 st (fab, PushDev st.2 Info) [Info.addr] := by
  unfold PushDev
  by_cases h : st.2.length < MAX_PCI_DEVS
  · rw [if_pos h]
    refine ⟨hb, ?_, ?_⟩
    · simp only [List.length_append, List.length_singleton]; omega
    · rw [List.take_of_length_le]
      · simp
      · simp only [List.length_append, List.length_map, List.length_singleton]; omega
  · rw [if_neg h]
    refine ⟨hb, hl, ?_⟩
    have : st.2.length = MAX_PCI_DEVS := by omega
    rw [List.take_append_eq_append_take, List.take_of_length_le (by simp [this])]
    simp [this]

theorem ScanStepOk_skip {σ : Type} (st0 : σ) (st : Fabric σ × List PCI_DEV_INFO)
    (fab : Fabric σ) (hb : fab.bus = st0) (hl : st.2.length ≤ MAX_PCI_DEVS) :
    ScanStepOk st0 st (fab, st.2) [] := by
  refine ⟨hb, hl, ?_⟩
  rw [List.append_nil, List.take_of_length_le]
  simpa using hl

/-- One function of the inner loop. -/
theorem ScanFunc_ok {σ : Type} (rb : PCI_ROOT_BRIDGE σ)
    (hpure : ∀ st w addr, (rb.Read st w addr).1 = st) (st0 : σ) (B D F : Nat)
    (st : Fabric σ × List PCI_DEV_INFO) (hb : st.1.bus = st0)
    (hl : st.2.length ≤ MAX_PCI_DEVS) :
    ScanStepOk st0 st (ScanFunc rb B D st F)
      (if FuncPresent rb st0 B D F = true then [(B, D, F)] else []) := by
  obtain ⟨h1, h2, h3⟩ := ReadPciFuncInfo_pure rb hpure B D F st.1
  rw [hb] at h1 h2 h3
  unfold ScanFunc
  dsimp only
  cases hp : FuncPresent rb st0 B D F
  · rw [h2 hp]
    simpa using ScanStepOk_skip st0 st _ h1 hl
  · obtain ⟨Info, hI, ha⟩ := h3 hp
    rw [hI]
    have := PushDev_ok st0 st (ReadPciFuncInfo rb B D F st.1).1 Info h1 hl
    rw [ha] at this
    simpa using this

theorem ScanStepOk_trans {σ : Type} (st0 : σ) (a b c : Fabric σ × List PCI_DEV_INFO)
    (X Y : List (Nat × Nat × Nat)) (h1 : ScanStepOk st0 a b X) (h2 : ScanStepOk st0 b c Y) :
    ScanStepOk st0 a c (X ++ Y) := by
  refine ⟨h2.1, h2.2.1, ?_⟩
  rw [h2.2.2, h1.2.2, take_take_append, List.append_assoc]

theorem filter_map_eq_flatMap {α β : Type} (h : α → β) (q : β → Bool) (p : α → Bool)
    (l : List α) (hq : ∀ x ∈ l, q (h x) = p x) :
    (l.map h).filter q = l.flatMap (fun x => if p x = true then [h x] else []) := by
  induction l with
  | nil => rfl
  | cons x xs ih =>
    rw [List.map_cons, List.filter_cons, List.flatMap_cons, hq x (List.mem_cons_self _ _),
      ih (fun y hy => hq y (List.mem_cons_of_mem _ hy))]
    split_ifs <;> rfl

/-- The listed functions of a device, case by case. -/
theorem SpecDevice_eq {σ : Type} (rb : PCI_ROOT_BRIDGE σ) (st0 : σ) (B D : Nat) :
    SpecDevice rb st0 B D =
      if FuncPresent rb st0 B D 0 = true then
        (B, D, 0) :: (if DevMulti rb st0 B D = true then
          (List.range' 1 7).flatMap
            (fun F => if FuncPresent rb st0 B D F = true then [(B, D, F)] else [])
          else [])
      else [] := by
  have hr : List.range 8 = 0 :: List.range' 1 7 := rfl
  unfold SpecDevice
  rw [hr, List.map_cons, List.filter_cons]
  cases hp : FuncPresent rb st0 B D 0
  · have h0 : SpecListed rb st0 (B, D, 0) = false := by simp [SpecListed, hp]
    rw [h0]
    simp only [Bool.false_eq_true, if_false]
    rw [List.filter_eq_nil_iff]
    intro a _
    simp [SpecListed, List.mem_map] at *
    rename_i ha
    obtain ⟨F, _, rfl⟩ := ha
    simp [hp]
  · have h0 : SpecListed rb st0 (B, D, 0) = true := by simp [SpecListed, hp]
    rw [h0]
    simp only [if_true]
    congr 1
    cases hm : DevMulti rb st0 B D
    · simp only [Bool.false_eq_true, if_false]
      rw [List.filter_eq_nil_iff]
      intro a ha
      rw [List.mem_map] at ha
      obtain ⟨F, hF, rfl⟩ := ha
      rw [List.mem_range'_1] at hF
      have : F ≠ 0 := by omega
      simp [SpecListed, hp, hm, this]
    · simp only [if_true]
      apply filter_map_eq_flatMap
      intro F hF
      rw [List.mem_range'_1] at hF
      have : F ≠ 0 := by omega
      simp [SpecListed, hp, hm, this]

/-- One device of the scan appends the listed functions of the device. -/
theorem ScanDev_ok {σ : Type} (rb : PCI_ROOT_BRIDGE σ)
    (hpure : ∀ st w addr, (rb.Read st w addr).1 = st) (st0 : σ) (B D : Nat)
    (st : Fabric σ × List PCI_DEV_INFO) (hb : st.1.bus = st0)
    (hl : st.2.length ≤ MAX_PCI_DEVS) :
    ScanStepOk st0 st (ScanDev rb B st D) (SpecDevice rb st0 B D) := by
  obtain ⟨h1, h2, h3⟩ := ReadPciFuncInfo_pure rb hpure B D 0 st.1
  rw [hb] at h1 h2 h3
  rw [SpecDevice_eq]
  unfold ScanDev
  dsimp only
  cases hp : FuncPresent rb st0 B D 0
  · rw [h2 hp]
    simpa using ScanStepOk_skip st0 st _ h1 hl
  · obtain ⟨Info, hI, ha⟩ := h3 hp
    rw [hI]
    dsimp only
    simp only [if_true]
    have hbus : (PciRead8 rb B D 0 0x0E (ReadPciFuncInfo rb B D 0 st.1).1).1.bus = st0 := by
      simp only [PciRead8, PciRead, hpure]; exact h1
    have hval : (PciRead8 rb B D 0 0x0E (ReadPciFuncInfo rb B D 0 st.1).1).2.2 =
        (rb.Read st0 EfiPciWidthUint8 (PciCfgAddr B D 0 0x0E)).2.2 % 2 ^ 8 := by
      simp only [PciRead8, PciRead, h1]; rfl
    have hpush := PushDev_ok st0 st
      (PciRead8 rb B D 0 0x0E (ReadPciFuncInfo rb B D 0 st.1).1).1 Info hbus hl
    rw [ha] at hpush
    by_cases hm : (PciRead8 rb B D 0 0x0E (ReadPciFuncInfo rb B D 0 st.1).1).2.2 &&& 0x80 = 0
    · rw [if_pos hm]
      have hmf : DevMulti rb st0 B D = false := by
        unfold DevMulti; rw [← hval, hm]; rfl
      rw [hmf]
      simpa using hpush
    · rw [if_neg hm]
      have hmt : DevMulti rb st0 B D = true := by
        unfold DevMulti; rw [← hval]; simpa using hm
      rw [hmt]
      simp only [if_true]
      have hfold := scan_foldl st0 (ScanFunc rb B D)
        (fun F => if FuncPresent rb st0 B D F = true then [(B, D, F)] else [])
        (List.range' 1 7)
        (fun st F _ hb hl => ScanFunc_ok rb hpure st0 B D F st hb hl)
        ((PciRead8 rb B D 0 0x0E (ReadPciFuncInfo rb B D 0 st.1).1).1, PushDev st.2 Info)
        hbus hpush.2.1
      exact ScanStepOk_trans st0 _ _ _ _ _ hpush hfold

/-- One bus of the scan appends the listed functions of its devices. -/
theorem ScanBus_ok {σ : Type} (rb : PCI_ROOT_BRIDGE σ)
    (hpure : ∀ st w addr, (rb.Read st w addr).1 = st) (st0 : σ) (B : Nat)
    (st : Fabric σ × List PCI_DEV_INFO) (hb : st.1.bus = st0)
    (hl : st.2.length ≤ MAX_PCI_DEVS) :
    ScanStepOk st0 st (ScanBus rb st B) ((List.range 32).flatMap (SpecDevice rb st0 B)) :=
  scan_foldl st0 (ScanDev rb B) (SpecDevice rb st0 B) (List.range 32)
    (fun st D _ hb hl => ScanDev_ok rb hpure st0 B D st hb hl) st hb hl

/-- The listed functions, device by device. -/
theorem filter_AllFunctions {σ : Type} (rb : PCI_ROOT_BRIDGE σ) (st0 : σ) :
    AllFunctions.filter (SpecListed rb st0) =
      (List.range 256).flatMap fun B => (List.range 32).flatMap (SpecDevice rb st0 B) := by
  unfold AllFunctions
  rw [List.filter_flatMap]
  congr 1
  funext B
  rw [List.filter_flatMap]
  rfl

/-- A scan whose allocation failed: nothing is read and nothing is recorded. -/
theorem ScanAllPci_null {σ : Type} (rb : PCI_ROOT_BRIDGE σ) (fab : Fabric σ) :
    ScanAllPci rb false fab = (fab, []) := rfl

/-- A scan whose allocation succeeded is the three loops. -/
theorem ScanAllPci_allocated {σ : Type} (rb : PCI_ROOT_BRIDGE σ) (fab : Fabric σ) :
    ScanAllPci rb true fab = (List.range 256).foldl (ScanBus rb) (fab, []) := rfl

/-- The scan whose allocation succeeded records the spec's enumeration. -/
theorem ScanAllPci_eq_spec {σ : Type} (rb : PCI_ROOT_BRIDGE σ)
    (hpure : ∀ st w addr, (rb.Read st w addr).1 = st) (fab : Fabric σ) :
    (ScanAllPci rb true fab).2.map PCI_DEV_INFO.addr = SpecEnumerate rb fab.bus ∧
      (ScanAllPci rb true fab).2.length ≤ MAX_PCI_DEVS := by
  have h := scan_foldl fab.bus (ScanBus rb)
    (fun B => (List.range 32).flatMap (SpecDevice rb fab.bus B)) (List.range 256)
    (fun st B _ hb hl => ScanBus_ok rb hpure fab.bus B st hb hl) (fab, []) rfl
    (Nat.zero_le _)
  obtain ⟨_, h2, h3⟩ := h
  rw [List.map_nil, List.nil_append] at h3
  rw [ScanAllPci_allocated]
  unfold SpecEnumerate
  rw [filter_AllFunctions]
  exact ⟨h3, h2⟩

/-- The configuration address as arithmetic. -/
theorem PciCfgAddr_eq (B D F R : Nat) (hD : D < 256) (hF : F < 256) :
    PciCfgAddr B D F R = R % 256 + 256 * F + 65536 * D + 16777216 * B := by
  unfold PciCfgAddr
  have e0 : R &&& 0xFF = R % 256 := by
    have := Nat.and_pow_two_sub_one_eq_mod R 8
    norm_num at this
    exact this
  have h0 : R % 256 < 2 ^ 8 := by norm_num; exact Nat.mod_lt _ (by norm_num)
  have e1 : (R % 256) ||| (F <<< 8) = 2 ^ 8 * F + R % 256 := by
    rw [Nat.shiftLeft_eq, Nat.or_comm, Nat.mul_comm, Nat.mul_add_lt_is_or h0]
  have h1 : 2 ^ 8 * F + R % 256 < 2 ^ 16 := by omega
  have e2 : (2 ^ 8 * F + R % 256) ||| (D <<< 16) = 2 ^ 16 * D + (2 ^ 8 * F + R % 256) := by
    rw [Nat.shiftLeft_eq, Nat.or_comm, Nat.mul_comm, Nat.mul_add_lt_is_or h1]
  have h2 : 2 ^ 16 * D + (2 ^ 8 * F + R % 256) < 2 ^ 24 := by omega
  have e3 : (2 ^ 16 * D + (2 ^ 8 * F + R % 256)) ||| (B <<< 24) =
      2 ^ 24 * B + (2 ^ 16 * D + (2 ^ 8 * F + R % 256)) := by
    rw [Nat.shiftLeft_eq, Nat.or_comm, Nat.mul_comm, Nat.mul_add_lt_is_or h2]
  rw [e0, e1, e2, e3]
  omega

/-- The whole address space is in ascending order. -/
theorem AllFunctions_pairwise : AllFunctions.Pairwise AddrLt := by
  unfold AllFunctions
  rw [List.pairwise_flatMap]
  constructor
  · intro B _
    rw [List.pairwise_flatMap]
    constructor
    · intro D _
      rw [List.pairwise_map]
      exact (List.pairwise_lt_range 8).imp
        (fun {a b} h => Or.inr ⟨rfl, Or.inr ⟨rfl, h⟩⟩)
    · refine (List.pairwise_lt_range 32).imp ?_
      intro D1 D2 h x hx y hy
      rw [List.mem_map] at hx hy
      obtain ⟨_, _, rfl⟩ := hx
      obtain ⟨_, _, rfl⟩ := hy
      exact Or.inr ⟨rfl, Or.inl h⟩
  · refine (List.pairwise_lt_range 256).imp ?_
    intro B1 B2 h x hx y hy
    rw [List.mem_flatMap] at hx hy
    obtain ⟨_, _, hx⟩ := hx
    obtain ⟨_, _, hy⟩ := hy
    rw [List.mem_map] at hx hy
    obtain ⟨_, _, rfl⟩ := hx
    obtain ⟨_, _, rfl⟩ := hy
    exact Or.inl h

theorem AddrLt_ne (a b : Nat × Nat × Nat) (h : AddrLt a b) : a ≠ b := by
  rintro rfl
  unfold AddrLt at h
  omega

/-- The spec's enumeration is strictly ascending. -/
theorem SpecEnumerate_pairwise {σ : Type} (rb : PCI_ROOT_BRIDGE σ) (st : σ) :
    (SpecEnumerate rb st).Pairwise AddrLt :=
  List.Pairwise.sublist ((List.take_sublist _ _).trans (List.filter_sublist _))
    AllFunctions_pairwise

/-- In the mock, a device other than (0,0) and (0,1) lists nothing. -/
theorem MockScanBus_absent (B D : Nat) (hD : D < 32) (h : ¬ (B = 0 ∧ D ≤ 1)) :
    SpecDevice MockScanBus () B D = [] := by
  rw [SpecDevice_eq]
  have hp : FuncPresent MockScanBus () B D 0 = false := by
    unfold FuncPresent MockScanBus
    have e := PciCfgAddr_eq B D 0 0 (by omega) (by omega)
    have e0 : PciCfgAddr 0 0 0 0x00 = 0 := by decide
    have e1 : PciCfgAddr 0 1 0 0x00 = 65536 := by decide
    have e2 : PciCfgAddr 0 1 3 0x00 = 66304 := by decide
    have e3 : PciCfgAddr 0 1 0 0x0E = 65550 := by decide
    have e4 : PciCfgAddr 0 0 0 0x0E = 14 := by decide
    simp only [e0, e1, e2, e3, e4, e]
    rw [if_neg (by omega), if_neg (by omega), if_neg (by omega)]
    decide
  rw [hp]
  rfl

/-- The enumeration of the mock. -/
theorem MockScanBus_enumerate :
    SpecEnumerate MockScanBus () = [(0, 0, 0), (0, 1, 0), (0, 1, 3)] := by
  have d0 : SpecDevice MockScanBus () 0 0 = [(0, 0, 0)] := by decide
  have d1 : SpecDevice MockScanBus () 0 1 = [(0, 1, 0), (0, 1, 3)] := by decide
  have r256 : List.range 256 = 0 :: List.range' 1 255 := by
    rw [List.range_eq_range']
    exact List.range'_succ 0 255 1
  have r32 : List.range 32 = 0 :: 1 :: List.range' 2 30 := by
    rw [List.range_eq_range']
    rfl
  have hdev : (List.range' 2 30).flatMap (SpecDevice MockScanBus () 0) = [] := by
    rw [List.flatMap_eq_nil_iff]
    intro D hD
    rw [List.mem_range'_1] at hD
    exact MockScanBus_absent 0 D (by omega) (by omega)
  have hbus : (List.range' 1 255).flatMap
      (fun B => (List.range 32).flatMap (SpecDevice MockScanBus () B)) = [] := by
    rw [List.flatMap_eq_nil_iff]
    intro B hB
    rw [List.mem_range'_1] at hB
    rw [List.flatMap_eq_nil_iff]
    intro D hD
    rw [List.mem_range] at hD
    exact MockScanBus_absent B D hD (by omega)
  unfold SpecEnumerate
  rw [filter_AllFunctions, r256, List.flatMap_cons, hbus, r32, List.flatMap_cons,
    List.flatMap_cons, hdev, d0, d1]
  decide

/-! ## C10 -/

/-- C10 as stated fails when the allocation of the result list fails: on the mock where
(0,0,0), (0,1,0) and (0,1,3) are the listed functions, `ScanAllPci` then returns no record
and issues no read, although the listing has three entries. -/
theorem C10_failed_allocation_returns_nothing :
    (ScanAllPci MockScanBus false { bus := (), trace := [] }).2.map PCI_DEV_INFO.addr = [] ∧
    (ScanAllPci MockScanBus false { bus := (), trace := [] }).2.length = 0 ∧
    (ScanAllPci MockScanBus false { bus := (), trace := [] }).1.trace = [] ∧
    (AllFunctions.filter (SpecListed MockScanBus ())).take 4096 =
      [(0, 0, 0), (0, 1, 0), (0, 1, 3)] ∧
    (ScanAllPci MockScanBus false { bus := (), trace := [] }).2.map PCI_DEV_INFO.addr ≠
      (AllFunctions.filter (SpecListed MockScanBus ())).take 4096 := by
  have h : (AllFunctions.filter (SpecListed MockScanBus ())).take 4096 =
      [(0, 0, 0), (0, 1, 0), (0, 1, 3)] := MockScanBus_enumerate
  refine ⟨rfl, rfl, rfl, h, ?_⟩
  rw [h]
  exact fun e => List.noConfusion e

/-- C10, amended: on a fabric whose reads change nothing, `ScanAllPci` (a fold over the finite
ranges, hence total), when the allocation of its list succeeded, records exactly the first
4096 entries of the ascending list of the functions whose device has function 0 present and
that are function 0 or, on a multi-function device, present themselves; when the allocation
failed it records nothing and issues no fabric call. In both cases the result is strictly
ascending, without duplicates and of length at most 4096. On the mock where only (0,0,0) and
(0,1,0) respond, (0,1) being multi-function with functions 0 and 3, with the allocation
succeeding it is exactly [(0,0,0), (0,1,0), (0,1,3)]. -/
theorem C10_scan_enumerates {σ : Type} (rb : PCI_ROOT_BRIDGE σ)
    (hpure : ∀ st w addr, (rb.Read st w addr).1 = st) (fab : Fabric σ) :
    (ScanAllPci rb true fab).2.map PCI_DEV_INFO.addr =
      (AllFunctions.filter (SpecListed rb fab.bus)).take 4096 ∧
    ScanAllPci rb false fab = (fab, []) ∧
    (∀ a : Bool, ((ScanAllPci rb a fab).2.map PCI_DEV_INFO.addr).Pairwise AddrLt ∧
      ((ScanAllPci rb a fab).2.map PCI_DEV_INFO.addr).Nodup ∧
      (ScanAllPci rb a fab).2.length ≤ 4096) ∧
    (ScanAllPci MockScanBus true { bus := (), trace := [] }).2.map PCI_DEV_INFO.addr =
      [(0, 0, 0), (0, 1, 0), (0, 1, 3)] := by
  obtain ⟨h1, h2⟩ := ScanAllPci_eq_spec rb hpure fab
  have hp := SpecEnumerate_pairwise rb fab.bus
  rw [← h1] at hp
  refine ⟨h1, rfl, ?_, ?_⟩
  · intro a
    cases a
    · rw [ScanAllPci_null]
      exact ⟨List.Pairwise.nil, List.nodup_nil, Nat.zero_le _⟩
    · exact ⟨hp, hp.imp (fun {a b} h => AddrLt_ne a b h), h2⟩
  · rw [(ScanAllPci_eq_spec MockScanBus (fun _ _ _ => rfl) { bus := (), trace := [] }).1]
    exact MockScanBus_enumerate

/-- Witness for C10: the mock fabric, whose reads change nothing, with the allocation
succeeding. -/
theorem C10_scan_enumerates_witness :
    (∀ (st : Unit) (w : EFI_PCI_WIDTH) (addr : Nat), (MockScanBus.Read st w addr).1 = st) ∧
    (ScanAllPci MockScanBus true { bus := (), trace := [] }).2.map PCI_DEV_INFO.addr =
      (AllFunctions.filter (SpecListed MockScanBus ())).take 4096 ∧
    (ScanAllPci MockScanBus true { bus := (), trace := [] }).2.map PCI_DEV_INFO.addr =
      [(0, 0, 0), (0, 1, 0), (0, 1, 3)] :=
  ⟨fun _ _ _ => rfl,
    (C10_scan_enumerates MockScanBus (fun _ _ _ => rfl) { bus := (), trace := [] }).1,
    (C10_scan_enumerates MockScanBus (fun _ _ _ => rfl) { bus := (), trace := [] }).2.2.2⟩

/-! ## The editing loop -/

/-- The snapshot issues reads only. -/
theorem ReadConfig256_trace {σ : Type} (rb : PCI_ROOT_BRIDGE σ) (B D F : Nat) (fab : Fabric σ) :
    ∃ ops, (ReadConfig256 rb B D F fab).1.trace = fab.trace ++ ops ∧
      ∀ op ∈ ops, op.isWrite = false := by
  unfold ReadConfig256
  generalize List.range 0x100 = l
  have key : ∀ (l : List Nat) (st : Fabric σ × List Nat),
      ∃ ops, (l.foldl (fun st off =>
          ((PciRead8 rb B D F off st.1).1, st.2 ++ [(PciRead8 rb B D F off st.1).2.2])) st).1.trace
          = st.1.trace ++ ops ∧ ∀ op ∈ ops, op.isWrite = false := by
    intro l
    induction l with
    | nil => intro st; exact ⟨[], by simp, by simp⟩
    | cons x xs ih =>
      intro st
      obtain ⟨ops, h1, h2⟩ := ih ((PciRead8 rb B D F x st.1).1,
        st.2 ++ [(PciRead8 rb B D F x st.1).2.2])
      refine ⟨BusOp.read EfiPciWidthUint8 (PciCfgAddr B D F x) :: ops, ?_, ?_⟩
      · rw [List.foldl_cons, h1]
        simp [PciRead8, PciRead_trace]
      · intro op hop
        rcases List.mem_cons.1 hop with h | h
        · rw [h]; rfl
        · exact h2 op h
  exact key l (fab, [])

/-- Every write of the transform goes to the cursor at the width of the mode. -/
theorem WriteTransform_trace {σ : Type} (rb : PCI_ROOT_BRIDGE σ) (B D F : Nat) (m : DISP_MODE)
    (c : Nat) (Pol : WRITE_POLICY) (Val : Nat) (fab : Fabric σ) :
    ∃ ops, (WriteTransform rb B D F m c Pol Val fab).1.trace = fab.trace ++ ops ∧
      ∀ op ∈ ops, op.isWrite = true →
        ∃ v, op = BusOp.write (WidthOfMode m) (PciCfgAddr B D F c) v := by
  unfold WriteTransform
  by_cases h4 : m = DISP_WORD ∧ c = 0x04
  · obtain ⟨rfl, rfl⟩ := h4
    simp only [and_self, if_true, PciWrite16, PciRead16]
    split_ifs
    · refine ⟨[_, _, _], by simp only [PciWrite_trace, PciRead_trace, List.append_assoc]; rfl, ?_⟩
      intro op hop hw
      simp only [List.mem_cons, List.mem_singleton, List.not_mem_nil, or_false] at hop
      rcases hop with h | h | h <;> subst h
      · exact absurd hw (by simp [BusOp.isWrite])
      · exact ⟨_, rfl⟩
      · exact absurd hw (by simp [BusOp.isWrite])
    · refine ⟨[_, _], by simp only [PciWrite_trace, PciRead_trace, List.append_assoc]; rfl, ?_⟩
      intro op hop hw
      simp only [List.mem_cons, List.mem_singleton, List.not_mem_nil, or_false] at hop
      rcases hop with h | h <;> subst h
      · exact absurd hw (by simp [BusOp.isWrite])
      · exact ⟨_, rfl⟩
  · rw [if_neg h4]
    by_cases h6 : Pol = WP_RW1C ∧ m = DISP_WORD ∧ c = 0x06
    · obtain ⟨rfl, rfl, rfl⟩ := h6
      simp only [and_self, if_true, PciWrite16, PciRead16]
      split_ifs
      · refine ⟨[_, _, _], by simp only [PciWrite_trace, PciRead_trace, List.append_assoc]; rfl, ?_⟩
        intro op hop hw
        simp only [List.mem_cons, List.mem_singleton, List.not_mem_nil, or_false] at hop
        rcases hop with h | h | h <;> subst h
        · exact absurd hw (by simp [BusOp.isWrite])
        · exact ⟨_, rfl⟩
        · exact absurd hw (by simp [BusOp.isWrite])
      · refine ⟨[_, _], by simp only [PciWrite_trace, PciRead_trace, List.append_assoc]; rfl, ?_⟩
        intro op hop hw
        simp only [List.mem_cons, List.mem_singleton, List.not_mem_nil, or_false] at hop
        rcases hop with h | h <;> subst h
        · exact absurd hw (by simp [BusOp.isWrite])
        · exact ⟨_, rfl⟩
    · have hd := WriteTransform_direct rb B D F m c Pol Val fab h4 h6
      unfold WriteTransform at hd
      rw [if_neg h4] at hd
      rw [hd]
      split_ifs
      · refine ⟨[_], PciWrite_trace _ _ _ _ _ _ _ _, ?_⟩
        intro op hop _
        rw [List.mem_singleton] at hop
        exact ⟨_, hop⟩
      · refine ⟨[_, _], by simp only [PciWrite_trace, PciRead_trace, List.append_assoc]; rfl, ?_⟩
        intro op hop hw
        simp only [List.mem_cons, List.mem_singleton, List.not_mem_nil, or_false] at hop
        rcases hop with h | h <;> subst h
        · exact ⟨_, rfl⟩
        · exact absurd hw (by simp [BusOp.isWrite])

/-- Every write issued by `DoWriteAtCursor` goes to the aligned cursor at the width of the
mode, and is issued only when the policy permits the write under the flag. -/
theorem DoWriteAtCursor_trace {σ : Type} (rb : PCI_ROOT_BRIDGE σ) (flag : Bool)
    (B D F : Nat) (m : DISP_MODE) (c : Nat) (keys : List EFI_INPUT_KEY) (fab : Fabric σ) :
    ∃ ops, (DoWriteAtCursor rb flag B D F m c keys fab).fab.trace = fab.trace ++ ops ∧
      ∀ op ∈ ops, op.isWrite = true →
        (∃ v, op = BusOp.write (WidthOfMode m) (PciCfgAddr B D F (AlignCursor c m)) v) ∧
        WritePermitted (GetWritePolicy B D F (AlignCursor c m) m) flag := by
  unfold DoWriteAtCursor
  dsimp only
  have hnil : ∀ ks : List EFI_INPUT_KEY, ∃ ops,
      (AckReturn EFI_ACCESS_DENIED ks fab).fab.trace = fab.trace ++ ops ∧
      ∀ op ∈ ops, op.isWrite = true →
        (∃ v, op = BusOp.write (WidthOfMode m) (PciCfgAddr B D F (AlignCursor c m)) v) ∧
        WritePermitted (GetWritePolicy B D F (AlignCursor c m) m) flag := by
    intro ks
    exact ⟨[], by rw [AckReturn_fab, List.append_nil], by simp⟩
  by_cases hro : GetWritePolicy B D F (AlignCursor c m) m = WP_BLOCK_RO
  · rw [if_pos hro]; exact hnil keys
  · rw [if_neg hro]
    by_cases hd : (GetWritePolicy B D F (AlignCursor c m) m = WP_DANGEROUS_BAR ∨
        GetWritePolicy B D F (AlignCursor c m) m = WP_DANGEROUS_CAP) ∧ flag = false
    · rw [if_pos hd]; exact hnil keys
    · rw [if_neg hd]
      cases hr : ReadFixedHex (HexDigits m) keys with
      | none => exact ⟨[], by simp, by simp⟩
      | some r =>
        obtain ⟨st, v, ks⟩ := r
        dsimp only
        by_cases he : EFI_ERROR st = true
        · rw [if_pos he]; exact ⟨[], by simp, by simp⟩
        · rw [if_neg he, AckReturn_fab]
          obtain ⟨ops, h1, h2⟩ := WriteTransform_trace rb B D F m (AlignCursor c m)
            (GetWritePolicy B D F (AlignCursor c m) m) v fab
          exact ⟨ops, h1, fun op hop hw => ⟨h2 op hop hw, hro, hd⟩⟩

/-- Every write issued by the common body of the probe goes to its offset at its width. -/
theorem ProbeAtWidth_trace {σ : Type} (rb : PCI_ROOT_BRIDGE σ) (w : EFI_PCI_WIDTH)
    (B D F c : Nat) (fab : Fabric σ) :
    ∃ ops, (ProbeAtWidth rb w B D F c fab).1.trace = fab.trace ++ ops ∧
      ∀ op ∈ ops, op.isWrite = true → ∃ v, op = BusOp.write w (PciCfgAddr B D F c) v := by
  unfold ProbeAtWidth
  dsimp only
  split_ifs
  · refine ⟨[_], PciRead_trace _ _ _ _ _ _ _, ?_⟩
    intro op hop hw
    rw [List.mem_singleton] at hop
    subst hop
    exact absurd hw (by simp [BusOp.isWrite])
  · refine ⟨[_, _], by simp only [PciWrite_trace, PciRead_trace, List.append_assoc]; rfl, ?_⟩
    intro op hop hw
    simp only [List.mem_cons, List.mem_singleton, List.not_mem_nil, or_false] at hop
    rcases hop with h | h <;> subst h
    · exact absurd hw (by simp [BusOp.isWrite])
    · exact ⟨_, rfl⟩
  · refine ⟨[_, _, _, _],
      by simp only [PciWrite_trace, PciRead_trace, List.append_assoc]; rfl, ?_⟩
    intro op hop hw
    simp only [List.mem_cons, List.mem_singleton, List.not_mem_nil, or_false] at hop
    rcases hop with h | h | h | h <;> subst h
    · exact absurd hw (by simp [BusOp.isWrite])
    · exact ⟨_, rfl⟩
    · exact absurd hw (by simp [BusOp.isWrite])
    · exact ⟨_, rfl⟩
  · refine ⟨[_, _, _, _],
      by simp only [PciWrite_trace, PciRead_trace, List.append_assoc]; rfl, ?_⟩
    intro op hop hw
    simp only [List.mem_cons, List.mem_singleton, List.not_mem_nil, or_false] at hop
    rcases hop with h | h | h | h <;> subst h
    · exact absurd hw (by simp [BusOp.isWrite])
    · exact ⟨_, rfl⟩
    · exact absurd hw (by simp [BusOp.isWrite])
    · exact ⟨_, rfl⟩

theorem MoveCursor_lt (m : DISP_MODE) (c sc : Nat) (hc : c < 65536) :
    MoveCursor m c sc < 65536 := by
  unfold MoveCursor
  dsimp only
  apply AlignCursor_lt
  split_ifs <;> omega

/-- An iteration of the loop keeps the cursor a 16-bit value. -/
theorem ConfigViewStep_cursor_lt {σ : Type} (rb : PCI_ROOT_BRIDGE σ) (B D F : Nat)
    (s : ViewState σ) (hc : s.Cursor < 65536) :
    (ConfigViewStep rb B D F s).2.Cursor < 65536 := by
  unfold ConfigViewStep
  cases hk : s.keys with
  | nil => simpa [WaitKey] using hc
  | cons k ks =>
    simp only [WaitKey]
    split_ifs
    · exact hc
    · exact hc
    · cases ks <;> exact hc
    · cases ks <;> exact hc
    · exact AlignCursor_lt _ _ hc
    · cases (DoWriteAtCursor rb s.gDangerousUnlocked B D F s.Mode s.Cursor ks s.fab).Status <;>
        exact hc
    · exact MoveCursor_lt _ _ _ hc

/-- Every state the loop reaches has a 16-bit cursor. -/
theorem ConfigViewRun_cursor_lt {σ : Type} (rb : PCI_ROOT_BRIDGE σ) (B D F : Nat) (n : Nat)
    (s0 s : ViewState σ) (h0 : s0.Cursor < 65536)
    (hrun : ConfigViewRun rb B D F n s0 = (LoopCtl.running, s)) : s.Cursor < 65536 := by
  induction n generalizing s0 with
  | zero =>
    unfold ConfigViewRun at hrun
    rw [Prod.mk.injEq] at hrun
    rw [← hrun.2]; exact h0
  | succ n ih =>
    unfold ConfigViewRun at hrun
    have hstep := ConfigViewStep_cursor_lt rb B D F s0 h0
    rcases hs : ConfigViewStep rb B D F s0 with ⟨ctl, s1⟩
    rw [hs] at hrun hstep
    cases ctl
    · exact ih s1 hstep hrun
    · simp at hrun
    · simp at hrun

/-- The fabric after one iteration of the loop that found the key `k`. -/
theorem ConfigViewStep_fab {σ : Type} (rb : PCI_ROOT_BRIDGE σ) (B D F : Nat)
    (s : ViewState σ) (k : EFI_INPUT_KEY) (ks : List EFI_INPUT_KEY) (hk : s.keys = k :: ks) :
    (ConfigViewStep rb B D F s).2.fab =
      if IsEsc k = true then s.fab
      else if k.ScanCode = SCAN_F9 then s.fab
      else if k.UnicodeChar = 0x70 ∨ k.UnicodeChar = 0x50 then
        (if IsProbeSafe (AlignCursor s.Cursor s.Mode) s.Mode = true then
          (ProbeWritableMaskAtCursor rb B D F s.Mode (AlignCursor s.Cursor s.Mode) s.fab).1
         else s.fab)
      else if IsTab k = true then s.fab
      else if IsEnter k = true then
        (match (DoWriteAtCursor rb s.gDangerousUnlocked B D F s.Mode s.Cursor ks s.fab).Status with
         | none => (DoWriteAtCursor rb s.gDangerousUnlocked B D F s.Mode s.Cursor ks s.fab).fab
         | some _ => (ReadConfig256 rb B D F
            (DoWriteAtCursor rb s.gDangerousUnlocked B D F s.Mode s.Cursor ks s.fab).fab).1)
      else s.fab := by
  unfold ConfigViewStep
  rw [hk]
  simp only [WaitKey]
  by_cases h1 : IsEsc k = true
  · rw [if_pos h1, if_pos h1]
  rw [if_neg h1, if_neg h1]
  by_cases h2 : k.ScanCode = SCAN_F9
  · rw [if_pos h2, if_pos h2]
  rw [if_neg h2, if_neg h2]
  by_cases h3 : k.UnicodeChar = 0x70 ∨ k.UnicodeChar = 0x50
  · rw [if_pos h3, if_pos h3]
    cases hsafe : IsProbeSafe (AlignCursor s.Cursor s.Mode) s.Mode <;> cases ks <;> rfl
  rw [if_neg h3, if_neg h3]
  by_cases h4 : IsTab k = true
  · rw [if_pos h4, if_pos h4]
  rw [if_neg h4, if_neg h4]
  by_cases h5 : IsEnter k = true
  · rw [if_pos h5, if_pos h5]
    cases (DoWriteAtCursor rb s.gDangerousUnlocked B D F s.Mode s.Cursor ks s.fab).Status <;> rfl
  rw [if_neg h5, if_neg h5]

/-- The writes of one iteration of the loop: each is issued by the write engine, under a policy
that permits it, or by the probe, inside the probe window. -/
theorem ConfigViewStep_writes {σ : Type} (rb : PCI_ROOT_BRIDGE σ) (B D F : Nat)
    (s : ViewState σ) (hc : s.Cursor < 65536) :
    ∃ ops, (ConfigViewStep rb B D F s).2.fab.trace = s.fab.trace ++ ops ∧
      ∀ op ∈ ops, op.isWrite = true →
        ∃ k ks v, s.keys = k :: ks ∧
          op = BusOp.write (WidthOfMode s.Mode)
            (PciCfgAddr B D F (AlignCursor s.Cursor s.Mode)) v ∧
          ((IsEnter k = true ∧
              WritePermitted (GetWritePolicy B D F s.Cursor s.Mode) s.gDangerousUnlocked) ∨
            ((k.UnicodeChar = 0x70 ∨ k.UnicodeChar = 0x50) ∧
              IsProbeSafe (AlignCursor s.Cursor s.Mode) s.Mode = true)) := by
  have hnone : ∀ fab : Fabric σ, fab = s.fab → ∃ ops : List BusOp,
      fab.trace = s.fab.trace ++ ops ∧
      ∀ op ∈ ops, op.isWrite = true →
        ∃ k ks v, s.keys = k :: ks ∧
          op = BusOp.write (WidthOfMode s.Mode)
            (PciCfgAddr B D F (AlignCursor s.Cursor s.Mode)) v ∧
          ((IsEnter k = true ∧
              WritePermitted (GetWritePolicy B D F s.Cursor s.Mode) s.gDangerousUnlocked) ∨
            ((k.UnicodeChar = 0x70 ∨ k.UnicodeChar = 0x50) ∧
              IsProbeSafe (AlignCursor s.Cursor s.Mode) s.Mode = true)) :=
    fun fab h => ⟨[], by rw [h, List.append_nil], by simp⟩
  have hkeys : s.keys = [] ∨ ∃ k ks, s.keys = k :: ks := by
    cases s.keys
    · exact Or.inl rfl
    · exact Or.inr ⟨_, _, rfl⟩
  rcases hkeys with hk | ⟨k, ks, hk⟩
  · apply hnone
    unfold ConfigViewStep
    rw [hk]
    rfl
  have hfab := ConfigViewStep_fab rb B D F s k ks hk
  by_cases h1 : IsEsc k = true
  · rw [if_pos h1] at hfab; exact hnone _ hfab
  rw [if_neg h1] at hfab
  by_cases h2 : k.ScanCode = SCAN_F9
  · rw [if_pos h2] at hfab; exact hnone _ hfab
  rw [if_neg h2] at hfab
  by_cases h3 : k.UnicodeChar = 0x70 ∨ k.UnicodeChar = 0x50
  · rw [if_pos h3] at hfab
    by_cases hsafe : IsProbeSafe (AlignCursor s.Cursor s.Mode) s.Mode = true
    · rw [if_pos hsafe] at hfab
      have hal := AlignCursor_idem s.Cursor s.Mode hc
      have hsafe2 : IsProbeSafe (AlignCursor (AlignCursor s.Cursor s.Mode) s.Mode) s.Mode
          = true := by rw [hal]; exact hsafe
      obtain ⟨ops, ht, hw⟩ := ProbeAtWidth_trace rb (WidthOfMode s.Mode) B D F
        (AlignCursor s.Cursor s.Mode) s.fab
      rw [Probe_eq_ProbeAtWidth rb B D F s.Mode _ s.fab hsafe2, hal] at hfab
      refine ⟨ops, by rw [hfab, ht], ?_⟩
      intro op hop hwr
      obtain ⟨v, hv⟩ := hw op hop hwr
      exact ⟨k, ks, v, hk, hv, Or.inr ⟨h3, hsafe⟩⟩
    · rw [if_neg hsafe] at hfab; exact hnone _ hfab
  rw [if_neg h3] at hfab
  by_cases h4 : IsTab k = true
  · rw [if_pos h4] at hfab; exact hnone _ hfab
  rw [if_neg h4] at hfab
  by_cases h5 : IsEnter k = true
  · rw [if_pos h5] at hfab
    obtain ⟨ops, ht, hw⟩ := DoWriteAtCursor_trace rb s.gDangerousUnlocked B D F s.Mode
      s.Cursor ks s.fab
    rw [GetWritePolicy_align B D F s.Cursor s.Mode hc] at hw
    have hwr : ∀ op ∈ ops, op.isWrite = true →
        ∃ k1 ks1 v, s.keys = k1 :: ks1 ∧
          op = BusOp.write (WidthOfMode s.Mode)
            (PciCfgAddr B D F (AlignCursor s.Cursor s.Mode)) v ∧
          ((IsEnter k1 = true ∧
              WritePermitted (GetWritePolicy B D F s.Cursor s.Mode)
                s.gDangerousUnlocked) ∨
            ((k1.UnicodeChar = 0x70 ∨ k1.UnicodeChar = 0x50) ∧
              IsProbeSafe (AlignCursor s.Cursor s.Mode) s.Mode = true)) := by
      intro op hop hwrite
      obtain ⟨⟨v, hv⟩, hperm⟩ := hw op hop hwrite
      exact ⟨k, ks, v, hk, hv, Or.inl ⟨h5, hperm⟩⟩
    cases hst : (DoWriteAtCursor rb s.gDangerousUnlocked B D F s.Mode s.Cursor ks
        s.fab).Status with
    | none =>
      rw [hst] at hfab
      exact ⟨ops, by rw [hfab, ht], hwr⟩
    | some st =>
      rw [hst] at hfab
      obtain ⟨rops, hr1, hr2⟩ := ReadConfig256_trace rb B D F
        (DoWriteAtCursor rb s.gDangerousUnlocked B D F s.Mode s.Cursor ks s.fab).fab
      refine ⟨ops ++ rops, by rw [hfab, hr1, ht, List.append_assoc], ?_⟩
      intro op hop hwrite
      rcases List.mem_append.1 hop with h | h
      · exact hwr op h hwrite
      · rw [hr2 op h] at hwrite
        exact absurd hwrite (by decide)
  rw [if_neg h5] at hfab
  exact hnone _ hfab

/-! ## C5 -/

set_option maxRecDepth 100000 in
/-- C5 as stated fails: from the start of the loop with the flag locked, going down to 0x40 and
pressing `p` makes the loop write 0xFFFFFFFF and then 0 at (0x40, Dword), which the policy
classifies `WP_DANGEROUS_CAP`, and the flag is locked throughout (no F9 among the keys). -/
theorem C5_probe_writes_while_locked :
    (ConfigViewLoop MemBus 0 0 0 false
        [KeyScan SCAN_DOWN, KeyScan SCAN_DOWN, KeyScan SCAN_DOWN, KeyScan SCAN_DOWN,
          KeyChar 0x70, KeyChar 0x20, KeyScan SCAN_ESC]
        { bus := fun _ => 0, trace := [] }).1 = LoopCtl.returned ∧
    (ConfigViewLoop MemBus 0 0 0 false
        [KeyScan SCAN_DOWN, KeyScan SCAN_DOWN, KeyScan SCAN_DOWN, KeyScan SCAN_DOWN,
          KeyChar 0x70, KeyChar 0x20, KeyScan SCAN_ESC]
        { bus := fun _ => 0, trace := [] }).2.gDangerousUnlocked = false ∧
    (ConfigViewLoop MemBus 0 0 0 false
        [KeyScan SCAN_DOWN, KeyScan SCAN_DOWN, KeyScan SCAN_DOWN, KeyScan SCAN_DOWN,
          KeyChar 0x70, KeyChar 0x20, KeyScan SCAN_ESC]
        { bus := fun _ => 0, trace := [] }).2.fab.trace.drop 256 =
      [BusOp.read EfiPciWidthUint32 (PciCfgAddr 0 0 0 0x40),
       BusOp.write EfiPciWidthUint32 (PciCfgAddr 0 0 0 0x40) 0xFFFFFFFF,
       BusOp.read EfiPciWidthUint32 (PciCfgAddr 0 0 0 0x40),
       BusOp.write EfiPciWidthUint32 (PciCfgAddr 0 0 0 0x40) 0] ∧
    GetWritePolicy 0 0 0 0x40 DISP_DWORD = WP_DANGEROUS_CAP ∧
    ¬ WritePermitted (GetWritePolicy 0 0 0 0x40 DISP_DWORD) false := by
  refine ⟨by decide, by decide, by decide, by decide, ?_⟩
  intro h
  exact h.2 ⟨Or.inr (by decide), rfl⟩

/-- C5, amended: in every state the editing loop reaches, each fabric write of the next
iteration goes to the aligned cursor at the width of the mode and is issued either by
`DoWriteAtCursor` (the key is Enter), and then `GetWritePolicy` permits the write under the
flag of that state, or by the probe sub-flow (the key is `p` or `P`), and then the aligned
cursor lies in the probe window 0x40..0xFF, the write policy and the flag not being consulted. -/
theorem C5_loop_writes_gated {σ : Type} (rb : PCI_ROOT_BRIDGE σ) (B D F : Nat)
    (flag0 : Bool) (keys0 : List EFI_INPUT_KEY) (fab0 : Fabric σ) (n : Nat) (s : ViewState σ)
    (hreach : ConfigViewRun rb B D F n (ConfigViewInit rb B D F flag0 keys0 fab0) =
      (LoopCtl.running, s)) :
    ∃ ops, (ConfigViewStep rb B D F s).2.fab.trace = s.fab.trace ++ ops ∧
      ∀ op ∈ ops, op.isWrite = true →
        ∃ k ks v, s.keys = k :: ks ∧
          op = BusOp.write (WidthOfMode s.Mode)
            (PciCfgAddr B D F (AlignCursor s.Cursor s.Mode)) v ∧
          ((IsEnter k = true ∧
              WritePermitted (GetWritePolicy B D F s.Cursor s.Mode) s.gDangerousUnlocked) ∨
            ((k.UnicodeChar = 0x70 ∨ k.UnicodeChar = 0x50) ∧
              IsProbeSafe (AlignCursor s.Cursor s.Mode) s.Mode = true)) :=
  ConfigViewStep_writes rb B D F s
    (ConfigViewRun_cursor_lt rb B D F n _ s (by simp [ConfigViewInit]) hreach)

set_option maxRecDepth 100000 in
/-- Witness for C5: from the start of the loop, locked, the keys F9 and Down lead in two
iterations to the state with the flag unlocked and the cursor at 0x10 in dword mode; the next
iteration takes Enter and the value 12345678 and issues the write at (0x10, Dword), which the
policy classifies `WP_DANGEROUS_BAR` and permits under the flag of that state only. -/
theorem C5_loop_writes_gated_witness :
    ConfigViewRun MemBus 0 0 0 2
        (ConfigViewInit MemBus 0 0 0 false
          (KeyScan SCAN_F9 :: KeyScan SCAN_DOWN :: ViewAtBar0Unlocked.keys)
          { bus := fun _ => 0, trace := [] }) =
      (LoopCtl.running, ViewAtBar0Unlocked) ∧
    ((ConfigViewStep MemBus 0 0 0 ViewAtBar0Unlocked).2.fab.trace.drop 256).take 2 =
      [BusOp.write EfiPciWidthUint32 (PciCfgAddr 0 0 0 0x10) 0x12345678,
        BusOp.read EfiPciWidthUint32 (PciCfgAddr 0 0 0 0x10)] ∧
    GetWritePolicy 0 0 0 0x10 DISP_DWORD = WP_DANGEROUS_BAR ∧
    WritePermitted (GetWritePolicy 0 0 0 0x10 DISP_DWORD) true ∧
    ¬ WritePermitted (GetWritePolicy 0 0 0 0x10 DISP_DWORD) false ∧
    ∃ ops, (ConfigViewStep MemBus 0 0 0 ViewAtBar0Unlocked).2.fab.trace =
        ViewAtBar0Unlocked.fab.trace ++ ops ∧
      ∀ op ∈ ops, op.isWrite = true →
        ∃ k ks v, ViewAtBar0Unlocked.keys = k :: ks ∧
          op = BusOp.write (WidthOfMode ViewAtBar0Unlocked.Mode)
            (PciCfgAddr 0 0 0
              (AlignCursor ViewAtBar0Unlocked.Cursor ViewAtBar0Unlocked.Mode)) v ∧
          ((IsEnter k = true ∧
              WritePermitted
                (GetWritePolicy 0 0 0 ViewAtBar0Unlocked.Cursor ViewAtBar0Unlocked.Mode)
                ViewAtBar0Unlocked.gDangerousUnlocked) ∨
            ((k.UnicodeChar = 0x70 ∨ k.UnicodeChar = 0x50) ∧
              IsProbeSafe (AlignCursor ViewAtBar0Unlocked.Cursor ViewAtBar0Unlocked.Mode)
                ViewAtBar0Unlocked.Mode = true)) :=
  ⟨rfl, by decide, by decide, by decide, by decide,
    C5_loop_writes_gated MemBus 0 0 0 false
      (KeyScan SCAN_F9 :: KeyScan SCAN_DOWN :: ViewAtBar0Unlocked.keys)
      { bus := fun _ => 0, trace := [] } 2 ViewAtBar0Unlocked rfl⟩

/-! ## The reads of the enumeration -/

/-- The calls of `ReadPciFuncInfo`, on any fabric: the vendor-id read alone when the function is
not found, the five reads otherwise. -/
theorem ReadPciFuncInfo_trace {σ : Type} (rb : PCI_ROOT_BRIDGE σ) (B D F : Nat)
    (fab : Fabric σ) :
    ((ReadPciFuncInfo rb B D F fab).2 = none ∧
      (EFI_ERROR (PciRead16 rb B D F 0x00 fab).2.1 = true ∨
        (PciRead16 rb B D F 0x00 fab).2.2 = 0xFFFF) ∧
      (ReadPciFuncInfo rb B D F fab).1.trace = fab.trace ++ [VendorRead B D F]) ∨
    ((∃ Info, (ReadPciFuncInfo rb B D F fab).2 = some Info) ∧
      (EFI_ERROR (PciRead16 rb B D F 0x00 fab).2.1 = false ∧
        (PciRead16 rb B D F 0x00 fab).2.2 ≠ 0xFFFF) ∧
      (ReadPciFuncInfo rb B D F fab).1.trace = fab.trace ++ FuncInfoReads B D F) := by
  unfold ReadPciFuncInfo
  dsimp only
  by_cases hc : (EFI_ERROR (PciRead16 rb B D F 0x00 fab).2.1 ||
      (PciRead16 rb B D F 0x00 fab).2.2 == 0xFFFF) = true
  · rw [if_pos hc]
    left
    refine ⟨rfl, ?_, rfl⟩
    simpa using hc
  · rw [if_neg hc]
    right
    refine ⟨⟨_, rfl⟩, ?_, ?_⟩
    · simpa using hc
    · simp only [PciRead16, PciRead8, PciRead_trace, List.append_assoc]
      rfl

theorem ScanFunc_fab {σ : Type} (rb : PCI_ROOT_BRIDGE σ) (B D F : Nat)
    (st : Fabric σ × List PCI_DEV_INFO) :
    (ScanFunc rb B D st F).1 = (ReadPciFuncInfo rb B D F st.1).1 := by
  unfold ScanFunc
  dsimp only
  cases (ReadPciFuncInfo rb B D F st.1).2 <;> rfl

/-- The loop over functions 1..7 reads from those functions only, on any fabric. -/
theorem ScanFunc_foldl_trace {σ : Type} (rb : PCI_ROOT_BRIDGE σ) (B D : Nat) (l : List Nat)
    (hl : ∀ F ∈ l, 1 ≤ F ∧ F ≤ 7) (st : Fabric σ × List PCI_DEV_INFO) :
    ∃ rest, (l.foldl (ScanFunc rb B D) st).1.trace = st.1.trace ++ rest ∧
      ∀ op ∈ rest, ∃ F R w, 1 ≤ F ∧ F ≤ 7 ∧ op = BusOp.read w (PciCfgAddr B D F R) := by
  induction l generalizing st with
  | nil => exact ⟨[], by simp, by simp⟩
  | cons F Fs ih =>
    obtain ⟨rest, h1, h2⟩ := ih (fun G hG => hl G (List.mem_cons_of_mem _ hG))
      (ScanFunc rb B D st F)
    have hF := hl F (List.mem_cons_self _ _)
    rw [List.foldl_cons, h1, ScanFunc_fab]
    rcases ReadPciFuncInfo_trace rb B D F st.1 with ⟨_, _, ht⟩ | ⟨_, _, ht⟩
    · refine ⟨VendorRead B D F :: rest, by rw [ht]; simp, ?_⟩
      intro op hop
      rcases List.mem_cons.1 hop with h | h
      · exact ⟨F, 0, _, hF.1, hF.2, h⟩
      · exact h2 op h
    · refine ⟨FuncInfoReads B D F ++ rest, by rw [ht]; simp, ?_⟩
      intro op hop
      rcases List.mem_append.1 hop with h | h
      · simp only [FuncInfoReads, VendorRead, List.mem_cons, List.mem_singleton,
          List.not_mem_nil, or_false] at h
        rcases h with h | h | h | h | h <;> exact ⟨F, _, _, hF.1, hF.2, h⟩
      · exact h2 op h

/-- The calls of one iteration of the device loop, on any fabric in any state: the vendor-id
read of function 0 comes first; it is the only call when function 0 is not found; when it is
found and the high bit of its header type is clear, only function 0 is read; functions 1..7
are read only when it is found and the bit is set, and after function 0. -/
theorem ScanDev_trace {σ : Type} (rb : PCI_ROOT_BRIDGE σ) (B D : Nat)
    (st : Fabric σ × List PCI_DEV_INFO) :
    ((EFI_ERROR (PciRead16 rb B D 0 0x00 st.1).2.1 = true ∨
        (PciRead16 rb B D 0 0x00 st.1).2.2 = 0xFFFF) ∧
      (ScanDev rb B st D).1.trace = st.1.trace ++ [VendorRead B D 0]) ∨
    ((EFI_ERROR (PciRead16 rb B D 0 0x00 st.1).2.1 = false ∧
        (PciRead16 rb B D 0 0x00 st.1).2.2 ≠ 0xFFFF) ∧
      (PciRead8 rb B D 0 0x0E (ReadPciFuncInfo rb B D 0 st.1).1).2.2 &&& 0x80 = 0 ∧
      (ScanDev rb B st D).1.trace =
        st.1.trace ++ (FuncInfoReads B D 0 ++ [HeaderRead B D])) ∨
    ((EFI_ERROR (PciRead16 rb B D 0 0x00 st.1).2.1 = false ∧
        (PciRead16 rb B D 0 0x00 st.1).2.2 ≠ 0xFFFF) ∧
      (PciRead8 rb B D 0 0x0E (ReadPciFuncInfo rb B D 0 st.1).1).2.2 &&& 0x80 ≠ 0 ∧
      ∃ rest, (ScanDev rb B st D).1.trace =
          st.1.trace ++ (FuncInfoReads B D 0 ++ HeaderRead B D :: rest) ∧
        ∀ op ∈ rest, ∃ F R w, 1 ≤ F ∧ F ≤ 7 ∧ op = BusOp.read w (PciCfgAddr B D F R)) := by
  unfold ScanDev
  dsimp only
  rcases ReadPciFuncInfo_trace rb B D 0 st.1 with ⟨hn, hv, ht⟩ | ⟨⟨Info, hI⟩, hv, ht⟩
  · left
    rw [hn]
    exact ⟨hv, ht⟩
  · right
    rw [hI]
    dsimp only
    by_cases hm : (PciRead8 rb B D 0 0x0E (ReadPciFuncInfo rb B D 0 st.1).1).2.2 &&& 0x80 = 0
    · left
      rw [if_pos hm]
      refine ⟨hv, hm, ?_⟩
      simp only [PciRead8, PciRead_trace, ht, List.append_assoc]
      rfl
    · right
      rw [if_neg hm]
      obtain ⟨rest, h1, h2⟩ := ScanFunc_foldl_trace rb B D (List.range' 1 7)
        (fun F hF => by rw [List.mem_range'_1] at hF; omega)
        ((PciRead8 rb B D 0 0x0E (ReadPciFuncInfo rb B D 0 st.1).1).1, PushDev st.2 Info)
      refine ⟨hv, hm, rest, ?_, h2⟩
      rw [h1]
      simp only [PciRead8, PciRead_trace, ht, List.append_assoc]
      rfl

/-- A fold of steps that keep the state and append calls appends them all. -/
theorem trace_foldl {σ : Type} (st0 : σ)
    (f : Fabric σ × List PCI_DEV_INFO → Nat → Fabric σ × List PCI_DEV_INFO)
    (g : Nat → List BusOp) (l : List Nat)
    (hf : ∀ st x, x ∈ l → st.1.bus = st0 →
      (f st x).1.bus = st0 ∧ (f st x).1.trace = st.1.trace ++ g x)
    (st : Fabric σ × List PCI_DEV_INFO) (hb : st.1.bus = st0) :
    (l.foldl f st).1.bus = st0 ∧ (l.foldl f st).1.trace = st.1.trace ++ l.flatMap g := by
  induction l generalizing st with
  | nil => exact ⟨hb, by simp⟩
  | cons x xs ih =>
    obtain ⟨h1, h2⟩ := hf st x (List.mem_cons_self _ _) hb
    obtain ⟨k1, k2⟩ := ih (fun st y hy => hf st y (List.mem_cons_of_mem _ hy)) (f st x) h1
    refine ⟨k1, ?_⟩
    rw [List.foldl_cons, k2, h2, List.flatMap_cons, List.append_assoc]

/-- One function probe on a fabric whose reads change nothing. -/
theorem ScanFunc_trace_pure {σ : Type} (rb : PCI_ROOT_BRIDGE σ)
    (hpure : ∀ st w addr, (rb.Read st w addr).1 = st) (st0 : σ) (B D F : Nat)
    (st : Fabric σ × List PCI_DEV_INFO) (hb : st.1.bus = st0) :
    (ScanFunc rb B D st F).1.bus = st0 ∧
      (ScanFunc rb B D st F).1.trace = st.1.trace ++ SpecFuncTrace rb st0 B D F := by
  obtain ⟨h1, h2, h3⟩ := ReadPciFuncInfo_pure rb hpure B D F st.1
  rw [hb] at h1 h2 h3
  rw [ScanFunc_fab]
  refine ⟨h1, ?_⟩
  unfold SpecFuncTrace
  cases hp : FuncPresent rb st0 B D F
  · have hn := h2 hp
    rcases ReadPciFuncInfo_trace rb B D F st.1 with ⟨_, _, ht⟩ | ⟨⟨Info, hI⟩, _, _⟩
    · simpa using ht
    · rw [hn] at hI; exact absurd hI (by simp)
  · obtain ⟨Info, hI, _⟩ := h3 hp
    rcases ReadPciFuncInfo_trace rb B D F st.1 with ⟨hn, _, _⟩ | ⟨_, _, ht⟩
    · rw [hI] at hn; exact absurd hn (by simp)
    · simpa using ht

/-- One device on a fabric whose reads change nothing: the calls are those the spec prescribes. -/
theorem ScanDev_trace_pure {σ : Type} (rb : PCI_ROOT_BRIDGE σ)
    (hpure : ∀ st w addr, (rb.Read st w addr).1 = st) (st0 : σ) (B D : Nat)
    (st : Fabric σ × List PCI_DEV_INFO) (hb : st.1.bus = st0) :
    (ScanDev rb B st D).1.bus = st0 ∧
      (ScanDev rb B st D).1.trace = st.1.trace ++ SpecDevTrace rb st0 B D := by
  obtain ⟨h1, h2, h3⟩ := ReadPciFuncInfo_pure rb hpure B D 0 st.1
  rw [hb] at h1 h2 h3
  unfold ScanDev SpecDevTrace
  dsimp only
  cases hp : FuncPresent rb st0 B D 0
  · have hn := h2 hp
    rw [hn]
    refine ⟨h1, ?_⟩
    rcases ReadPciFuncInfo_trace rb B D 0 st.1 with ⟨_, _, ht⟩ | ⟨⟨Info, hI⟩, _, _⟩
    · simpa using ht
    · rw [hn] at hI; exact absurd hI (by simp)
  · obtain ⟨Info, hI, _⟩ := h3 hp
    have ht : (ReadPciFuncInfo rb B D 0 st.1).1.trace = st.1.trace ++ FuncInfoReads B D 0 := by
      rcases ReadPciFuncInfo_trace rb B D 0 st.1 with ⟨hn, _, _⟩ | ⟨_, _, ht⟩
      · rw [hI] at hn; exact absurd hn (by simp)
      · exact ht
    rw [hI]
    dsimp only
    simp only [if_true]
    have hbus : (PciRead8 rb B D 0 0x0E (ReadPciFuncInfo rb B D 0 st.1).1).1.bus = st0 := by
      simp only [PciRead8, PciRead, hpure]; exact h1
    have hval : (PciRead8 rb B D 0 0x0E (ReadPciFuncInfo rb B D 0 st.1).1).2.2 =
        (rb.Read st0 EfiPciWidthUint8 (PciCfgAddr B D 0 0x0E)).2.2 % 2 ^ 8 := by
      simp only [PciRead8, PciRead, h1]; rfl
    have htr : (PciRead8 rb B D 0 0x0E (ReadPciFuncInfo rb B D 0 st.1).1).1.trace =
        st.1.trace ++ (FuncInfoReads B D 0 ++ [HeaderRead B D]) := by
      simp only [PciRead8, PciRead_trace, ht, List.append_assoc]
      rfl
    by_cases hm : (PciRead8 rb B D 0 0x0E (ReadPciFuncInfo rb B D 0 st.1).1).2.2 &&& 0x80 = 0
    · rw [if_pos hm]
      have hmf : DevMulti rb st0 B D = false := by
        unfold DevMulti; rw [← hval, hm]; rfl
      rw [hmf]
      refine ⟨hbus, ?_⟩
      rw [htr]
      simp
    · rw [if_neg hm]
      have hmt : DevMulti rb st0 B D = true := by
        unfold DevMulti; rw [← hval]; simpa using hm
      rw [hmt]
      simp only [if_true]
      obtain ⟨k1, k2⟩ := trace_foldl st0 (ScanFunc rb B D) (SpecFuncTrace rb st0 B D)
        (List.range' 1 7)
        (fun st F _ hb => ScanFunc_trace_pure rb hpure st0 B D F st hb)
        ((PciRead8 rb B D 0 0x0E (ReadPciFuncInfo rb B D 0 st.1).1).1, PushDev st.2 Info) hbus
      refine ⟨k1, ?_⟩
      rw [k2, htr]
      simp

/-- The whole scan on a fabric whose reads change nothing: when the allocation succeeded the
calls are those the spec prescribes, device after device; when it failed there is none. -/
theorem ScanAllPci_trace_pure {σ : Type} (rb : PCI_ROOT_BRIDGE σ)
    (hpure : ∀ st w addr, (rb.Read st w addr).1 = st) (a : Bool) (fab : Fabric σ) :
    (ScanAllPci rb a fab).1.trace =
      fab.trace ++ (if a = true then SpecScanTrace rb fab.bus else []) := by
  have hbusok : ∀ (B : Nat) (st : Fabric σ × List PCI_DEV_INFO), st.1.bus = fab.bus →
      (ScanBus rb st B).1.bus = fab.bus ∧
      (ScanBus rb st B).1.trace =
        st.1.trace ++ (List.range 32).flatMap fun D => SpecDevTrace rb fab.bus B D := by
    intro B st hb
    unfold ScanBus
    exact trace_foldl fab.bus (ScanDev rb B) (fun D => SpecDevTrace rb fab.bus B D)
      (List.range 32) (fun st D _ hb => ScanDev_trace_pure rb hpure fab.bus B D st hb) st hb
  have h := trace_foldl fab.bus (ScanBus rb)
    (fun B => (List.range 32).flatMap fun D => SpecDevTrace rb fab.bus B D) (List.range 256)
    (fun st B _ hb => hbusok B st hb) (fab, []) rfl
  cases a
  · rw [ScanAllPci_null]
    simp
  · rw [ScanAllPci_allocated, if_pos rfl]
    unfold SpecScanTrace
    exact h.2

/-- The fields of a configuration address. -/
theorem PciCfgAddr_fields (B D F R : Nat) (hD : D < 256) (hF : F < 256) (w : EFI_PCI_WIDTH) :
    (BusOp.read w (PciCfgAddr B D F R)).bus = B ∧
    (BusOp.read w (PciCfgAddr B D F R)).dev = D ∧
    (BusOp.read w (PciCfgAddr B D F R)).func = F ∧
    (BusOp.read w (PciCfgAddr B D F R)).reg = R % 256 := by
  simp only [BusOp.bus, BusOp.dev, BusOp.func, BusOp.reg, BusOp.addr,
    PciCfgAddr_eq B D F R hD hF]
  omega

theorem FuncInfoReads_fields (B D F : Nat) (hD : D < 256) (hF : F < 256) :
    ∀ op ∈ FuncInfoReads B D F, op.bus = B ∧ op.dev = D ∧ op.func = F := by
  intro op hop
  simp only [FuncInfoReads, VendorRead, List.mem_cons, List.mem_singleton, List.not_mem_nil,
    or_false] at hop
  rcases hop with h | h | h | h | h <;> subst h <;>
    exact ⟨(PciCfgAddr_fields B D F _ hD hF _).1, (PciCfgAddr_fields B D F _ hD hF _).2.1,
      (PciCfgAddr_fields B D F _ hD hF _).2.2.1⟩

theorem SpecFuncTrace_fields {σ : Type} (rb : PCI_ROOT_BRIDGE σ) (st : σ) (B D F : Nat)
    (hD : D < 256) (hF : F < 256) :
    ∀ op ∈ SpecFuncTrace rb st B D F, op.bus = B ∧ op.dev = D ∧ op.func = F := by
  intro op hop
  unfold SpecFuncTrace at hop
  split_ifs at hop
  · exact FuncInfoReads_fields B D F hD hF op hop
  · rw [List.mem_singleton] at hop
    subst hop
    exact ⟨(PciCfgAddr_fields B D F _ hD hF _).1, (PciCfgAddr_fields B D F _ hD hF _).2.1,
      (PciCfgAddr_fields B D F _ hD hF _).2.2.1⟩

/-- The shape of the reads of a device: the vendor-id read of function 0, then the other reads
of function 0, then, only on a present multi-function device, the reads of functions 1..7. -/
theorem SpecDevTrace_shape {σ : Type} (rb : PCI_ROOT_BRIDGE σ) (st : σ) (B D : Nat)
    (hD : D < 256) :
    ∃ pre post, SpecDevTrace rb st B D = VendorRead B D 0 :: pre ++ post ∧
      (∀ op ∈ VendorRead B D 0 :: pre, op.bus = B ∧ op.dev = D ∧ op.func = 0) ∧
      (∀ op ∈ post, op.bus = B ∧ op.dev = D ∧ 1 ≤ op.func ∧ op.func ≤ 7) ∧
      (post ≠ [] → FuncPresent rb st B D 0 = true ∧ DevMulti rb st B D = true) := by
  have hv : (VendorRead B D 0).bus = B ∧ (VendorRead B D 0).dev = D ∧
      (VendorRead B D 0).func = 0 :=
    ⟨(PciCfgAddr_fields B D 0 _ hD (by norm_num) _).1,
      (PciCfgAddr_fields B D 0 _ hD (by norm_num) _).2.1,
      (PciCfgAddr_fields B D 0 _ hD (by norm_num) _).2.2.1⟩
  have hh : (HeaderRead B D).bus = B ∧ (HeaderRead B D).dev = D ∧ (HeaderRead B D).func = 0 :=
    ⟨(PciCfgAddr_fields B D 0 _ hD (by norm_num) _).1,
      (PciCfgAddr_fields B D 0 _ hD (by norm_num) _).2.1,
      (PciCfgAddr_fields B D 0 _ hD (by norm_num) _).2.2.1⟩
  have hpre : ∀ op ∈ FuncInfoReads B D 0 ++ [HeaderRead B D],
      op.bus = B ∧ op.dev = D ∧ op.func = 0 := by
    intro op hop
    rcases List.mem_append.1 hop with h | h
    · exact FuncInfoReads_fields B D 0 hD (by norm_num) op h
    · rw [List.mem_singleton] at h; subst h; exact hh
  unfold SpecDevTrace
  cases hp : FuncPresent rb st B D 0
  · refine ⟨[], [], by simp, ?_, by simp, by simp⟩
    intro op hop
    rw [List.mem_singleton] at hop
    subst hop; exact hv
  · simp only [if_true]
    cases hm : DevMulti rb st B D
    · refine ⟨(FuncInfoReads B D 0 ++ [HeaderRead B D]).tail, [], ?_, ?_, by simp, by simp⟩
      · simp [FuncInfoReads]
      · intro op hop
        apply hpre
        simpa [FuncInfoReads] using hop
    · simp only [if_true]
      refine ⟨(FuncInfoReads B D 0 ++ [HeaderRead B D]).tail,
        (List.range' 1 7).flatMap (SpecFuncTrace rb st B D), ?_, ?_, ?_, by simp⟩
      · simp [FuncInfoReads]
      · intro op hop
        apply hpre
        simpa [FuncInfoReads] using hop
      · intro op hop
        rw [List.mem_flatMap] at hop
        obtain ⟨F, hF, hop⟩ := hop
        rw [List.mem_range'_1] at hF
        obtain ⟨h1, h2, h3⟩ := SpecFuncTrace_fields rb st B D F hD (by omega) op hop
        exact ⟨h1, h2, by omega, by omega⟩

theorem SpecDevTrace_fields {σ : Type} (rb : PCI_ROOT_BRIDGE σ) (st : σ) (B D : Nat)
    (hD : D < 256) : ∀ op ∈ SpecDevTrace rb st B D, op.bus = B ∧ op.dev = D := by
  obtain ⟨pre, post, he, h1, h2, _⟩ := SpecDevTrace_shape rb st B D hD
  intro op hop
  rw [he] at hop
  rcases List.mem_append.1 hop with h | h
  · exact ⟨(h1 op h).1, (h1 op h).2.1⟩
  · exact ⟨(h2 op h).1, (h2 op h).2.1⟩

theorem flatMap_single {α β : Type} (g : α → List β) (l : List α) (x : α) (hn : l.Nodup)
    (hx : x ∈ l) (hg : ∀ y ∈ l, y ≠ x → g y = []) : l.flatMap g = g x := by
  induction l with
  | nil => exact absurd hx (List.not_mem_nil _)
  | cons y ys ih =>
    rw [List.nodup_cons] at hn
    rw [List.flatMap_cons]
    by_cases hyx : y = x
    · subst hyx
      have : ys.flatMap g = [] := by
        rw [List.flatMap_eq_nil_iff]
        intro z hz
        exact hg z (List.mem_cons_of_mem _ hz) (fun h => hn.1 (h ▸ hz))
      rw [this, List.append_nil]
    · rw [hg y (List.mem_cons_self _ _) hyx, List.nil_append]
      rcases List.mem_cons.1 hx with h | h
      · exact absurd h.symm hyx
      · exact ih hn.2 h (fun z hz => hg z (List.mem_cons_of_mem _ hz))

/-- The reads of the scan that are addressed to a device are the reads of that device. -/
theorem SpecScanTrace_filter {σ : Type} (rb : PCI_ROOT_BRIDGE σ) (st : σ) (B D : Nat)
    (hB : B < 256) (hD : D < 32) :
    (SpecScanTrace rb st).filter (fun op => op.bus == B && op.dev == D) =
      SpecDevTrace rb st B D := by
  unfold SpecScanTrace
  rw [List.filter_flatMap]
  have hdev : ∀ B1 D1, D1 ∈ List.range 32 → ¬ (B1 = B ∧ D1 = D) →
      (SpecDevTrace rb st B1 D1).filter (fun op => op.bus == B && op.dev == D) = [] := by
    intro B1 D1 hD1 hne
    rw [List.mem_range] at hD1
    rw [List.filter_eq_nil_iff]
    intro op hop
    obtain ⟨h1, h2⟩ := SpecDevTrace_fields rb st B1 D1 (by omega) op hop
    simp only [Bool.and_eq_true, beq_iff_eq, not_and]
    intro hb hd
    exact hne ⟨by omega, by omega⟩
  rw [flatMap_single _ (List.range 256) B (List.nodup_range 256) (List.mem_range.2 hB)]
  · rw [List.filter_flatMap,
      flatMap_single _ (List.range 32) D (List.nodup_range 32) (List.mem_range.2 hD)]
    · rw [List.filter_eq_self]
      intro op hop
      obtain ⟨h1, h2⟩ := SpecDevTrace_fields rb st B D (by omega) op hop
      simp [h1, h2]
    · intro D1 hD1 hne
      exact hdev B D1 hD1 (fun h => hne h.2)
  · intro B1 _ hne
    rw [List.filter_flatMap, List.flatMap_eq_nil_iff]
    intro D1 hD1
    exact hdev B1 D1 hD1 (fun h => hne h.1)

/-! ## C11 -/

/-- C11: the enumeration short-circuits per device. On any fabric and in any state, one
iteration of the device loop of `ScanAllPci` issues the vendor-id read of function 0 first;
when that read fails or returns 0xFFFF it is the only call of the iteration; when function 0
is found and the high bit of its header type is clear only function 0 is read; reads of
functions 1..7 are issued only when function 0 is found and the bit is set, and after the
reads of function 0. On a fabric whose reads change nothing the whole scan issues no call at
all when the allocation of its list failed, and otherwise exactly the reads the spec
prescribes, device after device; the reads addressed to a device are those of its own
iteration: the single vendor-id read of function 0 when function 0 is absent, and reads of
functions 1..7 only on a present multi-function device, after function 0. -/
theorem C11_scan_short_circuits {σ : Type} (rb : PCI_ROOT_BRIDGE σ) :
    (∀ (B D : Nat) (st : Fabric σ × List PCI_DEV_INFO),
      ((EFI_ERROR (PciRead16 rb B D 0 0x00 st.1).2.1 = true ∨
          (PciRead16 rb B D 0 0x00 st.1).2.2 = 0xFFFF) ∧
        (ScanDev rb B st D).1.trace = st.1.trace ++ [VendorRead B D 0]) ∨
      ((EFI_ERROR (PciRead16 rb B D 0 0x00 st.1).2.1 = false ∧
          (PciRead16 rb B D 0 0x00 st.1).2.2 ≠ 0xFFFF) ∧
        (PciRead8 rb B D 0 0x0E (ReadPciFuncInfo rb B D 0 st.1).1).2.2 &&& 0x80 = 0 ∧
        (ScanDev rb B st D).1.trace =
          st.1.trace ++ (FuncInfoReads B D 0 ++ [HeaderRead B D])) ∨
      ((EFI_ERROR (PciRead16 rb B D 0 0x00 st.1).2.1 = false ∧
          (PciRead16 rb B D 0 0x00 st.1).2.2 ≠ 0xFFFF) ∧
        (PciRead8 rb B D 0 0x0E (ReadPciFuncInfo rb B D 0 st.1).1).2.2 &&& 0x80 ≠ 0 ∧
        ∃ rest, (ScanDev rb B st D).1.trace =
            st.1.trace ++ (FuncInfoReads B D 0 ++ HeaderRead B D :: rest) ∧
          ∀ op ∈ rest, ∃ F R w, 1 ≤ F ∧ F ≤ 7 ∧ op = BusOp.read w (PciCfgAddr B D F R))) ∧
    ((∀ st w addr, (rb.Read st w addr).1 = st) → ∀ fab : Fabric σ,
      (ScanAllPci rb false fab).1.trace = fab.trace ∧
      (ScanAllPci rb true fab).1.trace = fab.trace ++ SpecScanTrace rb fab.bus ∧
      (∀ a : Bool, ∃ ops, (ScanAllPci rb a fab).1.trace = fab.trace ++ ops ∧
        (ops = [] ∨ ops = SpecScanTrace rb fab.bus)) ∧
      ∀ B D : Nat, B < 256 → D < 32 →
        (SpecScanTrace rb fab.bus).filter (fun op => op.bus == B && op.dev == D) =
          SpecDevTrace rb fab.bus B D ∧
        (FuncPresent rb fab.bus B D 0 = false →
          SpecDevTrace rb fab.bus B D = [VendorRead B D 0]) ∧
        ∃ pre post, SpecDevTrace rb fab.bus B D = VendorRead B D 0 :: pre ++ post ∧
          (∀ op ∈ VendorRead B D 0 :: pre, op.bus = B ∧ op.dev = D ∧ op.func = 0) ∧
          (∀ op ∈ post, op.bus = B ∧ op.dev = D ∧ 1 ≤ op.func ∧ op.func ≤ 7) ∧
          (post ≠ [] →
            FuncPresent rb fab.bus B D 0 = true ∧ DevMulti rb fab.bus B D = true)) := by
  refine ⟨fun B D st => ScanDev_trace rb B D st, ?_⟩
  intro hpure fab
  have ht := ScanAllPci_trace_pure rb hpure true fab
  rw [if_pos rfl] at ht
  refine ⟨rfl, ht, ?_, ?_⟩
  · intro a
    cases a
    · exact ⟨[], (List.append_nil _).symm, Or.inl rfl⟩
    · exact ⟨_, ht, Or.inr rfl⟩
  intro B D hB hD
  refine ⟨SpecScanTrace_filter rb fab.bus B D hB hD, ?_,
    SpecDevTrace_shape rb fab.bus B D (by omega)⟩
  intro hp
  unfold SpecDevTrace
  rw [hp]
  rfl

/-- Witness for C11: the mock fabric, whose reads change nothing; device (0,2) is absent. -/
theorem C11_scan_short_circuits_witness :
    (∀ (st : Unit) (w : EFI_PCI_WIDTH) (addr : Nat), (MockScanBus.Read st w addr).1 = st) ∧
    (0 < 256 ∧ 2 < 32) ∧
    (SpecScanTrace MockScanBus ()).filter (fun op => op.bus == 0 && op.dev == 2) =
      SpecDevTrace MockScanBus () 0 2 :=
  ⟨fun _ _ _ => rfl, by decide,
    (((C11_scan_short_circuits MockScanBus).2 (fun _ _ _ => rfl)
      { bus := (), trace := [] }).2.2.2 0 2 (by decide) (by decide)).1⟩

/-! ## The write engine: one write, one verification read -/

/-- The fabric calls of the write part of `DoWriteAtCursor` (policy-table variant): after at
most one read of the current value (the command and status words), one write, and one
verification read if the write did not fail; the status is that of the write. -/
theorem WriteTransform_verify {σ : Type} (rb : PCI_ROOT_BRIDGE σ) (B D F : Nat) (m : DISP_MODE)
    (c : Nat) (Pol : WRITE_POLICY) (Val : Nat) (fab : Fabric σ) :
    ∃ pre fabpre v,
      ((¬ (m = DISP_WORD ∧ c = 0x04) ∧ ¬ (Pol = WP_RW1C ∧ m = DISP_WORD ∧ c = 0x06) ∧
          pre = [] ∧ fabpre = fab ∧ v = Val % 2 ^ (WidthOfMode m).bits) ∨
        (m = DISP_WORD ∧ c = 0x04 ∧
          pre = [BusOp.read (WidthOfMode m) (PciCfgAddr B D F c)] ∧
          fabpre = (PciRead rb (WidthOfMode m) B D F c fab).1 ∧
          v = CommandFinal (PciRead rb (WidthOfMode m) B D F c fab).2.2 (Val % 65536)) ∨
        (Pol = WP_RW1C ∧ m = DISP_WORD ∧ c = 0x06 ∧
          pre = [BusOp.read (WidthOfMode m) (PciCfgAddr B D F c)] ∧
          fabpre = (PciRead rb (WidthOfMode m) B D F c fab).1 ∧
          v = Val % 65536)) ∧
      WriteTransform rb B D F m c Pol Val fab =
        (if EFI_ERROR (PciWrite rb (WidthOfMode m) B D F c v fabpre).2 = true
         then PciWrite rb (WidthOfMode m) B D F c v fabpre
         else ((PciRead rb (WidthOfMode m) B D F c
            (PciWrite rb (WidthOfMode m) B D F c v fabpre).1).1,
            (PciWrite rb (WidthOfMode m) B D F c v fabpre).2)) := by
  by_cases h4 : m = DISP_WORD ∧ c = 0x04
  · obtain ⟨rfl, rfl⟩ := h4
    refine ⟨_, _, _, Or.inr (Or.inl ⟨rfl, rfl, rfl, rfl, rfl⟩), ?_⟩
    unfold WriteTransform CommandFinal
    simp only [and_self, if_true, PciWrite16, PciRead16, WidthOfMode]
    split_ifs <;> simp_all
  · by_cases h6 : Pol = WP_RW1C ∧ m = DISP_WORD ∧ c = 0x06
    · obtain ⟨rfl, rfl, rfl⟩ := h6
      refine ⟨_, _, _, Or.inr (Or.inr ⟨rfl, rfl, rfl, rfl, rfl, rfl⟩), ?_⟩
      unfold WriteTransform
      rw [if_neg h4]
      simp only [and_self, if_true, PciWrite16, PciRead16, WidthOfMode]
      split_ifs <;> simp_all
    · exact ⟨[], fab, _, Or.inl ⟨h4, h6, rfl, rfl, rfl⟩,
        WriteTransform_direct rb B D F m c Pol Val fab h4 h6⟩

/-- A permitted write whose value has been entered: the write part runs, then the
acknowledgement is awaited. -/
theorem DoWriteAtCursor_entered {σ : Type} (rb : PCI_ROOT_BRIDGE σ) (flag : Bool)
    (B D F : Nat) (m : DISP_MODE) (o : Nat) (keys ks : List EFI_INPUT_KEY) (Val : Nat)
    (fab : Fabric σ)
    (hperm : WritePermitted (GetWritePolicy B D F (AlignCursor o m) m) flag)
    (hhex : ReadFixedHex (HexDigits m) keys = some (EFI_SUCCESS, Val, ks)) :
    DoWriteAtCursor rb flag B D F m o keys fab =
      AckReturn (WriteTransform rb B D F m (AlignCursor o m)
          (GetWritePolicy B D F (AlignCursor o m) m) Val fab).2 ks
        (WriteTransform rb B D F m (AlignCursor o m)
          (GetWritePolicy B D F (AlignCursor o m) m) Val fab).1 := by
  unfold DoWriteAtCursor
  dsimp only
  rw [if_neg hperm.1, if_neg hperm.2, hhex]
  rfl

/-- A write followed by its verification read meets the spec's demand. -/
theorem OneWriteOneVerify_intro {σ : Type} (rb : PCI_ROOT_BRIDGE σ) (w : EFI_PCI_WIDTH)
    (B D F a : Nat) (fab : Fabric σ) (k : EFI_INPUT_KEY) (ks : List EFI_INPUT_KEY)
    (pre : List BusOp) (fabpre : Fabric σ) (v : Nat)
    (hpre : (pre = [] ∧ fabpre = fab) ∨
      (pre = [BusOp.read w (PciCfgAddr B D F a)] ∧ fabpre = (PciRead rb w B D F a fab).1))
    (r : Fabric σ × EFI_STATUS)
    (hr : r = (if EFI_ERROR (PciWrite rb w B D F a v fabpre).2 = true
         then PciWrite rb w B D F a v fabpre
         else ((PciRead rb w B D F a (PciWrite rb w B D F a v fabpre).1).1,
            (PciWrite rb w B D F a v fabpre).2))) :
    OneWriteOneVerify rb w B D F a fab ks (AckReturn r.2 (k :: ks) r.1) := by
  have htr : fabpre.trace = fab.trace ++ pre := by
    rcases hpre with ⟨h1, h2⟩ | ⟨h1, h2⟩
    · rw [h1, h2, List.append_nil]
    · rw [h1, h2, PciRead_trace]
  refine ⟨pre, fabpre, v, hpre, ?_, ?_⟩
  · intro he
    have hs := (EFI_ERROR_false_iff _).1 he
    rw [hr, he]
    simp only [Bool.false_eq_true, if_false, AckReturn_cons]
    refine ⟨by rw [hs], ?_⟩
    simp only [PciRead_trace, PciWrite_trace, htr, List.append_assoc]
    rfl
  · intro he
    rw [hr, he]
    simp only [if_true, AckReturn_cons]
    refine ⟨trivial, ?_⟩
    simp only [PciWrite_trace, htr, List.append_assoc]

/-- The policy-table variant: a permitted write whose value was entered and acknowledged is
one write and, when it succeeded, one verification read. -/
theorem DoWriteAtCursor_one_write {σ : Type} (rb : PCI_ROOT_BRIDGE σ) (flag : Bool)
    (B D F o : Nat) (m : DISP_MODE) (keys : List EFI_INPUT_KEY) (Val : Nat)
    (k : EFI_INPUT_KEY) (ks : List EFI_INPUT_KEY) (fab : Fabric σ) (ho : o < 65536)
    (hperm : WritePermitted (GetWritePolicy B D F o m) flag)
    (hhex : ReadFixedHex (HexDigits m) keys = some (EFI_SUCCESS, Val, k :: ks)) :
    OneWriteOneVerify rb (WidthOfMode m) B D F (AlignCursor o m) fab ks
      (DoWriteAtCursor rb flag B D F m o keys fab) := by
  rw [← GetWritePolicy_align B D F o m ho] at hperm
  rw [DoWriteAtCursor_entered rb flag B D F m o keys (k :: ks) Val fab hperm hhex]
  obtain ⟨pre, fabpre, v, hcase, heq⟩ := WriteTransform_verify rb B D F m (AlignCursor o m)
    (GetWritePolicy B D F (AlignCursor o m) m) Val fab
  refine OneWriteOneVerify_intro rb _ B D F _ fab k ks pre fabpre v ?_ _ heq
  rcases hcase with ⟨_, _, h1, h2, _⟩ | ⟨_, _, h1, h2, _⟩ | ⟨_, _, _, h1, h2, _⟩
  · exact Or.inl ⟨h1, h2⟩
  · exact Or.inr ⟨h1, h2⟩
  · exact Or.inr ⟨h1, h2⟩

/-- The raw-write variant: the same, with no read before the write. -/
theorem Raw_DoWriteAtCursor_one_write {σ : Type} (rb : PCI_ROOT_BRIDGE σ) (flag : Bool)
    (B D F o : Nat) (m : DISP_MODE) (keys : List EFI_INPUT_KEY) (Val : Nat)
    (k : EFI_INPUT_KEY) (ks : List EFI_INPUT_KEY) (fab : Fabric σ)
    (hgate : ((Raw.IsBarOffset (AlignCursor o m) || Raw.IsCapArea (AlignCursor o m)) && !flag)
      = false)
    (hhex : Raw.ReadFixedHex (HexDigits m) keys = some (EFI_SUCCESS, Val, k :: ks)) :
    OneWriteOneVerify rb (WidthOfMode m) B D F (AlignCursor o m) fab ks
      (Raw.DoWriteAtCursor rb flag B D F m o keys fab) := by
  rw [Raw_DoWriteAtCursor_direct rb flag B D F m o keys fab hgate]
  unfold SpecRawWrite
  rw [hhex]
  dsimp only
  rw [if_neg (by decide : ¬ EFI_ERROR EFI_SUCCESS = true)]
  have := OneWriteOneVerify_intro rb (WidthOfMode m) B D F (AlignCursor o m) fab k ks [] fab
    (Val % 2 ^ (WidthOfMode m).bits) (Or.inl ⟨rfl, rfl⟩) _ rfl
  split_ifs with he
  · rw [if_pos he] at this; exact this
  · rw [if_neg he] at this; exact this

/-! ## C12 -/

/-- C12: for every permitted write whose value has been entered and acknowledged, in both
variants, `DoWriteAtCursor` issues exactly one fabric write (after the read of the current
value, for the command and status words of the policy-table variant); when the write succeeds
exactly one verification read at the same address, aligned offset and width follows, no
further write, and `EFI_SUCCESS` is returned whatever the verification read returns; when the
write fails no verification read is issued and the failure status of the write is returned.
On a register whose bit 0 does not respond, a dword write of 0xFFFFFFFF at 0x10 reads back
0xFFFFFFFE and still returns `EFI_SUCCESS`. -/
theorem C12_one_write_one_verification_read {σ : Type} (rb : PCI_ROOT_BRIDGE σ) (flag : Bool)
    (B D F o : Nat) (m : DISP_MODE) (keys : List EFI_INPUT_KEY) (Val : Nat)
    (k : EFI_INPUT_KEY) (ks : List EFI_INPUT_KEY) (fab : Fabric σ) (ho : o < 65536) :
    (WritePermitted (GetWritePolicy B D F o m) flag →
      ReadFixedHex (HexDigits m) keys = some (EFI_SUCCESS, Val, k :: ks) →
      OneWriteOneVerify rb (WidthOfMode m) B D F (AlignCursor o m) fab ks
        (DoWriteAtCursor rb flag B D F m o keys fab)) ∧
    (((Raw.IsBarOffset (AlignCursor o m) || Raw.IsCapArea (AlignCursor o m)) && !flag) = false →
      Raw.ReadFixedHex (HexDigits m) keys = some (EFI_SUCCESS, Val, k :: ks) →
      OneWriteOneVerify rb (WidthOfMode m) B D F (AlignCursor o m) fab ks
        (Raw.DoWriteAtCursor rb flag B D F m o keys fab)) ∧
    ((DoWriteAtCursor (MaskedBus 0xFFFFFFFE) true 0 0 0 DISP_DWORD 0x10
        [KeyChar 0x46, KeyChar 0x46, KeyChar 0x46, KeyChar 0x46, KeyChar 0x46, KeyChar 0x46,
          KeyChar 0x46, KeyChar 0x46, KeyChar 0x20] { bus := 0, trace := [] }).Status,
      (DoWriteAtCursor (MaskedBus 0xFFFFFFFE) true 0 0 0 DISP_DWORD 0x10
        [KeyChar 0x46, KeyChar 0x46, KeyChar 0x46, KeyChar 0x46, KeyChar 0x46, KeyChar 0x46,
          KeyChar 0x46, KeyChar 0x46, KeyChar 0x20] { bus := 0, trace := [] }).fab.trace,
      (DoWriteAtCursor (MaskedBus 0xFFFFFFFE) true 0 0 0 DISP_DWORD 0x10
        [KeyChar 0x46, KeyChar 0x46, KeyChar 0x46, KeyChar 0x46, KeyChar 0x46, KeyChar 0x46,
          KeyChar 0x46, KeyChar 0x46, KeyChar 0x20] { bus := 0, trace := [] }).fab.bus) =
      (some EFI_SUCCESS,
        [BusOp.write EfiPciWidthUint32 0x10 0xFFFFFFFF, BusOp.read EfiPciWidthUint32 0x10],
        0xFFFFFFFE) := by
  exact ⟨DoWriteAtCursor_one_write rb flag B D F o m keys Val k ks fab ho,
    Raw_DoWriteAtCursor_one_write rb flag B D F o m keys Val k ks fab, by decide⟩

/-- Witness for C12: a byte write of 0x12 at 0x0C on the byte memory, the flag locked. -/
theorem C12_one_write_one_verification_read_witness :
    (0x0C < 65536) ∧
    WritePermitted (GetWritePolicy 0 0 0 0x0C DISP_BYTE) false ∧
    ReadFixedHex (HexDigits DISP_BYTE) [KeyChar 0x31, KeyChar 0x32, KeyChar 0x20] =
      some (EFI_SUCCESS, 0x12, [KeyChar 0x20]) ∧
    OneWriteOneVerify MemBus (WidthOfMode DISP_BYTE) 0 0 0 (AlignCursor 0x0C DISP_BYTE)
      { bus := fun _ => 0, trace := [] } []
      (DoWriteAtCursor MemBus false 0 0 0 DISP_BYTE 0x0C
        [KeyChar 0x31, KeyChar 0x32, KeyChar 0x20] { bus := fun _ => 0, trace := [] }) :=
  ⟨by decide, by decide, by decide,
    (C12_one_write_one_verification_read MemBus false 0 0 0 0x0C DISP_BYTE
      [KeyChar 0x31, KeyChar 0x32, KeyChar 0x20] 0x12 (KeyChar 0x20) []
      { bus := fun _ => 0, trace := [] } (by decide)).1 (by decide) (by decide)⟩

/-! ## The masked read-modify-write of the command register -/

theorem commandMask_bits (i : Nat) :
    Nat.testBit 1031 i = decide (i = 0 ∨ i = 1 ∨ i = 2 ∨ i = 10) := by
  by_cases hi : i < 11
  · interval_cases i <;> decide
  · have h : 1031 < 2 ^ i :=
      lt_of_lt_of_le (by norm_num : 1031 < 2 ^ 11) (Nat.pow_le_pow_right (by norm_num) (by omega))
    rw [Nat.testBit_lt_two_pow h]
    symm
    rw [decide_eq_false_iff_not]
    omega

/-- Bit by bit: the value written to the command register takes bits 0, 1, 2 and 10 from the
input and every other bit of the 16 from the old value. -/
theorem CommandFinal_bits (old v i : Nat) :
    (CommandFinal old (v % 65536)).testBit i =
      if i = 0 ∨ i = 1 ∨ i = 2 ∨ i = 10 then v.testBit i
      else (decide (i < 16) && old.testBit i) := by
  have hm : ((1 <<< 0) ||| (1 <<< 1) ||| (1 <<< 2) ||| (1 <<< 10)) % 65536 = 1031 := by decide
  have e16 : (65536 : Nat) = 2 ^ 16 := by norm_num
  have e32 : (0xFFFFFFFF : Nat) = 2 ^ 32 - 1 := by norm_num
  unfold CommandFinal
  dsimp only
  rw [hm, e16, Nat.testBit_mod_two_pow, Nat.testBit_or, Nat.testBit_and, Nat.testBit_and,
    Nat.testBit_xor, Nat.testBit_mod_two_pow, commandMask_bits, e32, Nat.testBit_two_pow_sub_one]
  by_cases h : i = 0 ∨ i = 1 ∨ i = 2 ∨ i = 10
  · have h16 : i < 16 := by omega
    have h32 : i < 32 := by omega
    simp [h, h16, h32]
  · by_cases h16 : i < 16
    · have h32 : i < 32 := by omega
      simp [h, h16, h32]
    · simp [h, h16]

theorem CommandFinal_lt (old new : Nat) : CommandFinal old new < 65536 :=
  Nat.mod_lt _ (by norm_num)

/-- The written value in the words of the register: the old value with bits 0, 1, 2 and 10
cleared, or-ed with those four bits of the input. -/
theorem CommandFinal_eq (old v : Nat) :
    CommandFinal old (v % 65536) = (old &&& (0xFFFF ^^^ 0x0407)) ||| (v &&& 0x0407) := by
  apply Nat.eq_of_testBit_eq
  intro i
  have e : (0xFFFF ^^^ 0x0407 : Nat) = 0xFFFF ^^^ 1031 := rfl
  have e16 : (0xFFFF : Nat) = 2 ^ 16 - 1 := by norm_num
  have e2 : (0x0407 : Nat) = 1031 := rfl
  rw [CommandFinal_bits, Nat.testBit_or, Nat.testBit_and, Nat.testBit_and, Nat.testBit_xor, e2,
    commandMask_bits, e16, Nat.testBit_two_pow_sub_one]
  by_cases h : i = 0 ∨ i = 1 ∨ i = 2 ∨ i = 10
  · have h16 : i < 16 := by omega
    simp [h, h16]
  · by_cases h16 : i < 16
    · simp [h, h16]
    · simp [h, h16]

/-! ## C13 -/

/-- C13: in the policy-table variant a word write whose aligned offset is 0x04, with entered
value `v`, is permitted whatever the unlock flag; it reads the command register (value `old`),
then writes `final = (old & ~0x0407) | (v & 0x0407)` at word width, then (when the write
succeeded) reads once more. `final` is a 16-bit value, each of its bits 0, 1, 2 and 10 is the
bit of `v`, and every other bit is the bit of `old`. -/
theorem C13_command_masked_rmw {σ : Type} (rb : PCI_ROOT_BRIDGE σ) (flag : Bool)
    (B D F o : Nat) (keys : List EFI_INPUT_KEY) (v : Nat) (k : EFI_INPUT_KEY)
    (ks : List EFI_INPUT_KEY) (fab : Fabric σ)
    (ha : AlignCursor o DISP_WORD = 0x04)
    (hhex : ReadFixedHex (HexDigits DISP_WORD) keys = some (EFI_SUCCESS, v, k :: ks)) :
    ∃ final tail,
      (DoWriteAtCursor rb flag B D F DISP_WORD o keys fab).fab.trace =
        fab.trace ++ [BusOp.read EfiPciWidthUint16 (PciCfgAddr B D F 0x04),
          BusOp.write EfiPciWidthUint16 (PciCfgAddr B D F 0x04) final] ++ tail ∧
      (tail = [] ∨ tail = [BusOp.read EfiPciWidthUint16 (PciCfgAddr B D F 0x04)]) ∧
      final = CommandFinal (PciRead16 rb B D F 0x04 fab).2.2 (v % 65536) ∧
      final = ((PciRead16 rb B D F 0x04 fab).2.2 &&& (0xFFFF ^^^ 0x0407)) ||| (v &&& 0x0407) ∧
      final < 65536 ∧
      (∀ i, (i = 0 ∨ i = 1 ∨ i = 2 ∨ i = 10) → final.testBit i = v.testBit i) ∧
      (∀ i, ¬ (i = 0 ∨ i = 1 ∨ i = 2 ∨ i = 10) →
        final.testBit i = ((PciRead16 rb B D F 0x04 fab).2.2).testBit i) := by
  have hpol : GetWritePolicy B D F (AlignCursor o DISP_WORD) DISP_WORD = WP_RW_DIRECT := by
    rw [ha, GetWritePolicy_addr]; decide
  have hperm : WritePermitted (GetWritePolicy B D F (AlignCursor o DISP_WORD) DISP_WORD) flag := by
    rw [hpol]; cases flag <;> decide
  have hold : (PciRead16 rb B D F 0x04 fab).2.2 < 2 ^ 16 :=
    PciRead_value_lt rb EfiPciWidthUint16 B D F 0x04 fab
  rw [DoWriteAtCursor_entered rb flag B D F DISP_WORD o keys (k :: ks) v fab hperm hhex,
    AckReturn_cons, ha]
  dsimp only
  obtain ⟨pre, fabpre, w, hcase, heq⟩ := WriteTransform_verify rb B D F DISP_WORD 0x04
    (GetWritePolicy B D F 0x04 DISP_WORD) v fab
  have hw : pre = [BusOp.read (WidthOfMode DISP_WORD) (PciCfgAddr B D F 0x04)] ∧
      fabpre = (PciRead rb (WidthOfMode DISP_WORD) B D F 0x04 fab).1 ∧
      w = CommandFinal (PciRead rb (WidthOfMode DISP_WORD) B D F 0x04 fab).2.2 (v % 65536) := by
    rcases hcase with ⟨h1, _⟩ | ⟨_, _, h1, h2, h3⟩ | ⟨_, _, h1, _⟩
    · exact absurd ⟨rfl, rfl⟩ h1
    · exact ⟨h1, h2, h3⟩
    · exact absurd h1 (by decide)
  obtain ⟨hpre, hfab, hwv⟩ := hw
  have hfinal : w = CommandFinal (PciRead16 rb B D F 0x04 fab).2.2 (v % 65536) := hwv
  refine ⟨w, if EFI_ERROR (PciWrite rb (WidthOfMode DISP_WORD) B D F 0x04 w fabpre).2 = true
      then [] else [BusOp.read EfiPciWidthUint16 (PciCfgAddr B D F 0x04)], ?_, ?_, hfinal, ?_, ?_,
      ?_, ?_⟩
  · rw [heq]
    have htr : fabpre.trace = fab.trace ++ [BusOp.read EfiPciWidthUint16 (PciCfgAddr B D F 0x04)] := by
      rw [hfab, PciRead_trace]; rfl
    split_ifs with he
    · rw [PciWrite_trace, htr, List.append_nil, List.append_assoc]; rfl
    · dsimp only
      rw [PciRead_trace, PciWrite_trace, htr]
      simp only [List.append_assoc]
      rfl
  · split_ifs
    · exact Or.inl rfl
    · exact Or.inr rfl
  · rw [hfinal, CommandFinal_eq]
  · rw [hfinal]; exact CommandFinal_lt _ _
  · intro i hi
    rw [hfinal, CommandFinal_bits, if_pos hi]
  · intro i hi
    rw [hfinal, CommandFinal_bits, if_neg hi]
    by_cases h16 : i < 16
    · simp [h16]
    · have : (PciRead16 rb B D F 0x04 fab).2.2 < 2 ^ i :=
        lt_of_lt_of_le hold (Nat.pow_le_pow_right (by norm_num) (by omega))
      rw [Nat.testBit_lt_two_pow this]
      simp [h16]

/-- Witness for C13: the word at 0x04 of a byte memory that holds 0xFFFF there, cursor 0x05,
entered value 0x0000. -/
theorem C13_command_masked_rmw_witness :
    AlignCursor 0x05 DISP_WORD = 0x04 ∧
    ReadFixedHex (HexDigits DISP_WORD)
      [KeyChar 0x30, KeyChar 0x30, KeyChar 0x30, KeyChar 0x30, KeyChar 0x20] =
      some (EFI_SUCCESS, 0, [KeyChar 0x20]) ∧
    ∃ final tail,
      (DoWriteAtCursor MemBus true 0 0 0 DISP_WORD 0x05
        [KeyChar 0x30, KeyChar 0x30, KeyChar 0x30, KeyChar 0x30, KeyChar 0x20]
        { bus := fun _ => 0xFF, trace := [] }).fab.trace =
        ([] : List BusOp) ++ [BusOp.read EfiPciWidthUint16 (PciCfgAddr 0 0 0 0x04),
          BusOp.write EfiPciWidthUint16 (PciCfgAddr 0 0 0 0x04) final] ++ tail ∧
      (tail = [] ∨ tail = [BusOp.read EfiPciWidthUint16 (PciCfgAddr 0 0 0 0x04)]) ∧
      final = CommandFinal
        (PciRead16 MemBus 0 0 0 0x04 { bus := fun _ => 0xFF, trace := [] }).2.2 (0 % 65536) ∧
      final = ((PciRead16 MemBus 0 0 0 0x04 { bus := fun _ => 0xFF, trace := [] }).2.2 &&&
        (0xFFFF ^^^ 0x0407)) ||| (0 &&& 0x0407) ∧
      final < 65536 ∧
      (∀ i, (i = 0 ∨ i = 1 ∨ i = 2 ∨ i = 10) → final.testBit i = Nat.testBit 0 i) ∧
      (∀ i, ¬ (i = 0 ∨ i = 1 ∨ i = 2 ∨ i = 10) →
        final.testBit i =
          ((PciRead16 MemBus 0 0 0 0x04 { bus := fun _ => 0xFF, trace := [] }).2.2).testBit i) :=
  ⟨by decide, by decide,
    C13_command_masked_rmw MemBus true 0 0 0 0x05
      [KeyChar 0x30, KeyChar 0x30, KeyChar 0x30, KeyChar 0x30, KeyChar 0x20] 0 (KeyChar 0x20) []
      { bus := fun _ => 0xFF, trace := [] } (by decide) (by decide)⟩

/-! ## C14 -/

theorem OneWriteOneVerify_status {σ : Type} (rb : PCI_ROOT_BRIDGE σ) (w : EFI_PCI_WIDTH)
    (B D F a : Nat) (fab : Fabric σ) (ks : List EFI_INPUT_KEY) (res : WriteResult σ)
    (h : OneWriteOneVerify rb w B D F a fab ks res) :
    WriteStatusSurfaced rb w B D F a fab res := by
  obtain ⟨pre, fabpre, v, hpre, hok, hfail⟩ := h
  refine ⟨fabpre, v, ?_, ?_, ?_, ?_⟩
  · rcases hpre with ⟨_, h2⟩ | ⟨_, h2⟩
    · exact Or.inl h2
    · exact Or.inr h2
  · cases he : EFI_ERROR (PciWrite rb w B D F a v fabpre).2
    · rw [(hok he).1, (EFI_ERROR_false_iff _).1 he]
    · rw [(hfail he).1]
  · intro he
    rw [(hfail he).1]
    refine ⟨?_, rfl⟩
    intro hs
    have hs2 : (PciWrite rb w B D F a v fabpre).2 = EFI_SUCCESS := Option.some.inj hs
    rw [hs2] at he
    exact absurd he (by decide)
  · intro he
    rw [(hok he).1]
    exact ⟨rfl, rfl⟩

/-- Counterexample to C14 as stated: on a fabric whose reads all fail and whose writes
succeed, a permitted byte write of 0x12 at 0x0C issues the write and the verification read,
the verification read fails, and the status returned is `EFI_SUCCESS`, in both variants. -/
theorem C14_failed_verification_read_returns_success :
    (ReadFailBus.Read () EfiPciWidthUint8 (PciCfgAddr 0 0 0 0x0C)).2.1 = EFI_FAILURE 7 ∧
    (DoWriteAtCursor ReadFailBus false 0 0 0 DISP_BYTE 0x0C
      [KeyChar 0x31, KeyChar 0x32, KeyChar 0x20] { bus := (), trace := [] }).Status =
      some EFI_SUCCESS ∧
    (DoWriteAtCursor ReadFailBus false 0 0 0 DISP_BYTE 0x0C
      [KeyChar 0x31, KeyChar 0x32, KeyChar 0x20] { bus := (), trace := [] }).fab.trace =
      [BusOp.write EfiPciWidthUint8 (PciCfgAddr 0 0 0 0x0C) 0x12,
        BusOp.read EfiPciWidthUint8 (PciCfgAddr 0 0 0 0x0C)] ∧
    (Raw.DoWriteAtCursor ReadFailBus false 0 0 0 DISP_BYTE 0x0C
      [KeyChar 0x31, KeyChar 0x32, KeyChar 0x20] { bus := (), trace := [] }).Status =
      some EFI_SUCCESS ∧
    (Raw.DoWriteAtCursor ReadFailBus false 0 0 0 DISP_BYTE 0x0C
      [KeyChar 0x31, KeyChar 0x32, KeyChar 0x20] { bus := (), trace := [] }).fab.trace =
      [BusOp.write EfiPciWidthUint8 (PciCfgAddr 0 0 0 0x0C) 0x12,
        BusOp.read EfiPciWidthUint8 (PciCfgAddr 0 0 0 0x0C)] := by
  decide

/-- C14, amended: in both variants, for a permitted write whose value has been entered and
acknowledged, the status returned by `DoWriteAtCursor` is the status of its one fabric write.
A failed write aborts the operation: it is the last fabric call and the status returned is
its failure. After a successful write the verification read is the last fabric call and
`EFI_SUCCESS` is returned whether or not that read fails. -/
theorem C14_write_failure_aborts {σ : Type} (rb : PCI_ROOT_BRIDGE σ) (flag : Bool)
    (B D F o : Nat) (m : DISP_MODE) (keys : List EFI_INPUT_KEY) (Val : Nat)
    (k : EFI_INPUT_KEY) (ks : List EFI_INPUT_KEY) (fab : Fabric σ) (ho : o < 65536) :
    (WritePermitted (GetWritePolicy B D F o m) flag →
      ReadFixedHex (HexDigits m) keys = some (EFI_SUCCESS, Val, k :: ks) →
      WriteStatusSurfaced rb (WidthOfMode m) B D F (AlignCursor o m) fab
        (DoWriteAtCursor rb flag B D F m o keys fab)) ∧
    (((Raw.IsBarOffset (AlignCursor o m) || Raw.IsCapArea (AlignCursor o m)) && !flag) = false →
      Raw.ReadFixedHex (HexDigits m) keys = some (EFI_SUCCESS, Val, k :: ks) →
      WriteStatusSurfaced rb (WidthOfMode m) B D F (AlignCursor o m) fab
        (Raw.DoWriteAtCursor rb flag B D F m o keys fab)) :=
  ⟨fun hperm hhex => OneWriteOneVerify_status rb _ B D F _ fab ks _
      (DoWriteAtCursor_one_write rb flag B D F o m keys Val k ks fab ho hperm hhex),
    fun hgate hhex => OneWriteOneVerify_status rb _ B D F _ fab ks _
      (Raw_DoWriteAtCursor_one_write rb flag B D F o m keys Val k ks fab hgate hhex)⟩

/-- Witness for C14: a word write at 0x3C on a fabric whose writes fail; the failure is what
`DoWriteAtCursor` returns and nothing follows the write. -/
theorem C14_write_failure_aborts_witness :
    (0x3C < 65536) ∧
    WritePermitted (GetWritePolicy 0 0 0 0x3C DISP_WORD) true ∧
    ReadFixedHex (HexDigits DISP_WORD)
      [KeyChar 0x31, KeyChar 0x32, KeyChar 0x33, KeyChar 0x34, KeyChar 0x20] =
      some (EFI_SUCCESS, 0x1234, [KeyChar 0x20]) ∧
    WriteStatusSurfaced WriteFailBus (WidthOfMode DISP_WORD) 0 0 0 (AlignCursor 0x3C DISP_WORD)
      { bus := (), trace := [] }
      (DoWriteAtCursor WriteFailBus true 0 0 0 DISP_WORD 0x3C
        [KeyChar 0x31, KeyChar 0x32, KeyChar 0x33, KeyChar 0x34, KeyChar 0x20]
        { bus := (), trace := [] }) ∧
    (DoWriteAtCursor WriteFailBus true 0 0 0 DISP_WORD 0x3C
      [KeyChar 0x31, KeyChar 0x32, KeyChar 0x33, KeyChar 0x34, KeyChar 0x20]
      { bus := (), trace := [] }).Status = some (EFI_FAILURE 7) :=
  ⟨by decide, by decide, by decide,
    (C14_write_failure_aborts WriteFailBus true 0 0 0 0x3C DISP_WORD
      [KeyChar 0x31, KeyChar 0x32, KeyChar 0x33, KeyChar 0x34, KeyChar 0x20] 0x1234
      (KeyChar 0x20) [] { bus := (), trace := [] } (by decide)).1 (by decide) (by decide),
    by decide⟩

/-! ## Every access goes to the aligned cursor -/

theorem TraceExtendsAt_refl {σ : Type} (w : EFI_PCI_WIDTH) (a : Nat) (fab : Fabric σ) :
    TraceExtendsAt w a fab fab :=
  ⟨[], (List.append_nil _).symm, by simp⟩

theorem TraceExtendsAt_read {σ : Type} (rb : PCI_ROOT_BRIDGE σ) (w : EFI_PCI_WIDTH)
    (B D F c : Nat) (fab fab2 : Fabric σ)
    (h : TraceExtendsAt w (PciCfgAddr B D F c) fab fab2) :
    TraceExtendsAt w (PciCfgAddr B D F c) fab (PciRead rb w B D F c fab2).1 := by
  obtain ⟨ops, h1, h2⟩ := h
  refine ⟨ops ++ [BusOp.read w (PciCfgAddr B D F c)], ?_, ?_⟩
  · rw [PciRead_trace, h1, List.append_assoc]
  · intro op hop
    rcases List.mem_append.1 hop with h | h
    · exact h2 op h
    · rw [List.mem_singleton] at h
      subst h
      exact ⟨rfl, rfl⟩

theorem TraceExtendsAt_write {σ : Type} (rb : PCI_ROOT_BRIDGE σ) (w : EFI_PCI_WIDTH)
    (B D F c v : Nat) (fab fab2 : Fabric σ)
    (h : TraceExtendsAt w (PciCfgAddr B D F c) fab fab2) :
    TraceExtendsAt w (PciCfgAddr B D F c) fab (PciWrite rb w B D F c v fab2).1 := by
  obtain ⟨ops, h1, h2⟩ := h
  refine ⟨ops ++ [BusOp.write w (PciCfgAddr B D F c) v], ?_, ?_⟩
  · rw [PciWrite_trace, h1, List.append_assoc]
  · intro op hop
    rcases List.mem_append.1 hop with h | h
    · exact h2 op h
    · rw [List.mem_singleton] at h
      subst h
      exact ⟨rfl, rfl⟩

theorem WriteTransform_at {σ : Type} (rb : PCI_ROOT_BRIDGE σ) (B D F : Nat) (m : DISP_MODE)
    (c : Nat) (Pol : WRITE_POLICY) (Val : Nat) (fab : Fabric σ) :
    TraceExtendsAt (WidthOfMode m) (PciCfgAddr B D F c) fab
      (WriteTransform rb B D F m c Pol Val fab).1 := by
  obtain ⟨pre, fabpre, v, hcase, heq⟩ := WriteTransform_verify rb B D F m c Pol Val fab
  have hpre : TraceExtendsAt (WidthOfMode m) (PciCfgAddr B D F c) fab fabpre := by
    rcases hcase with ⟨_, _, _, h2, _⟩ | ⟨_, _, _, h2, _⟩ | ⟨_, _, _, _, h2, _⟩
    · rw [h2]; exact TraceExtendsAt_refl _ _ _
    · rw [h2]; exact TraceExtendsAt_read rb _ B D F c fab fab (TraceExtendsAt_refl _ _ _)
    · rw [h2]; exact TraceExtendsAt_read rb _ B D F c fab fab (TraceExtendsAt_refl _ _ _)
  rw [heq]
  split_ifs
  · exact TraceExtendsAt_write rb _ B D F c v fab fabpre hpre
  · exact TraceExtendsAt_read rb _ B D F c fab _ (TraceExtendsAt_write rb _ B D F c v fab fabpre hpre)

theorem DoWriteAtCursor_at {σ : Type} (rb : PCI_ROOT_BRIDGE σ) (flag : Bool)
    (B D F : Nat) (m : DISP_MODE) (c : Nat) (keys : List EFI_INPUT_KEY) (fab : Fabric σ) :
    TraceExtendsAt (WidthOfMode m) (PciCfgAddr B D F (AlignCursor c m)) fab
      (DoWriteAtCursor rb flag B D F m c keys fab).fab := by
  unfold DoWriteAtCursor
  dsimp only
  split_ifs
  · rw [AckReturn_fab]; exact TraceExtendsAt_refl _ _ _
  · rw [AckReturn_fab]; exact TraceExtendsAt_refl _ _ _
  · cases hr : ReadFixedHex (HexDigits m) keys with
    | none => exact TraceExtendsAt_refl _ _ _
    | some r =>
      obtain ⟨st, v, ks⟩ := r
      dsimp only
      split_ifs
      · exact TraceExtendsAt_refl _ _ _
      · rw [AckReturn_fab]
        exact WriteTransform_at rb B D F m (AlignCursor c m) _ v fab

theorem Raw_DoWriteAtCursor_at {σ : Type} (rb : PCI_ROOT_BRIDGE σ) (flag : Bool)
    (B D F : Nat) (m : DISP_MODE) (c : Nat) (keys : List EFI_INPUT_KEY) (fab : Fabric σ) :
    TraceExtendsAt (WidthOfMode m) (PciCfgAddr B D F (AlignCursor c m)) fab
      (Raw.DoWriteAtCursor rb flag B D F m c keys fab).fab := by
  cases hd : ((Raw.IsBarOffset (AlignCursor c m) || Raw.IsCapArea (AlignCursor c m)) && !flag)
  · rw [Raw_DoWriteAtCursor_direct rb flag B D F m c keys fab hd]
    unfold SpecRawWrite
    cases hr : Raw.ReadFixedHex (HexDigits m) keys with
    | none => exact TraceExtendsAt_refl _ _ _
    | some r =>
      obtain ⟨st, v, ks⟩ := r
      dsimp only
      split_ifs
      · exact TraceExtendsAt_refl _ _ _
      · rw [AckReturn_fab]
        exact TraceExtendsAt_write rb _ B D F _ _ fab fab (TraceExtendsAt_refl _ _ _)
      · rw [AckReturn_fab]
        exact TraceExtendsAt_read rb _ B D F _ fab _
          (TraceExtendsAt_write rb _ B D F _ _ fab fab (TraceExtendsAt_refl _ _ _))
  · rw [Raw_DoWriteAtCursor_blocked rb flag B D F m c keys fab hd, AckReturn_fab]
    exact TraceExtendsAt_refl _ _ _

theorem ProbeAtWidth_at {σ : Type} (rb : PCI_ROOT_BRIDGE σ) (w : EFI_PCI_WIDTH)
    (B D F c : Nat) (fab : Fabric σ) :
    TraceExtendsAt w (PciCfgAddr B D F c) fab (ProbeAtWidth rb w B D F c fab).1 := by
  have r1 := TraceExtendsAt_read rb w B D F c fab fab (TraceExtendsAt_refl _ _ _)
  have r2 := TraceExtendsAt_write rb w B D F c
    (((PciRead rb w B D F c fab).2.2 ^^^ 0xFFFFFFFF) % 2 ^ w.bits) fab _ r1
  have r3 := TraceExtendsAt_read rb w B D F c fab _ r2
  have r4 := TraceExtendsAt_write rb w B D F c (PciRead rb w B D F c fab).2.2 fab _ r3
  unfold ProbeAtWidth
  dsimp only
  split_ifs
  · exact r1
  · exact r2
  · exact r4
  · exact r4

theorem Probe_at {σ : Type} (rb : PCI_ROOT_BRIDGE σ) (B D F : Nat) (m : DISP_MODE)
    (c : Nat) (fab : Fabric σ) :
    TraceExtendsAt (WidthOfMode m) (PciCfgAddr B D F (AlignCursor c m)) fab
      (ProbeWritableMaskAtCursor rb B D F m c fab).1 := by
  cases hs : IsProbeSafe (AlignCursor c m) m
  · rw [Probe_rejected rb B D F m c fab hs]
    exact TraceExtendsAt_refl _ _ _
  · rw [Probe_eq_ProbeAtWidth rb B D F m c fab hs]
    exact ProbeAtWidth_at rb _ B D F _ fab

/-! ## C15 -/

/-- C15: for every 16-bit cursor `c` and mode `m`, whose size `StepByMode m` is 1, 2 or 4 (the
access width in bytes), `AlignCursor c m = c - c % StepByMode m`: a multiple of the size, not
above `c`, and no multiple of the size up to `c` is larger; `AlignCursor 0x05 DISP_DWORD` is
`0x04`; aligning twice is aligning once; and every fabric call, read or write, issued by
`DoWriteAtCursor` (both variants) and by `ProbeWritableMaskAtCursor` for `(c, m)` is at the
width of the mode and at the configuration address of offset `AlignCursor c m`. -/
theorem C15_align_rounds_down {σ : Type} (rb : PCI_ROOT_BRIDGE σ) (flag : Bool)
    (B D F c : Nat) (m : DISP_MODE) (keys : List EFI_INPUT_KEY) (fab : Fabric σ)
    (hc : c < 65536) :
    (StepByMode DISP_BYTE = 1 ∧ StepByMode DISP_WORD = 2 ∧ StepByMode DISP_DWORD = 4) ∧
    StepByMode m * 8 = (WidthOfMode m).bits ∧
    AlignCursor c m = c - c % StepByMode m ∧
    StepByMode m ∣ AlignCursor c m ∧
    AlignCursor c m ≤ c ∧
    (∀ k, StepByMode m ∣ k → k ≤ c → k ≤ AlignCursor c m) ∧
    AlignCursor 0x05 DISP_DWORD = 0x04 ∧
    AlignCursor (AlignCursor c m) m = AlignCursor c m ∧
    TraceExtendsAt (WidthOfMode m) (PciCfgAddr B D F (AlignCursor c m)) fab
      (DoWriteAtCursor rb flag B D F m c keys fab).fab ∧
    TraceExtendsAt (WidthOfMode m) (PciCfgAddr B D F (AlignCursor c m)) fab
      (Raw.DoWriteAtCursor rb flag B D F m c keys fab).fab ∧
    TraceExtendsAt (WidthOfMode m) (PciCfgAddr B D F (AlignCursor c m)) fab
      (ProbeWritableMaskAtCursor rb B D F m c fab).1 := by
  have ha := AlignCursor_eq c m hc
  have hs : StepByMode m = 1 ∨ StepByMode m = 2 ∨ StepByMode m = 4 := by
    cases m <;> simp [StepByMode]
  refine ⟨by decide, by cases m <;> rfl, ha, ?_, ?_, ?_, by decide, AlignCursor_idem c m hc,
    DoWriteAtCursor_at rb flag B D F m c keys fab,
    Raw_DoWriteAtCursor_at rb flag B D F m c keys fab, Probe_at rb B D F m c fab⟩
  · rw [ha]
    rcases hs with h | h | h <;> rw [h] <;> omega
  · rw [ha]; omega
  · intro k hk hkc
    rw [ha]
    obtain ⟨j, rfl⟩ := hk
    rcases hs with h | h | h <;> rw [h] at hkc ⊢ <;> omega

/-- Witness for C15: cursor 0x45 in dword mode on the byte memory; the probe issues its four
calls, all at offset 0x44. -/
theorem C15_align_rounds_down_witness :
    (0x45 < 65536) ∧
    AlignCursor 0x45 DISP_DWORD = 0x44 ∧
    (ProbeWritableMaskAtCursor MemBus 0 0 0 DISP_DWORD 0x45
      { bus := fun _ => 0, trace := [] }).1.trace =
      [BusOp.read EfiPciWidthUint32 0x44, BusOp.write EfiPciWidthUint32 0x44 0xFFFFFFFF,
        BusOp.read EfiPciWidthUint32 0x44, BusOp.write EfiPciWidthUint32 0x44 0] ∧
    TraceExtendsAt (WidthOfMode DISP_DWORD) (PciCfgAddr 0 0 0 (AlignCursor 0x45 DISP_DWORD))
      { bus := fun _ => 0, trace := [] }
      (ProbeWritableMaskAtCursor MemBus 0 0 0 DISP_DWORD 0x45
        { bus := fun _ => 0, trace := [] }).1 :=
  ⟨by decide, by decide, by decide,
    (C15_align_rounds_down MemBus false 0 0 0 0x45 DISP_DWORD []
      { bus := fun _ => 0, trace := [] } (by decide)).2.2.2.2.2.2.2.2.2.2⟩

/-! ## The unlock flag in the loop -/

/-- A key with the F9 scan code is never the escape key. -/
theorem IsEsc_F9 (k : EFI_INPUT_KEY) (h : k.ScanCode = SCAN_F9) : IsEsc k = false := by
  unfold IsEsc
  rw [h]
  have : (SCAN_F9 == SCAN_ESC) = false := by decide
  rw [this, Bool.and_false]

/-- The iteration that takes an F9 key. -/
theorem ConfigViewStep_F9 {σ : Type} (rb : PCI_ROOT_BRIDGE σ) (B D F : Nat)
    (s : ViewState σ) (k : EFI_INPUT_KEY) (ks : List EFI_INPUT_KEY)
    (hk : s.keys = k :: ks) (h9 : k.ScanCode = SCAN_F9) :
    ConfigViewStep rb B D F s =
      (LoopCtl.running,
        { s with keys := ks, gDangerousUnlocked := !s.gDangerousUnlocked }) := by
  unfold ConfigViewStep
  rw [hk]
  simp only [WaitKey]
  rw [IsEsc_F9 k h9, if_neg (by decide), if_pos h9]

/-- An iteration that takes any other key, or finds none, leaves the flag as it was. -/
theorem ConfigViewStep_flag {σ : Type} (rb : PCI_ROOT_BRIDGE σ) (B D F : Nat)
    (s : ViewState σ)
    (h : ∀ k ks, s.keys = k :: ks → k.ScanCode ≠ SCAN_F9) :
    (ConfigViewStep rb B D F s).2.gDangerousUnlocked = s.gDangerousUnlocked := by
  have hcases : s.keys = [] ∨ ∃ k ks, s.keys = k :: ks := by
    cases s.keys with
    | nil => exact Or.inl rfl
    | cons k ks => exact Or.inr ⟨k, ks, rfl⟩
  unfold ConfigViewStep
  rcases hcases with hk | ⟨k, ks, hk⟩
  · rw [hk]; rfl
  · have h9 := h k ks hk
    rw [hk]
    simp only [WaitKey]
    split_ifs
    · rfl
    · cases ks <;> rfl
    · cases ks <;> rfl
    · rfl
    · cases (DoWriteAtCursor rb s.gDangerousUnlocked B D F s.Mode s.Cursor ks s.fab).Status <;>
        rfl
    · rfl

/-! ## C16 -/

/-- C16: the flag is initialised to `FALSE`, and the view is entered with that value the first
time. In the editing loop an iteration that takes a key with scan code F9 negates the flag,
goes on, and changes nothing else but the pending keys: cursor, display width, snapshot and
fabric are as before. An iteration that takes any other key (navigation, Tab, Enter with a
permitted, denied or cancelled write, probe, Esc) or finds no key leaves the flag unchanged.
Two consecutive F9 keys bring the state back, but for the two keys consumed. -/
theorem C16_flag_toggled_only_by_F9 {σ : Type} (rb : PCI_ROOT_BRIDGE σ) (B D F : Nat)
    (s : ViewState σ) :
    gDangerousUnlockedInit = false ∧
    (∀ keys fab,
      (ConfigViewInit rb B D F gDangerousUnlockedInit keys fab).gDangerousUnlocked = false) ∧
    (∀ k ks, s.keys = k :: ks → k.ScanCode = SCAN_F9 →
      ConfigViewStep rb B D F s =
        (LoopCtl.running,
          { Mode := s.Mode, Cursor := s.Cursor, Buf := s.Buf,
            gDangerousUnlocked := !s.gDangerousUnlocked, keys := ks, fab := s.fab })) ∧
    (∀ k ks, s.keys = k :: ks → k.ScanCode ≠ SCAN_F9 →
      (ConfigViewStep rb B D F s).2.gDangerousUnlocked = s.gDangerousUnlocked) ∧
    (s.keys = [] →
      (ConfigViewStep rb B D F s).2.gDangerousUnlocked = s.gDangerousUnlocked) ∧
    (∀ k1 k2 ks, s.keys = k1 :: k2 :: ks → k1.ScanCode = SCAN_F9 → k2.ScanCode = SCAN_F9 →
      ConfigViewRun rb B D F 2 s =
        (LoopCtl.running,
          { Mode := s.Mode, Cursor := s.Cursor, Buf := s.Buf,
            gDangerousUnlocked := s.gDangerousUnlocked, keys := ks, fab := s.fab })) := by
  refine ⟨rfl, fun _ _ => rfl, ?_, ?_, ?_, ?_⟩
  · intro k ks hk h9
    exact ConfigViewStep_F9 rb B D F s k ks hk h9
  · intro k ks hk h9
    apply ConfigViewStep_flag
    intro k2 ks2 hk2
    rw [hk] at hk2
    rw [← (List.cons.inj hk2).1]
    exact h9
  · intro hk
    apply ConfigViewStep_flag
    intro k ks hk2
    rw [hk] at hk2
    exact absurd hk2 (by simp)
  · intro k1 k2 ks hk h1 h2
    unfold ConfigViewRun
    rw [ConfigViewStep_F9 rb B D F s k1 (k2 :: ks) hk h1]
    dsimp only
    unfold ConfigViewRun
    rw [ConfigViewStep_F9 rb B D F _ k2 ks rfl h2]
    dsimp only
    unfold ConfigViewRun
    rw [Bool.not_not]

/-- Witness for C16: the view of the byte memory, locked, with the keys F9, F9, Enter. -/
theorem C16_flag_toggled_only_by_F9_witness :
    (ConfigViewInit MemBus 0 0 0 gDangerousUnlockedInit
        [KeyScan SCAN_F9, KeyScan SCAN_F9, KeyChar CHAR_CARRIAGE_RETURN]
        { bus := fun _ => 0, trace := [] }).keys =
      KeyScan SCAN_F9 :: [KeyScan SCAN_F9, KeyChar CHAR_CARRIAGE_RETURN] ∧
    (KeyScan SCAN_F9).ScanCode = SCAN_F9 ∧
    (ConfigViewStep MemBus 0 0 0
      (ConfigViewInit MemBus 0 0 0 gDangerousUnlockedInit
        [KeyScan SCAN_F9, KeyScan SCAN_F9, KeyChar CHAR_CARRIAGE_RETURN]
        { bus := fun _ => 0, trace := [] })).2.gDangerousUnlocked = true ∧
    (ConfigViewRun MemBus 0 0 0 2
      (ConfigViewInit MemBus 0 0 0 gDangerousUnlockedInit
        [KeyScan SCAN_F9, KeyScan SCAN_F9, KeyChar CHAR_CARRIAGE_RETURN]
        { bus := fun _ => 0, trace := [] })).2.gDangerousUnlocked = false :=
  ⟨rfl, rfl,
    by
      rw [(C16_flag_toggled_only_by_F9 MemBus 0 0 0
        (ConfigViewInit MemBus 0 0 0 gDangerousUnlockedInit
          [KeyScan SCAN_F9, KeyScan SCAN_F9, KeyChar CHAR_CARRIAGE_RETURN]
          { bus := fun _ => 0, trace := [] })).2.2.1 (KeyScan SCAN_F9)
        [KeyScan SCAN_F9, KeyChar CHAR_CARRIAGE_RETURN] rfl rfl]
      rfl,
    by
      unfold ConfigViewRun
      rw [ConfigViewStep_F9 MemBus 0 0 0 _ (KeyScan SCAN_F9)
        [KeyScan SCAN_F9, KeyChar CHAR_CARRIAGE_RETURN] rfl rfl]
      dsimp only
      unfold ConfigViewRun
      rw [ConfigViewStep_F9 MemBus 0 0 0 _ (KeyScan SCAN_F9)
        [KeyChar CHAR_CARRIAGE_RETURN] rfl rfl]
      rfl⟩

/-! ## The probe on a register with a writable-bit set -/

theorem masked_readback (b old W : Nat) (ho : old < 2 ^ b) (hW : W < 2 ^ b) :
    (old &&& (2 ^ b - 1 - W)) ||| (((2 ^ b - 1 - old) % 2 ^ b) &&& W) = old ^^^ W := by
  apply Nat.eq_of_testBit_eq
  intro i
  have e1 : 2 ^ b - 1 - W = 2 ^ b - (W + 1) := by omega
  have e2 : 2 ^ b - 1 - old = 2 ^ b - (old + 1) := by omega
  rw [Nat.testBit_or, Nat.testBit_and, Nat.testBit_and, Nat.testBit_mod_two_pow, e1, e2,
    Nat.testBit_two_pow_sub_succ hW, Nat.testBit_two_pow_sub_succ ho, Nat.testBit_xor]
  by_cases hi : i < b
  · simp only [hi, decide_True, Bool.true_and]
    cases old.testBit i <;> cases W.testBit i <;> rfl
  · have h1 : old.testBit i = false :=
      Nat.testBit_lt_two_pow (lt_of_lt_of_le ho (Nat.pow_le_pow_right (by norm_num) (by omega)))
    have h2 : W.testBit i = false :=
      Nat.testBit_lt_two_pow (lt_of_lt_of_le hW (Nat.pow_le_pow_right (by norm_num) (by omega)))
    simp [hi, h1, h2]

theorem masked_restore (b old W : Nat) (ho : old < 2 ^ b) (hW : W < 2 ^ b) :
    ((old ^^^ W) &&& (2 ^ b - 1 - W)) ||| ((old % 2 ^ b) &&& W) = old := by
  apply Nat.eq_of_testBit_eq
  intro i
  have e1 : 2 ^ b - 1 - W = 2 ^ b - (W + 1) := by omega
  rw [Nat.testBit_or, Nat.testBit_and, Nat.testBit_and, Nat.testBit_mod_two_pow, e1,
    Nat.testBit_two_pow_sub_succ hW, Nat.testBit_xor]
  by_cases hi : i < b
  · simp only [hi, decide_True, Bool.true_and]
    cases old.testBit i <;> cases W.testBit i <;> rfl
  · have h1 : old.testBit i = false :=
      Nat.testBit_lt_two_pow (lt_of_lt_of_le ho (Nat.pow_le_pow_right (by norm_num) (by omega)))
    have h2 : W.testBit i = false :=
      Nat.testBit_lt_two_pow (lt_of_lt_of_le hW (Nat.pow_le_pow_right (by norm_num) (by omega)))
    simp [hi, h1, h2]

theorem complement_xor (b old : Nat) (ho : old < 2 ^ b) :
    2 ^ b - 1 - old = old ^^^ (2 ^ b - 1) := by
  apply Nat.eq_of_testBit_eq
  intro i
  have e2 : 2 ^ b - 1 - old = 2 ^ b - (old + 1) := by omega
  rw [e2, Nat.testBit_two_pow_sub_succ ho, Nat.testBit_xor, Nat.testBit_two_pow_sub_one]
  by_cases hi : i < b
  · simp [hi]
  · have h1 : old.testBit i = false :=
      Nat.testBit_lt_two_pow (lt_of_lt_of_le ho (Nat.pow_le_pow_right (by norm_num) (by omega)))
    simp [hi, h1]

/-- The register whose stored value is the state, with writable bits `W`, obeys the laws of
a masked register at every width that holds `W` and at every address. -/
theorem MaskedBus_masked (W : Nat) (w : EFI_PCI_WIDTH) (addr : Nat) (hW : W < 2 ^ w.bits) :
    MaskedReg (MaskedBus W) w addr W where
  mask_lt := hW
  read_state := fun _ => rfl
  read_ok := fun _ => rfl
  write_ok := fun _ _ => rfl
  read_write := by
    intro st v
    simp only [MaskedBus]
    apply Nat.mod_eq_of_lt
    apply Nat.or_lt_two_pow
    · exact lt_of_le_of_lt Nat.and_le_left (Nat.mod_lt _ (Nat.two_pow_pos _))
    · exact lt_of_le_of_lt Nat.and_le_left (Nat.mod_lt _ (Nat.two_pow_pos _))

/-- The probe of a masked register: it succeeds, reports the old value, its complement, the
old value with the writable bits flipped, and the writable bits; afterwards the register reads
the old value. -/
theorem ProbeAtWidth_masked {σ : Type} (rb : PCI_ROOT_BRIDGE σ) (w : EFI_PCI_WIDTH)
    (B D F c W : Nat) (fab : Fabric σ) (h : MaskedReg rb w (PciCfgAddr B D F c) W) :
    (ProbeAtWidth rb w B D F c fab).2 =
      ⟨EFI_SUCCESS, (PciRead rb w B D F c fab).2.2,
        2 ^ w.bits - 1 - (PciRead rb w B D F c fab).2.2,
        (PciRead rb w B D F c fab).2.2 ^^^ W, W⟩ ∧
    (PciRead rb w B D F c (ProbeAtWidth rb w B D F c fab).1).2.2 =
      (PciRead rb w B D F c fab).2.2 := by
  have hold : (PciRead rb w B D F c fab).2.2 < 2 ^ w.bits := PciRead_value_lt _ _ _ _ _ _ _
  have hW := h.mask_lt
  have h1 : EFI_ERROR (ProbeReadOld rb w B D F c fab).2.1 = false := by
    rw [EFI_ERROR_false_iff]; exact h.read_ok _
  have h2 : EFI_ERROR (ProbeWriteTest rb w B D F c fab).2 = false := by
    rw [EFI_ERROR_false_iff]; exact h.write_ok _ _
  have h3 : EFI_ERROR (ProbeReadBack rb w B D F c fab).2.1 = false := by
    rw [EFI_ERROR_false_iff]; exact h.read_ok _
  have hrb : (ProbeReadBack rb w B D F c fab).2.2 = (PciRead rb w B D F c fab).2.2 ^^^ W := by
    have e : (ProbeReadBack rb w B D F c fab).2.2 =
        (rb.Read (rb.Write fab.bus w (PciCfgAddr B D F c)
          (2 ^ w.bits - 1 - (rb.Read fab.bus w (PciCfgAddr B D F c)).2.2 % 2 ^ w.bits)).1
          w (PciCfgAddr B D F c)).2.2 % 2 ^ w.bits := by
      simp only [ProbeReadBack, ProbeWriteTest, ProbeReadOld, PciWrite, PciRead, h.read_state]
    rw [e, h.read_write]
    exact masked_readback w.bits _ W hold hW
  rcases ProbeAtWidth_calls rb w B D F c fab with ⟨hn, _⟩ | ⟨_, hn, _⟩ | ⟨_, _, hf, hr⟩
  · rw [h1] at hn; exact absurd hn (by decide)
  · rw [h2] at hn; exact absurd hn (by decide)
  · constructor
    · rw [hr, h3]
      simp only [Bool.false_eq_true, if_false, ProbeReadOld]
      rw [hrb, Nat.xor_cancel_left, Nat.mod_eq_of_lt hW]
    · rw [hf]
      have e : (PciRead rb w B D F c (ProbeRestore rb w B D F c fab).1).2.2 =
          (rb.Read (rb.Write (rb.Write fab.bus w (PciCfgAddr B D F c)
              (2 ^ w.bits - 1 - (rb.Read fab.bus w (PciCfgAddr B D F c)).2.2 % 2 ^ w.bits)).1
            w (PciCfgAddr B D F c)
            ((rb.Read fab.bus w (PciCfgAddr B D F c)).2.2 % 2 ^ w.bits)).1
            w (PciCfgAddr B D F c)).2.2 % 2 ^ w.bits := by
        simp only [ProbeRestore, ProbeReadBack, ProbeWriteTest, ProbeReadOld, PciWrite, PciRead,
          h.read_state]
      rw [e, h.read_write, h.read_write]
      have e2 := masked_readback w.bits _ W hold hW
      simp only [PciRead] at e2
      rw [e2]
      exact masked_restore w.bits _ W hold hW

/-! ## C17 -/

/-- C17: for a register in the probe window that behaves as a register with writable-bit set
`W` at the width of the mode (reads succeed and return the stored value, writes succeed and a
write of `v` stores `(stored & ~W) | (v & W)`), for every width, every `W` and every stored
value, `ProbeWritableMaskAtCursor` succeeds with `OutMask = W` and the register afterwards
reads what it read before; so `OutMask = 0` exactly when `W` is empty, and
`OutReadBack = OutTest` exactly when `W` is all ones. -/
theorem C17_probe_measures_writable_bits {σ : Type} (rb : PCI_ROOT_BRIDGE σ) (B D F : Nat)
    (m : DISP_MODE) (o W : Nat) (fab : Fabric σ) (ho : 0x40 ≤ o ∧ o < 0x100)
    (hreg : MaskedReg rb (WidthOfMode m) (PciCfgAddr B D F (AlignCursor o m)) W) :
    (ProbeWritableMaskAtCursor rb B D F m o fab).2.Status = EFI_SUCCESS ∧
    (ProbeWritableMaskAtCursor rb B D F m o fab).2.OutMask = W ∧
    (PciRead rb (WidthOfMode m) B D F (AlignCursor o m)
        (ProbeWritableMaskAtCursor rb B D F m o fab).1).2.2 =
      (PciRead rb (WidthOfMode m) B D F (AlignCursor o m) fab).2.2 ∧
    ((ProbeWritableMaskAtCursor rb B D F m o fab).2.OutMask = 0 ↔ W = 0) ∧
    ((ProbeWritableMaskAtCursor rb B D F m o fab).2.OutReadBack =
        (ProbeWritableMaskAtCursor rb B D F m o fab).2.OutTest ↔
      W = 2 ^ (WidthOfMode m).bits - 1) := by
  have hsafe : IsProbeSafe (AlignCursor o m) m = true := by
    rw [IsProbeSafe_align o m (by omega), decide_eq_true_eq]; exact ho
  rw [Probe_eq_ProbeAtWidth rb B D F m o fab hsafe]
  generalize WidthOfMode m = w at hreg ⊢
  generalize AlignCursor o m = c at hreg ⊢
  have hold : (PciRead rb w B D F c fab).2.2 < 2 ^ w.bits := PciRead_value_lt _ _ _ _ _ _ _
  obtain ⟨hout, hafter⟩ := ProbeAtWidth_masked rb w B D F c W fab hreg
  rw [hout]
  refine ⟨rfl, rfl, hafter, Iff.rfl, ?_⟩
  dsimp only
  rw [complement_xor w.bits _ hold]
  exact Nat.xor_right_inj

/-- Witness for C17: a byte register at 0x40 holding 0xA5 whose low four bits are writable;
the probe reports mask 0x0F, read-back 0xAA against test value 0x5A, and the register holds
0xA5 afterwards. -/
theorem C17_probe_measures_writable_bits_witness :
    (0x40 ≤ 0x40 ∧ 0x40 < 0x100) ∧
    MaskedReg (MaskedBus 0x0F) (WidthOfMode DISP_BYTE)
      (PciCfgAddr 0 0 0 (AlignCursor 0x40 DISP_BYTE)) 0x0F ∧
    ((ProbeWritableMaskAtCursor (MaskedBus 0x0F) 0 0 0 DISP_BYTE 0x40
        { bus := 0xA5, trace := [] }).1.bus,
      (ProbeWritableMaskAtCursor (MaskedBus 0x0F) 0 0 0 DISP_BYTE 0x40
        { bus := 0xA5, trace := [] }).1.trace,
      (ProbeWritableMaskAtCursor (MaskedBus 0x0F) 0 0 0 DISP_BYTE 0x40
        { bus := 0xA5, trace := [] }).2) =
      (0xA5,
        [BusOp.read EfiPciWidthUint8 0x40, BusOp.write EfiPciWidthUint8 0x40 0x5A,
          BusOp.read EfiPciWidthUint8 0x40, BusOp.write EfiPciWidthUint8 0x40 0xA5],
        ⟨EFI_SUCCESS, 0xA5, 0x5A, 0xAA, 0x0F⟩) ∧
    (ProbeWritableMaskAtCursor (MaskedBus 0x0F) 0 0 0 DISP_BYTE 0x40
      { bus := 0xA5, trace := [] }).2.OutMask = 0x0F :=
  ⟨by decide, MaskedBus_masked 0x0F _ _ (by decide), by decide,
    (C17_probe_measures_writable_bits (MaskedBus 0x0F) 0 0 0 DISP_BYTE 0x40 0x0F
      { bus := 0xA5, trace := [] } (by decide)
      (MaskedBus_masked 0x0F _ _ (by decide))).2.1⟩

/-! ## The cursor in the loop -/

theorem AlignCursor_inv (c : Nat) (m : DISP_MODE) (hc : c < 0x100) :
    AlignCursor c m < 0x100 ∧ AlignCursor c m % StepByMode m = 0 := by
  rw [AlignCursor_eq c m (by omega)]
  have hs : StepByMode m = 1 ∨ StepByMode m = 2 ∨ StepByMode m = 4 := by
    cases m <;> simp [StepByMode]
  rcases hs with h | h | h <;> rw [h] <;> omega

theorem MoveCursor_inv (m : DISP_MODE) (c sc : Nat) (hc : c < 0x100) :
    MoveCursor m c sc < 0x100 ∧ MoveCursor m c sc % StepByMode m = 0 := by
  unfold MoveCursor
  dsimp only
  apply AlignCursor_inv
  split_ifs <;> omega

/-- An iteration of the loop keeps the cursor inside the 256 bytes and aligned. -/
theorem ConfigViewStep_inv {σ : Type} (rb : PCI_ROOT_BRIDGE σ) (B D F : Nat)
    (s : ViewState σ) (h : CursorInv s) : CursorInv (ConfigViewStep rb B D F s).2 := by
  have hcases : s.keys = [] ∨ ∃ k ks, s.keys = k :: ks := by
    cases s.keys with
    | nil => exact Or.inl rfl
    | cons k ks => exact Or.inr ⟨k, ks, rfl⟩
  unfold CursorInv at h ⊢
  unfold ConfigViewStep
  rcases hcases with hk | ⟨k, ks, hk⟩
  · rw [hk]; exact h
  · rw [hk]
    simp only [WaitKey]
    split_ifs
    · exact h
    · exact h
    · cases ks <;> exact h
    · cases ks <;> exact h
    · exact AlignCursor_inv _ _ h.1
    · cases (DoWriteAtCursor rb s.gDangerousUnlocked B D F s.Mode s.Cursor ks s.fab).Status <;>
        exact h
    · exact MoveCursor_inv _ _ _ h.1

/-- Every state the loop reaches keeps the cursor inside the 256 bytes and aligned. -/
theorem ConfigViewRun_inv {σ : Type} (rb : PCI_ROOT_BRIDGE σ) (B D F : Nat) (n : Nat)
    (s0 : ViewState σ) (h0 : CursorInv s0) : CursorInv (ConfigViewRun rb B D F n s0).2 := by
  induction n generalizing s0 with
  | zero => exact h0
  | succ n ih =>
    unfold ConfigViewRun
    have hstep := ConfigViewStep_inv rb B D F s0 h0
    rcases hs : ConfigViewStep rb B D F s0 with ⟨ctl, s1⟩
    rw [hs] at hstep
    cases ctl
    · exact ih s1 hstep
    · exact hstep
    · exact hstep

/-- The iteration that takes a Tab key. -/
theorem ConfigViewStep_tab {σ : Type} (rb : PCI_ROOT_BRIDGE σ) (B D F : Nat)
    (s : ViewState σ) (k : EFI_INPUT_KEY) (ks : List EFI_INPUT_KEY)
    (hk : s.keys = k :: ks) (hesc : IsEsc k = false) (h9 : k.ScanCode ≠ SCAN_F9)
    (htab : IsTab k = true) :
    ConfigViewStep rb B D F s =
      (LoopCtl.running,
        { s with keys := ks, Mode := NextMode s.Mode,
                 Cursor := AlignCursor s.Cursor (NextMode s.Mode) }) := by
  have hp : ¬ (k.UnicodeChar = 0x70 ∨ k.UnicodeChar = 0x50) := by
    have : k.UnicodeChar = CHAR_TAB := by simpa [IsTab] using htab
    rw [this]
    decide
  unfold ConfigViewStep
  rw [hk]
  simp only [WaitKey]
  rw [hesc, if_neg (by decide), if_neg h9, if_neg hp, htab, if_pos rfl]

/-! ## C18 -/

/-- C18: the loop starts at cursor 0 in dword mode, and after any number of iterations over any
keys (arrows, Tab, F9, Enter, probe, anything else) the cursor is below 0x100 and a multiple
of the size of the current width, hence already aligned, and cursor + size is at most 0x100.
The width switch goes Byte, Word, Dword, Byte, and the iteration that takes a Tab key sets the
mode to the next one and the cursor to its alignment for the new mode. -/
theorem C18_cursor_invariant {σ : Type} (rb : PCI_ROOT_BRIDGE σ) (B D F : Nat) (flag : Bool)
    (keys : List EFI_INPUT_KEY) (fab : Fabric σ) (n : Nat) (s : ViewState σ) :
    ((ConfigViewInit rb B D F flag keys fab).Cursor = 0 ∧
      (ConfigViewInit rb B D F flag keys fab).Mode = DISP_DWORD) ∧
    ((ConfigViewRun rb B D F n (ConfigViewInit rb B D F flag keys fab)).2.Cursor < 0x100 ∧
      (ConfigViewRun rb B D F n (ConfigViewInit rb B D F flag keys fab)).2.Cursor %
        StepByMode (ConfigViewRun rb B D F n (ConfigViewInit rb B D F flag keys fab)).2.Mode
        = 0 ∧
      AlignCursor (ConfigViewRun rb B D F n (ConfigViewInit rb B D F flag keys fab)).2.Cursor
        (ConfigViewRun rb B D F n (ConfigViewInit rb B D F flag keys fab)).2.Mode =
        (ConfigViewRun rb B D F n (ConfigViewInit rb B D F flag keys fab)).2.Cursor ∧
      (ConfigViewRun rb B D F n (ConfigViewInit rb B D F flag keys fab)).2.Cursor +
        StepByMode (ConfigViewRun rb B D F n (ConfigViewInit rb B D F flag keys fab)).2.Mode
        ≤ 0x100) ∧
    (NextMode DISP_BYTE = DISP_WORD ∧ NextMode DISP_WORD = DISP_DWORD ∧
      NextMode DISP_DWORD = DISP_BYTE) ∧
    (∀ k ks, s.keys = k :: ks → IsEsc k = false → k.ScanCode ≠ SCAN_F9 → IsTab k = true →
      ConfigViewStep rb B D F s =
        (LoopCtl.running,
          { Mode := NextMode s.Mode, Cursor := AlignCursor s.Cursor (NextMode s.Mode),
            Buf := s.Buf, gDangerousUnlocked := s.gDangerousUnlocked, keys := ks,
            fab := s.fab })) := by
  have hinit : CursorInv (ConfigViewInit rb B D F flag keys fab) :=
    ⟨(by decide : (0 : Nat) < 0x100), rfl⟩
  obtain ⟨h1, h2⟩ := ConfigViewRun_inv rb B D F n _ hinit
  refine ⟨⟨rfl, rfl⟩, ⟨h1, h2, ?_, ?_⟩, ⟨rfl, rfl, rfl⟩, ?_⟩
  · rw [AlignCursor_eq _ _ (by omega), h2, Nat.sub_zero]
  · generalize (ConfigViewRun rb B D F n (ConfigViewInit rb B D F flag keys fab)).2 = t at h1 h2
    have hs : StepByMode t.Mode = 1 ∨ StepByMode t.Mode = 2 ∨ StepByMode t.Mode = 4 := by
      cases t.Mode <;> simp [StepByMode]
    rcases hs with h | h | h <;> rw [h] at h2 ⊢ <;> omega
  · intro k ks hk hesc h9 htab
    exact ConfigViewStep_tab rb B D F s k ks hk hesc h9 htab

/-- Witness for C18: right to 0x04, down to 0x14, Tab to byte mode, right to 0x15, Tab to word
mode, which re-aligns the cursor to 0x14. -/
theorem C18_cursor_invariant_witness :
    ((ConfigViewRun MemBus 0 0 0 5
      (ConfigViewInit MemBus 0 0 0 false
        [KeyScan SCAN_RIGHT, KeyScan SCAN_DOWN, KeyChar CHAR_TAB, KeyScan SCAN_RIGHT,
          KeyChar CHAR_TAB] { bus := fun _ => 0, trace := [] })).2.Cursor,
      (ConfigViewRun MemBus 0 0 0 5
      (ConfigViewInit MemBus 0 0 0 false
        [KeyScan SCAN_RIGHT, KeyScan SCAN_DOWN, KeyChar CHAR_TAB, KeyScan SCAN_RIGHT,
          KeyChar CHAR_TAB] { bus := fun _ => 0, trace := [] })).2.Mode) = (0x14, DISP_WORD) ∧
    (ConfigViewRun MemBus 0 0 0 5
      (ConfigViewInit MemBus 0 0 0 false
        [KeyScan SCAN_RIGHT, KeyScan SCAN_DOWN, KeyChar CHAR_TAB, KeyScan SCAN_RIGHT,
          KeyChar CHAR_TAB] { bus := fun _ => 0, trace := [] })).2.Cursor < 0x100 :=
  ⟨by decide,
    (C18_cursor_invariant MemBus 0 0 0 false
      [KeyScan SCAN_RIGHT, KeyScan SCAN_DOWN, KeyChar CHAR_TAB, KeyScan SCAN_RIGHT,
        KeyChar CHAR_TAB] { bus := fun _ => 0, trace := [] } 5
      (ConfigViewInit MemBus 0 0 0 false [] { bus := fun _ => 0, trace := [] })).2.1.1⟩

/-! ## C19 -/

set_option maxRecDepth 100000 in
/-- C19, evaluated on the code: with the flag locked, the writes the policy table permits and
whose bytes reach a protected field are exactly the dword write with the cursor in 0x0C to
0x0F (it covers the header-type byte 0x0E), the byte writes at 0x25, 0x26 and 0x27 and the word
write with the cursor at 0x26 or 0x27 (bytes of the sixth base-address register). On the byte
memory, with the flag locked, `DoWriteAtCursor` in byte mode at 0x25 and in word mode at 0x26
issues the write and the stored bytes change. -/
theorem C19_locked_write_reaches_protected_bytes :
    (∀ B D F : Nat, ∀ o < 0x100, ∀ m : DISP_MODE,
      (WritePermitted (GetWritePolicy B D F o m) false ∧
          (WrittenBytes o m).any SpecProtectedByte = true) ↔
        ((m = DISP_DWORD ∧ 0x0C ≤ o ∧ o ≤ 0x0F) ∨ (m = DISP_BYTE ∧ 0x25 ≤ o ∧ o ≤ 0x27) ∨
          (m = DISP_WORD ∧ 0x26 ≤ o ∧ o ≤ 0x27))) ∧
    ((DoWriteAtCursor MemBus false 0 0 0 DISP_BYTE 0x25
        [KeyChar 0x31, KeyChar 0x32, KeyChar 0x20] { bus := fun _ => 0, trace := [] }).Status,
      (DoWriteAtCursor MemBus false 0 0 0 DISP_BYTE 0x25
        [KeyChar 0x31, KeyChar 0x32, KeyChar 0x20]
        { bus := fun _ => 0, trace := [] }).fab.trace,
      (DoWriteAtCursor MemBus false 0 0 0 DISP_BYTE 0x25
        [KeyChar 0x31, KeyChar 0x32, KeyChar 0x20]
        { bus := fun _ => 0, trace := [] }).fab.bus 0x25) =
      (some EFI_SUCCESS,
        [BusOp.write EfiPciWidthUint8 0x25 0x12, BusOp.read EfiPciWidthUint8 0x25], 0x12) ∧
    ((DoWriteAtCursor MemBus false 0 0 0 DISP_WORD 0x26
        [KeyChar 0x31, KeyChar 0x32, KeyChar 0x33, KeyChar 0x34, KeyChar 0x20]
        { bus := fun _ => 0, trace := [] }).Status,
      (DoWriteAtCursor MemBus false 0 0 0 DISP_WORD 0x26
        [KeyChar 0x31, KeyChar 0x32, KeyChar 0x33, KeyChar 0x34, KeyChar 0x20]
        { bus := fun _ => 0, trace := [] }).fab.trace,
      (DoWriteAtCursor MemBus false 0 0 0 DISP_WORD 0x26
        [KeyChar 0x31, KeyChar 0x32, KeyChar 0x33, KeyChar 0x34, KeyChar 0x20]
        { bus := fun _ => 0, trace := [] }).fab.bus 0x27) =
      (some EFI_SUCCESS,
        [BusOp.write EfiPciWidthUint16 0x26 0x1234, BusOp.read EfiPciWidthUint16 0x26], 0x12) := by
  have h : ∀ o < 0x100, ∀ m : DISP_MODE,
      (WritePermitted (GetWritePolicy 0 0 0 o m) false ∧
          (WrittenBytes o m).any SpecProtectedByte = true) ↔
        ((m = DISP_DWORD ∧ 0x0C ≤ o ∧ o ≤ 0x0F) ∨ (m = DISP_BYTE ∧ 0x25 ≤ o ∧ o ≤ 0x27) ∨
          (m = DISP_WORD ∧ 0x26 ≤ o ∧ o ≤ 0x27)) := by
    decide
  refine ⟨fun B D F o ho m => ?_, by decide, by decide⟩
  rw [GetWritePolicy_addr]
  exact h o ho m

end PciUtility
